import Mathlib

/-!
# Prism host driver: opcode channel, bank transfer and device lifecycle

A shallow embedding of `src/src/prism.cpp` together with the inline wrappers of
`src/inc/prism/prism.h`.

The Arduino primitives the driver calls (`Wire`, `digitalWrite`, `digitalRead`,
`delay`, `delayMicroseconds`, `Serial`) are modelled by an event trace: every
call appends one `Event`, and whatever the outside world answers (the status of
`Wire.endTransmission`, the bytes a slave returns, the level of an input pin)
is given by an `Env`, a function of the trace recorded so far.  Machine integers
are natural numbers, reduced modulo `2 ^ w` where the C code truncates.
-/

namespace Prism

/-! ## Constants of `src/inc/prism/prism.h` -/

/-- The `prism_err` enumeration; the enumerators are listed in the order of the
header, so that the C value of each one is its position. -/
inductive prism_err where
  | PR_OK
  | PR_ERR_INVALID_ARGUMENT
  | PR_ERR_OUT_OF_MEMORY
  | PR_ERR_UNSUPPORTED_OPERATION
  | PR_ERR_UNKNOWN
  deriving DecidableEq, Repr

open prism_err

/-- The integer value of an enumerator of `prism_err` (`PR_OK = 0`, then counting up). -/
def prism_err.toNat : prism_err → Nat
  | PR_OK => 0
  | PR_ERR_INVALID_ARGUMENT => 1
  | PR_ERR_OUT_OF_MEMORY => 2
  | PR_ERR_UNSUPPORTED_OPERATION => 3
  | PR_ERR_UNKNOWN => 4

def PRISM_OPCODE_ARCH_INIT : Nat := 0x00
def PRISM_OPCODE_ARCH_GET_FLANK : Nat := 0x01
def PRISM_OPCODE_ARCH_GET_VERSION_MAJOR : Nat := 0x02
def PRISM_OPCODE_ARCH_GET_VERSION_MINOR : Nat := 0x03
def PRISM_OPCODE_ARCH_GET_VERSION_PATCH : Nat := 0x04
def PRISM_OPCODE_ARCH_RESET : Nat := 0x05
def PRISM_OPCODE_ARCH_END : Nat := 0x06

def PRISM_OPCODE_TYPE_UI32 : Nat := 0xD0
def PRISM_OPCODE_TYPE_SI32 : Nat := 0xD1
def PRISM_OPCODE_TYPE_UI16 : Nat := 0xD2
def PRISM_OPCODE_TYPE_SI16 : Nat := 0xD3
def PRISM_OPCODE_TYPE_UI8 : Nat := 0xD4
def PRISM_OPCODE_TYPE_SI8 : Nat := 0xD5

def PRISM_OPCODE_STORE_A : Nat := 0x58
def PRISM_OPCODE_STORE_B : Nat := 0x59
def PRISM_OPCODE_LOAD_C : Nat := 0x5A
def PRISM_OPCODE_LOAD_D : Nat := 0x5B
def PRISM_OPCODE_LOAD_A : Nat := 0x5C
def PRISM_OPCODE_LOAD_B : Nat := 0x5D
def PRISM_OPCODE_END : Nat := 0x5F

/-- The enumerators of `bank_t`.  A `bank_t` argument is a natural number, since a C
caller can pass any integer where the enumeration is expected. -/
def PRISM_BANK_A : Nat := 0x00
def PRISM_BANK_B : Nat := 0x01
def PRISM_BANK_C : Nat := 0x02
def PRISM_BANK_D : Nat := 0x03
def PRISM_BANK_MAX : Nat := 0x04

def PRISM_PIN_1LOW_DEFAULT : Nat := 2
def PRISM_PIN_2LOW_DEFAULT : Nat := 3
def PRISM_PIN_3LOW_DEFAULT : Nat := 4
def PRISM_PIN_4LOW_DEFAULT : Nat := 5
def PRISM_PIN_CLK_DEFAULT : Nat := 6
def PRISM_PIN_NXT_DEFAULT : Nat := 7
def PRISM_PIN_7HIGH_DEFAULT : Nat := 8
def PRISM_PIN_8HIGH_DEFAULT : Nat := 9
def PRISM_PIN_9HIGH_DEFAULT : Nat := 10
def PRISM_PIN_10HIGH_DEFAULT : Nat := 11

def UINT16_MAX : Nat := 65535
def HIGH : Nat := 1
def LOW : Nat := 0

/-! ## Data model -/

/-- The 256-bit vector `_v256i`, seen through its `ui` member: 8 lanes of 32 bits. -/
structure _v256i where
  ui : Fin 8 → Nat

/-- The pin configuration `prism_dev_config_t`. -/
structure prism_dev_config_t where
  pin1low : Nat
  pin2low : Nat
  pin3low : Nat
  pin4low : Nat
  pin5Time : Nat
  pin6Next : Nat
  pin7high : Nat
  pin8high : Nat
  pin9high : Nat
  pin10high : Nat
  deriving DecidableEq, Repr

/-- The device handle `prdev_t`. -/
structure prdev_t where
  address : Nat
  config : prism_dev_config_t
  flank : Nat
  major : Nat
  minor : Nat
  patch : Nat
  deriving DecidableEq, Repr

/-! ## The outside world -/

/-- One call of an Arduino primitive, with the value it was given or returned. -/
inductive Event where
  | wireBegin
  | beginTransmission (address : Nat)
  | wireWrite (data : List Nat)
  | endTransmission (status : Nat)
  | requestFrom (address quantity : Nat) (received : List Nat)
  | delay (ms : Nat)
  | delayMicroseconds (us : Nat)
  | digitalWrite (pin level : Nat)
  | digitalRead (pin level : Nat)
  | serialPrint (text : String)
  | serialPrintNum (n : Nat)
  | serialPrintlnNum (n : Nat)
  deriving DecidableEq, Repr

/-- The platform and the behaviour of everything attached to it.  `alignLog` and
`bigEndian` fix the ABI of the compiler (scalars are aligned to their size, capped at
`2 ^ alignLog` bytes); the three functions answer a bus write, a bus read and a pin
read from the history of events up to that call. -/
structure Env where
  alignLog : Nat
  bigEndian : Bool
  endTx : List Event → Nat
  slave : List Event → List Nat
  pin : List Event → Nat → Bool

/-- What the driver has done so far (`trace`, oldest event first) and the receive
buffer of the `Wire` object (`rx`). -/
structure World where
  trace : List Event
  rx : List Nat

/-- Append one event to the trace. -/
def emit (e : Event) (w : World) : World :=
  { w with trace := w.trace ++ [e] }

def Wire_begin (w : World) : World := emit Event.wireBegin w

def Wire_beginTransmission (address : Nat) (w : World) : World :=
  emit (Event.beginTransmission address) w

def Wire_write (data : List Nat) (w : World) : World :=
  emit (Event.wireWrite data) w

/-- The primitive `Wire.endTransmission()`: the bus answers with a status byte, 0 for success. -/
def Wire_endTransmission (env : Env) (w : World) : Nat × World :=
  let status := env.endTx w.trace % 256
  (status, emit (Event.endTransmission status) w)

/-- The primitive `Wire.requestFrom(address, quantity)`: the receive buffer is replaced by at
most `quantity` bytes of what the slave offers. -/
def Wire_requestFrom (env : Env) (address quantity : Nat) (w : World) : World :=
  let received := ((env.slave w.trace).take quantity).map (fun b => b % 256)
  { trace := w.trace ++ [Event.requestFrom address quantity received], rx := received }

/-- The primitive `Wire.available()`: the number of bytes left in the receive buffer. -/
def Wire_available (w : World) : Nat := w.rx.length

/-- The primitive `Wire.read()` stored in a `uint8_t`: the next byte of the receive buffer;
on an empty buffer the library returns -1, which is 255 as a byte. -/
def Wire_read (w : World) : Nat × World :=
  match w.rx with
  | [] => (255, w)
  | b :: rest => (b, { w with rx := rest })

def delay (ms : Nat) (w : World) : World := emit (Event.delay ms) w

def delayMicroseconds (us : Nat) (w : World) : World := emit (Event.delayMicroseconds us) w

def digitalWrite (pin level : Nat) (w : World) : World := emit (Event.digitalWrite pin level) w

/-- The primitive `digitalRead(pin)`: `HIGH` (1) or `LOW` (0). -/
def digitalRead (env : Env) (pin : Nat) (w : World) : Nat × World :=
  let level := if env.pin w.trace pin then HIGH else LOW
  (level, emit (Event.digitalRead pin level) w)

def Serial_print (text : String) (w : World) : World := emit (Event.serialPrint text) w

def Serial_printNum (n : Nat) (w : World) : World := emit (Event.serialPrintNum n) w

def Serial_printlnNum (n : Nat) (w : World) : World := emit (Event.serialPrintlnNum n) w

/-! ## Object representation of `prism_send_data_t` -/

/-- A scalar member of a struct: its size in bytes and its value. -/
structure Member where
  size : Nat
  value : Nat

/-- Alignment of a scalar of `size` bytes on the platform. -/
def alignOf (env : Env) (size : Nat) : Nat := min size (2 ^ env.alignLog)

/-- Number of padding bytes needed to bring offset `off` to a multiple of `a`. -/
def padding (a off : Nat) : Nat := (a - off % a) % a

/-- The `size` bytes of the object representation of an unsigned scalar. -/
def scalarBytes (env : Env) (size value : Nat) : List Nat :=
  let le := (List.range size).map (fun i => value / 256 ^ i % 256)
  if env.bigEndian then le.reverse else le

/-- Lay the members out one after the other behind the bytes `acc` already placed, each
at the next offset that is a multiple of its alignment (padding bytes are written as 0). -/
def layout (env : Env) : List Member → List Nat → List Nat
  | [], acc => acc
  | m :: ms, acc =>
    layout env ms
      (acc ++ List.replicate (padding (alignOf env m.size) acc.length) 0
        ++ scalarBytes env m.size m.value)

/-- Alignment of a struct: the largest alignment of its members. -/
def structAlign (env : Env) (ms : List Member) : Nat :=
  (ms.map (fun m => alignOf env m.size)).foldl max 1

/-- Object representation of a struct: the members laid out in declaration order, then
tail padding up to a multiple of the struct alignment. -/
def structBytes (env : Env) (ms : List Member) : List Nat :=
  let body := layout env ms []
  body ++ List.replicate (padding (structAlign env ms) body.length) 0

/-- The bytes of a `prism_send_data_t` value
`{uint16_t op; ui8 arg; ui8 type; timeout_t timeout;}`, as `Wire.write` sees them through
the `uint8_t *` cast; its length is `sizeof(prism_send_data_t)`. -/
def prism_send_data_bytes (env : Env) (op arg type timeout : Nat) : List Nat :=
  structBytes env [⟨2, op⟩, ⟨1, arg⟩, ⟨1, type⟩, ⟨4, timeout⟩]

/-! ## I2C opcode channel (`src/src/prism.cpp`) -/

/-- The function `_prism_arch_send_opcode_arg1` of `src/src/prism.cpp`. -/
def _prism_arch_send_opcode_arg1 (env : Env) (dev : Option prdev_t)
    (op type arg timeout : Nat) (w : World) : prism_err × World :=
  match dev with
  | none => (PR_ERR_INVALID_ARGUMENT, w)
  | some d =>
    let data := prism_send_data_bytes env op arg type timeout
    let w := Wire_beginTransmission d.address w
    let w := Wire_write data w
    let (err, w) := Wire_endTransmission env w
    if err ≠ 0 then (PR_ERR_UNKNOWN, w)
    else
      let w := delay 50 w
      let w := Wire_requestFrom env d.address 1 w
      if Wire_available w = 0 then (PR_ERR_UNKNOWN, w)
      else
        let (response, w) := Wire_read w
        if response ≠ 0x01 then (PR_ERR_UNKNOWN, w)
        else (PR_OK, w)

/-- The function `_prism_arch_send_opcode` of `src/src/prism.cpp`. -/
def _prism_arch_send_opcode (env : Env) (dev : Option prdev_t)
    (op type timeout : Nat) (w : World) : prism_err × World :=
  if dev = none then (PR_ERR_INVALID_ARGUMENT, w)
  else if op = 0 then (PR_ERR_INVALID_ARGUMENT, w)
  else if type = 0 then (PR_ERR_INVALID_ARGUMENT, w)
  else _prism_arch_send_opcode_arg1 env dev op type 255 timeout w

/-- The function `_prism_arch_get_variable` of `src/src/prism.cpp`; the result is a
`uint8_t`, so the `PR_ERR_UNKNOWN` it returns on an empty buffer is that enumerator's value. -/
def _prism_arch_get_variable (env : Env) (dev : Option prdev_t) (op : Nat)
    (w : World) : Nat × World :=
  match dev with
  | none => (0, w)
  | some d =>
    let data := prism_send_data_bytes env op 0 PRISM_OPCODE_TYPE_UI8 UINT16_MAX
    let w := Wire_beginTransmission d.address w
    let w := Wire_write data w
    let w := (Wire_endTransmission env w).2
    let w := delay 50 w
    let w := Wire_requestFrom env d.address 1 w
    if Wire_available w = 0 then (PR_ERR_UNKNOWN.toNat % 256, w)
    else Wire_read w

/-! ## Byte and word transporter (`src/src/prism.cpp`) -/

/-- The function `__prism_send_byte` of `src/src/prism.cpp`; the parameter `byte` is a `uint8_t`. -/
def __prism_send_byte (dev : prdev_t) (byte : Nat) (new_entry : Bool) (w : World) : World :=
  let byte := byte % 256
  let w := digitalWrite dev.config.pin5Time HIGH w
  let w := digitalWrite dev.config.pin6Next (if new_entry then HIGH else LOW) w
  let w := digitalWrite dev.config.pin1low (byte &&& 0x01) w
  let w := digitalWrite dev.config.pin2low ((byte >>> 1) &&& 0x01) w
  let w := digitalWrite dev.config.pin3low ((byte >>> 2) &&& 0x01) w
  let w := digitalWrite dev.config.pin4low ((byte >>> 3) &&& 0x01) w
  let w := digitalWrite dev.config.pin7high ((byte >>> 4) &&& 0x01) w
  let w := digitalWrite dev.config.pin8high ((byte >>> 5) &&& 0x01) w
  let w := digitalWrite dev.config.pin9high ((byte >>> 6) &&& 0x01) w
  let w := digitalWrite dev.config.pin10high ((byte >>> 7) &&& 0x01) w
  let w := delayMicroseconds 2 w
  let w := digitalWrite dev.config.pin5Time LOW w
  let w := if new_entry = true then digitalWrite dev.config.pin6Next LOW w else w
  delayMicroseconds 4 w

/-- The function `__prism_send_uint32` of `src/src/prism.cpp`; `entry` is a `ui32`. -/
def __prism_send_uint32 (dev : prdev_t) (entry : Nat) (w : World) : World :=
  let entry := entry % 2 ^ 32
  let w := __prism_send_byte dev (entry &&& 0xFF) true w
  let w := __prism_send_byte dev ((entry >>> 8) &&& 0xFF) false w
  let w := __prism_send_byte dev ((entry >>> 16) &&& 0xFF) false w
  __prism_send_byte dev ((entry >>> 24) &&& 0xFF) false w

/-- The function `__prism_recv_byte` of `src/src/prism.cpp`. -/
def __prism_recv_byte (env : Env) (dev : prdev_t) (new_entry : Bool) (w : World) : Nat × World :=
  let w := digitalWrite dev.config.pin6Next (if new_entry then HIGH else LOW) w
  let w := digitalWrite dev.config.pin5Time HIGH w
  let w := delayMicroseconds 2 w
  let w := digitalWrite dev.config.pin5Time LOW w
  let w := delayMicroseconds 2 w
  let w := if new_entry then digitalWrite dev.config.pin6Next LOW w else w
  let byte := 0
  let (r, w) := digitalRead env dev.config.pin1low w
  let byte := (byte ||| (r <<< 0)) % 256
  let (r, w) := digitalRead env dev.config.pin2low w
  let byte := (byte ||| (r <<< 1)) % 256
  let (r, w) := digitalRead env dev.config.pin3low w
  let byte := (byte ||| (r <<< 2)) % 256
  let (r, w) := digitalRead env dev.config.pin4low w
  let byte := (byte ||| (r <<< 3)) % 256
  let (r, w) := digitalRead env dev.config.pin7high w
  let byte := (byte ||| (r <<< 4)) % 256
  let (r, w) := digitalRead env dev.config.pin8high w
  let byte := (byte ||| (r <<< 5)) % 256
  let (r, w) := digitalRead env dev.config.pin9high w
  let byte := (byte ||| (r <<< 6)) % 256
  let (r, w) := digitalRead env dev.config.pin10high w
  let byte := (byte ||| (r <<< 7)) % 256
  (byte, w)

/-- The function `__prism_recv_uint32` of `src/src/prism.cpp`. -/
def __prism_recv_uint32 (env : Env) (dev : prdev_t) (w : World) : Nat × World :=
  let val := 0
  let (b, w) := __prism_recv_byte env dev true w
  let val := (val ||| (b <<< 0)) % 2 ^ 32
  let (b, w) := __prism_recv_byte env dev false w
  let val := (val ||| (b <<< 8)) % 2 ^ 32
  let (b, w) := __prism_recv_byte env dev false w
  let val := (val ||| (b <<< 16)) % 2 ^ 32
  let (b, w) := __prism_recv_byte env dev false w
  let val := (val ||| (b <<< 24)) % 2 ^ 32
  (val, w)

/-! ## Bank transfer (`src/src/prism.cpp`) -/

/-- The loop `for (uint8_t i = 0; i < 8; i++) __prism_send_uint32(dev, vec.ui[i]);`. -/
def sendLanes (dev : prdev_t) (vec : _v256i) (w : World) : World :=
  (List.finRange 8).foldl (fun w i => __prism_send_uint32 dev (vec.ui i) w) w

/-- The loop `for (uint8_t i = 0; i < 8; i++) out->ui[i] = __prism_recv_uint32(dev);`. -/
def recvLanes (env : Env) (dev : prdev_t) (out : _v256i) (w : World) : _v256i × World :=
  (List.finRange 8).foldl
    (fun (s : _v256i × World) i =>
      let (val, w) := __prism_recv_uint32 env dev s.2
      (⟨Function.update s.1.ui i val⟩, w))
    (out, w)

/-- The function `_prism_send_bank_x` of `src/src/prism.cpp`.  The data loop dereferences
`dev`; it is only reached after the opcode call accepted `dev`, so a null `dev` never
arrives there. -/
def _prism_send_bank_x (env : Env) (dev : Option prdev_t) (vec : _v256i)
    (bank timeout : Nat) (w : World) : prism_err × World :=
  let (err, w) := _prism_arch_send_opcode env dev
    (if bank = PRISM_BANK_A then PRISM_OPCODE_STORE_A else PRISM_OPCODE_STORE_B)
    PRISM_OPCODE_TYPE_UI32 timeout w
  if err ≠ PR_OK then (err, w)
  else
    match dev with
    | none => (PR_OK, w)
    | some d =>
      let w := sendLanes d vec w
      let w := (_prism_arch_send_opcode env dev PRISM_OPCODE_END PRISM_OPCODE_TYPE_UI8 timeout w).2
      (PR_OK, w)

/-- The function `_prism_load_bank_x` of `src/src/prism.cpp`; the out-parameter `out` is
passed in with its old contents and returned with the new ones. -/
def _prism_load_bank_x (env : Env) (dev : Option prdev_t) (bank : Nat) (out : _v256i)
    (timeout : Nat) (w : World) : prism_err × _v256i × World :=
  let (_ret, w) :=
    if bank = PRISM_BANK_A then
      _prism_arch_send_opcode env dev PRISM_OPCODE_LOAD_A PRISM_OPCODE_TYPE_UI8 timeout w
    else if bank = PRISM_BANK_B then
      _prism_arch_send_opcode env dev PRISM_OPCODE_LOAD_B PRISM_OPCODE_TYPE_UI8 timeout w
    else if bank = PRISM_BANK_C then
      _prism_arch_send_opcode env dev PRISM_OPCODE_LOAD_C PRISM_OPCODE_TYPE_UI8 timeout w
    else if bank = PRISM_BANK_D then
      _prism_arch_send_opcode env dev PRISM_OPCODE_LOAD_D PRISM_OPCODE_TYPE_UI8 timeout w
    else (PR_ERR_INVALID_ARGUMENT, w)
  if _ret ≠ PR_OK then (_ret, out, w)
  else
    match dev with
    | none => (PR_OK, out, w)
    | some d =>
      let (out, w) := recvLanes env d out w
      let w := (_prism_arch_send_opcode env dev PRISM_OPCODE_END PRISM_OPCODE_TYPE_UI32 timeout w).2
      (PR_OK, out, w)

/-! ## Bank wrappers (`src/inc/prism/prism.h`) -/

/-- The inline function `_v256_store_bank_v` of `src/inc/prism/prism.h`. -/
def _v256_store_bank_v (env : Env) (device : Option prdev_t) (bank : Nat) (vec : _v256i)
    (timeout : Nat) (w : World) : prism_err × World :=
  if device = none then (PR_ERR_INVALID_ARGUMENT, w)
  else if bank ≠ PRISM_BANK_A ∧ bank ≠ PRISM_BANK_B then (PR_ERR_INVALID_ARGUMENT, w)
  else _prism_send_bank_x env device vec bank timeout w

/-- The function `_v256_load_bank_x` of `src/inc/prism/prism.h`. -/
def _v256_load_bank_x (env : Env) (device : Option prdev_t) (bank : Nat) (vec : _v256i)
    (timeout : Nat) (w : World) : prism_err × _v256i × World :=
  if device = none then (PR_ERR_INVALID_ARGUMENT, vec, w)
  else if bank > PRISM_BANK_MAX then (PR_ERR_INVALID_ARGUMENT, vec, w)
  else _prism_load_bank_x env device bank vec timeout w

/-! ## Typed operation wrappers (`src/inc/prism/prism.h`) -/

def PRISM_OPCODE_ADD_N : Nat := 0x21
def PRISM_OPCODE_SUB_N : Nat := 0x22
def PRISM_OPCODE_MUL_N : Nat := 0x23
def PRISM_OPCODE_DIV_N : Nat := 0x24
def PRISM_OPCODE_AND_N : Nat := 0x25
def PRISM_OPCODE_NAND_N : Nat := 0x26
def PRISM_OPCODE_OR_N : Nat := 0x27
def PRISM_OPCODE_XOR_N : Nat := 0x28
def PRISM_OPCODE_NOR_N : Nat := 0x29
def PRISM_OPCODE_NOT_N : Nat := 0x2A
def PRISM_OPCODE_NOTC : Nat := 0x2B
def PRISM_OPCODE_CTOB : Nat := 0x2C
def PRISM_OPCODE_CTOA : Nat := 0x2D

def PRISM_OPCODE_CMP_EQ : Nat := 0x70
def PRISM_OPCODE_CMP_NE : Nat := 0x71
def PRISM_OPCODE_CMP_GT : Nat := 0x72
def PRISM_OPCODE_CMP_GE : Nat := 0x73
def PRISM_OPCODE_CMP_LT : Nat := 0x74
def PRISM_OPCODE_CMP_LE : Nat := 0x75
def PRISM_OPCODE_CPL2 : Nat := 0x76
def PRISM_OPCODE_SHIFT_L : Nat := 0x77
def PRISM_OPCODE_SHIFT_R : Nat := 0x78

/-- The inline function `_v256_set8_uiv` of `src/inc/prism/prism.h`; the parameters are
`ui32`, and the local vector starts out with no lane assigned (modelled as zeros). -/
def _v256_set8_uiv (a b c d e f g h : Nat) : _v256i :=
  let v : _v256i := ⟨fun _ => 0⟩
  let v : _v256i := ⟨Function.update v.ui 0 (a % 2 ^ 32)⟩
  let v : _v256i := ⟨Function.update v.ui 1 (b % 2 ^ 32)⟩
  let v : _v256i := ⟨Function.update v.ui 2 (c % 2 ^ 32)⟩
  let v : _v256i := ⟨Function.update v.ui 3 (d % 2 ^ 32)⟩
  let v : _v256i := ⟨Function.update v.ui 4 (e % 2 ^ 32)⟩
  let v : _v256i := ⟨Function.update v.ui 5 (f % 2 ^ 32)⟩
  let v : _v256i := ⟨Function.update v.ui 6 (g % 2 ^ 32)⟩
  let v : _v256i := ⟨Function.update v.ui 7 (h % 2 ^ 32)⟩
  v

/-- The inline function `_v256_addN_ui32` of `src/inc/prism/prism.h`. -/
def _v256_addN_ui32 (env : Env) (device : Option prdev_t) (type vector_len timeout : Nat)
    (w : World) : prism_err × World :=
  if device = none then (PR_ERR_INVALID_ARGUMENT, w)
  else if vector_len < 1 ∨ vector_len > 8 then (PR_ERR_INVALID_ARGUMENT, w)
  else _prism_arch_send_opcode_arg1 env device PRISM_OPCODE_ADD_N type (vector_len % 8) timeout w

/-- The inline function `_v256_subN_ui32` of `src/inc/prism/prism.h`. -/
def _v256_subN_ui32 (env : Env) (device : Option prdev_t) (type vector_len timeout : Nat)
    (w : World) : prism_err × World :=
  if device = none then (PR_ERR_INVALID_ARGUMENT, w)
  else if vector_len < 1 ∨ vector_len > 8 then (PR_ERR_INVALID_ARGUMENT, w)
  else _prism_arch_send_opcode_arg1 env device PRISM_OPCODE_SUB_N type (vector_len % 8) timeout w

/-- The inline function `_v256_mulN_ui32` of `src/inc/prism/prism.h`. -/
def _v256_mulN_ui32 (env : Env) (device : Option prdev_t) (type vector_len timeout : Nat)
    (w : World) : prism_err × World :=
  if device = none then (PR_ERR_INVALID_ARGUMENT, w)
  else if vector_len < 1 ∨ vector_len > 8 then (PR_ERR_INVALID_ARGUMENT, w)
  else _prism_arch_send_opcode_arg1 env device PRISM_OPCODE_MUL_N type (vector_len % 8) timeout w

/-- The inline function `_v256_divN_ui32` of `src/inc/prism/prism.h`. -/
def _v256_divN_ui32 (env : Env) (device : Option prdev_t) (type vector_len timeout : Nat)
    (w : World) : prism_err × World :=
  if device = none then (PR_ERR_INVALID_ARGUMENT, w)
  else if vector_len < 1 ∨ vector_len > 8 then (PR_ERR_INVALID_ARGUMENT, w)
  else _prism_arch_send_opcode_arg1 env device PRISM_OPCODE_DIV_N type (vector_len % 8) timeout w

/-- The inline function `_v256_andN_ui32` of `src/inc/prism/prism.h`. -/
def _v256_andN_ui32 (env : Env) (device : Option prdev_t) (type vector_len timeout : Nat)
    (w : World) : prism_err × World :=
  if device = none then (PR_ERR_INVALID_ARGUMENT, w)
  else if vector_len < 1 ∨ vector_len > 8 then (PR_ERR_INVALID_ARGUMENT, w)
  else _prism_arch_send_opcode_arg1 env device PRISM_OPCODE_AND_N type (vector_len % 8) timeout w

/-- The inline function `_v256_nandN_ui32` of `src/inc/prism/prism.h`. -/
def _v256_nandN_ui32 (env : Env) (device : Option prdev_t) (type vector_len timeout : Nat)
    (w : World) : prism_err × World :=
  if device = none then (PR_ERR_INVALID_ARGUMENT, w)
  else if vector_len < 1 ∨ vector_len > 8 then (PR_ERR_INVALID_ARGUMENT, w)
  else _prism_arch_send_opcode_arg1 env device PRISM_OPCODE_NAND_N type (vector_len % 8) timeout w

/-- The inline function `_v256_orN_ui32` of `src/inc/prism/prism.h`. -/
def _v256_orN_ui32 (env : Env) (device : Option prdev_t) (type vector_len timeout : Nat)
    (w : World) : prism_err × World :=
  if device = none then (PR_ERR_INVALID_ARGUMENT, w)
  else if vector_len < 1 ∨ vector_len > 8 then (PR_ERR_INVALID_ARGUMENT, w)
  else _prism_arch_send_opcode_arg1 env device PRISM_OPCODE_OR_N type (vector_len % 8) timeout w

/-- The inline function `_v256_xorN_ui32` of `src/inc/prism/prism.h`. -/
def _v256_xorN_ui32 (env : Env) (device : Option prdev_t) (type vector_len timeout : Nat)
    (w : World) : prism_err × World :=
  if device = none then (PR_ERR_INVALID_ARGUMENT, w)
  else if vector_len < 1 ∨ vector_len > 8 then (PR_ERR_INVALID_ARGUMENT, w)
  else _prism_arch_send_opcode_arg1 env device PRISM_OPCODE_XOR_N type (vector_len % 8) timeout w

/-- The inline function `_v256_norN_ui32` of `src/inc/prism/prism.h`. -/
def _v256_norN_ui32 (env : Env) (device : Option prdev_t) (type vector_len timeout : Nat)
    (w : World) : prism_err × World :=
  if device = none then (PR_ERR_INVALID_ARGUMENT, w)
  else if vector_len < 1 ∨ vector_len > 8 then (PR_ERR_INVALID_ARGUMENT, w)
  else _prism_arch_send_opcode_arg1 env device PRISM_OPCODE_NOR_N type (vector_len % 8) timeout w

/-- The inline function `_v256_notN_ui32` of `src/inc/prism/prism.h`. -/
def _v256_notN_ui32 (env : Env) (device : Option prdev_t) (type vector_len timeout : Nat)
    (w : World) : prism_err × World :=
  if device = none then (PR_ERR_INVALID_ARGUMENT, w)
  else if vector_len < 1 ∨ vector_len > 8 then (PR_ERR_INVALID_ARGUMENT, w)
  else _prism_arch_send_opcode_arg1 env device PRISM_OPCODE_NOT_N type (vector_len % 8) timeout w

/-- The inline function `_v256_notc_x` of `src/inc/prism/prism.h`. -/
def _v256_notc_x (env : Env) (device : Option prdev_t) (type vector_len timeout : Nat)
    (w : World) : prism_err × World :=
  if device = none then (PR_ERR_INVALID_ARGUMENT, w)
  else if vector_len < 1 ∨ vector_len > 8 then (PR_ERR_INVALID_ARGUMENT, w)
  else _prism_arch_send_opcode env device PRISM_OPCODE_NOTC type timeout w

/-- The inline function `_v256_cpm_epN_px` of `src/inc/prism/prism.h`. -/
def _v256_cpm_epN_px (env : Env) (device : Option prdev_t) (vector_len timeout : Nat)
    (w : World) : prism_err × World :=
  if device = none then (PR_ERR_INVALID_ARGUMENT, w)
  else if vector_len < 1 ∨ vector_len > 8 then (PR_ERR_INVALID_ARGUMENT, w)
  else _prism_arch_send_opcode env device PRISM_OPCODE_CMP_EQ PRISM_OPCODE_TYPE_UI32 timeout w

/-- The inline function `_v256_cpm_nepN_px` of `src/inc/prism/prism.h`. -/
def _v256_cpm_nepN_px (env : Env) (device : Option prdev_t) (vector_len timeout : Nat)
    (w : World) : prism_err × World :=
  if device = none then (PR_ERR_INVALID_ARGUMENT, w)
  else if vector_len < 1 ∨ vector_len > 8 then (PR_ERR_INVALID_ARGUMENT, w)
  else _prism_arch_send_opcode env device PRISM_OPCODE_CMP_NE PRISM_OPCODE_TYPE_UI32 timeout w

/-- The inline function `_v256_cpm_gt_px` of `src/inc/prism/prism.h`. -/
def _v256_cpm_gt_px (env : Env) (device : Option prdev_t) (vector_len timeout : Nat)
    (w : World) : prism_err × World :=
  if device = none then (PR_ERR_INVALID_ARGUMENT, w)
  else if vector_len < 1 ∨ vector_len > 8 then (PR_ERR_INVALID_ARGUMENT, w)
  else _prism_arch_send_opcode env device PRISM_OPCODE_CMP_GT PRISM_OPCODE_TYPE_UI32 timeout w

/-- The inline function `_v256_cpm_geN_px` of `src/inc/prism/prism.h`. -/
def _v256_cpm_geN_px (env : Env) (device : Option prdev_t) (vector_len timeout : Nat)
    (w : World) : prism_err × World :=
  if device = none then (PR_ERR_INVALID_ARGUMENT, w)
  else if vector_len < 1 ∨ vector_len > 8 then (PR_ERR_INVALID_ARGUMENT, w)
  else _prism_arch_send_opcode env device PRISM_OPCODE_CMP_GE PRISM_OPCODE_TYPE_UI32 timeout w

/-- The inline function `_v256_cpm_ltN_px` of `src/inc/prism/prism.h`. -/
def _v256_cpm_ltN_px (env : Env) (device : Option prdev_t) (vector_len timeout : Nat)
    (w : World) : prism_err × World :=
  if device = none then (PR_ERR_INVALID_ARGUMENT, w)
  else if vector_len < 1 ∨ vector_len > 8 then (PR_ERR_INVALID_ARGUMENT, w)
  else _prism_arch_send_opcode env device PRISM_OPCODE_CMP_LT PRISM_OPCODE_TYPE_UI32 timeout w

/-- The inline function `_v256_cpm_leN_px` of `src/inc/prism/prism.h`. -/
def _v256_cpm_leN_px (env : Env) (device : Option prdev_t) (vector_len timeout : Nat)
    (w : World) : prism_err × World :=
  if device = none then (PR_ERR_INVALID_ARGUMENT, w)
  else if vector_len < 1 ∨ vector_len > 8 then (PR_ERR_INVALID_ARGUMENT, w)
  else _prism_arch_send_opcode env device PRISM_OPCODE_CMP_LE PRISM_OPCODE_TYPE_UI32 timeout w

/-- The inline function `_v256_cpm_cplN_px` of `src/inc/prism/prism.h`. -/
def _v256_cpm_cplN_px (env : Env) (device : Option prdev_t) (vector_len timeout : Nat)
    (w : World) : prism_err × World :=
  if device = none then (PR_ERR_INVALID_ARGUMENT, w)
  else if vector_len < 1 ∨ vector_len > 8 then (PR_ERR_INVALID_ARGUMENT, w)
  else _prism_arch_send_opcode env device PRISM_OPCODE_CPL2 PRISM_OPCODE_TYPE_UI32 timeout w

/-- The inline function `_v256_cpm_shlN_pa` of `src/inc/prism/prism.h`. -/
def _v256_cpm_shlN_pa (env : Env) (device : Option prdev_t) (vector_len num timeout : Nat)
    (w : World) : prism_err × World :=
  if device = none then (PR_ERR_INVALID_ARGUMENT, w)
  else if vector_len < 1 ∨ vector_len > 8 then (PR_ERR_INVALID_ARGUMENT, w)
  else _prism_arch_send_opcode_arg1 env device PRISM_OPCODE_SHIFT_L PRISM_OPCODE_TYPE_UI32 num
    timeout w

/-- The inline function `_v256_cpm_shrN_pa` of `src/inc/prism/prism.h`. -/
def _v256_cpm_shrN_pa (env : Env) (device : Option prdev_t) (vector_len num timeout : Nat)
    (w : World) : prism_err × World :=
  if device = none then (PR_ERR_INVALID_ARGUMENT, w)
  else if vector_len < 1 ∨ vector_len > 8 then (PR_ERR_INVALID_ARGUMENT, w)
  else _prism_arch_send_opcode_arg1 env device PRISM_OPCODE_SHIFT_R PRISM_OPCODE_TYPE_UI32 num
    timeout w

/-! ## Device lifecycle (`src/src/prism.cpp`) -/

/-- The function `prism_device_create` of `src/src/prism.cpp`.  `config` and `dev` are
pointers: `none` is the null pointer, and `dev` carries the old contents of the handle
and is returned with the new ones. -/
def prism_device_create (env : Env) (address : Nat) (wireInit : Bool)
    (config : Option prism_dev_config_t) (dev : Option prdev_t) (w : World) :
    prism_err × Option prdev_t × World :=
  match dev with
  | none => (PR_ERR_INVALID_ARGUMENT, none, w)
  | some d =>
    if address = 0 ∨ address > 127 then (PR_ERR_INVALID_ARGUMENT, some d, w)
    else
      let d := { d with address := address }
      let w := if wireInit then Wire_begin w else w
      let w := delay 100 w
      let d :=
        match config with
        | none =>
          { d with config :=
              { pin1low := PRISM_PIN_1LOW_DEFAULT
                pin2low := PRISM_PIN_2LOW_DEFAULT
                pin3low := PRISM_PIN_4LOW_DEFAULT
                pin4low := PRISM_PIN_3LOW_DEFAULT
                pin5Time := PRISM_PIN_CLK_DEFAULT
                pin6Next := PRISM_PIN_NXT_DEFAULT
                pin7high := PRISM_PIN_7HIGH_DEFAULT
                pin8high := PRISM_PIN_8HIGH_DEFAULT
                pin9high := PRISM_PIN_9HIGH_DEFAULT
                pin10high := PRISM_PIN_10HIGH_DEFAULT } }
        | some c => { d with config := c }
      let w := (_prism_arch_send_opcode env (some d) PRISM_OPCODE_ARCH_INIT
        PRISM_OPCODE_TYPE_UI32 255 w).2
      let (flank, w) := _prism_arch_get_variable env (some d) PRISM_OPCODE_ARCH_GET_FLANK w
      let d := { d with flank := flank }
      let (major, w) := _prism_arch_get_variable env (some d) PRISM_OPCODE_ARCH_GET_VERSION_MAJOR w
      let d := { d with major := major }
      let (minor, w) := _prism_arch_get_variable env (some d) PRISM_OPCODE_ARCH_GET_VERSION_MINOR w
      let d := { d with minor := minor }
      let (patch, w) := _prism_arch_get_variable env (some d) PRISM_OPCODE_ARCH_GET_VERSION_PATCH w
      let d := { d with patch := patch }
      let w :=
        if d.major ≠ 0 ∧ d.minor ≠ 0 ∧ d.patch ≠ 0 then
          let w := Serial_print "Prism Device Version: " w
          let w := Serial_printNum d.major w
          let w := Serial_print "." w
          let w := Serial_printNum d.minor w
          let w := Serial_print "." w
          Serial_printlnNum d.patch w
        else w
      (PR_OK, some d, w)

/-- The function `prism_device_stop` of `src/src/prism.cpp`. -/
def prism_device_stop (env : Env) (dev : Option prdev_t) (w : World) : prism_err × World :=
  if dev = none then (PR_ERR_INVALID_ARGUMENT, w)
  else
    let (err, w) := _prism_arch_send_opcode env dev PRISM_OPCODE_ARCH_END PRISM_OPCODE_TYPE_UI8
      255 w
    if err ≠ PR_OK then (err, w)
    else
      let w := delay 50 w
      (PR_OK, w)

/-- The function `prism_device_reset` of `src/src/prism.cpp`. -/
def prism_device_reset (env : Env) (dev : Option prdev_t) (w : World) : prism_err × World :=
  if dev = none then (PR_ERR_INVALID_ARGUMENT, w)
  else
    let (err, w) := _prism_arch_send_opcode env dev PRISM_OPCODE_ARCH_RESET PRISM_OPCODE_TYPE_UI8
      255 w
    if err ≠ PR_OK then (err, w)
    else
      let w := delay 50 w
      (PR_OK, w)

/-! ## Vector construction and access (`src/inc/prism/prism.h`) -/

/-- The `ui32` that shares its storage with an `si32` in the union of `_v256i`: the value
modulo 2 ^ 32. -/
def si32_as_ui32 (a : Int) : Nat := (a % 2 ^ 32).toNat

/-- The inline function `_v256_set8_siv` of `src/inc/prism/prism.h`: it assigns the `si`
view of the union, lane by lane; the vector is kept through its `ui` view. -/
def _v256_set8_siv (a b c d e f g h : Int) : _v256i :=
  let v : _v256i := ⟨fun _ => 0⟩
  let v : _v256i := ⟨Function.update v.ui 0 (si32_as_ui32 a)⟩
  let v : _v256i := ⟨Function.update v.ui 1 (si32_as_ui32 b)⟩
  let v : _v256i := ⟨Function.update v.ui 2 (si32_as_ui32 c)⟩
  let v : _v256i := ⟨Function.update v.ui 3 (si32_as_ui32 d)⟩
  let v : _v256i := ⟨Function.update v.ui 4 (si32_as_ui32 e)⟩
  let v : _v256i := ⟨Function.update v.ui 5 (si32_as_ui32 f)⟩
  let v : _v256i := ⟨Function.update v.ui 6 (si32_as_ui32 g)⟩
  let v : _v256i := ⟨Function.update v.ui 7 (si32_as_ui32 h)⟩
  v

/-- The inline function `_v256_extract_ui32` of `src/inc/prism/prism.h`; `n` is a `ui8`. -/
def _v256_extract_ui32 (v : _v256i) (n : Nat) : Nat :=
  v.ui ⟨(n % 256) % 8, Nat.mod_lt _ (by decide)⟩

/-! ## The offset revision (`src/include/prism/prism.h`, `src/src/prism_arch.c`)

The second header numbers the arithmetic opcodes by adding the lane count to a base.  Its
wrappers call the external function `_prism_arch_send_opcode`; here that function is a
parameter `send` of each wrapper, so that the arguments of the call can be observed, and
the implementation of `src/src/prism_arch.c` is given as `Offset._prism_arch_send_opcode`.
The handle type is left open (`δ`), as the header only declares it. -/

namespace Offset

def PRISM_OPCODE_ADD_BASE : Nat := 0x01
def PRISM_OPCODE_SUB_BASE : Nat := 0x08
def PRISM_OPCODE_MUL_BASE : Nat := 0x10
def PRISM_OPCODE_DIV_BASE : Nat := 0x18
def PRISM_OPCODE_AND_BASE : Nat := 0x20
def PRISM_OPCODE_NAND_BASE : Nat := 0x28
def PRISM_OPCODE_OR_BASE : Nat := 0x30
def PRISM_OPCODE_XOR_BASE : Nat := 0x38
def PRISM_OPCODE_NOR_BASE : Nat := 0x40
def PRISM_OPCODE_NOT_BASE : Nat := 0x48
def PRISM_OPCODE_NOTC : Nat := 0x50
def PRISM_OPCODE_CTOB : Nat := 0x51
def PRISM_OPCODE_CTOA : Nat := 0x52

/-- The function `_prism_arch_send_opcode` of `src/src/prism_arch.c`: it checks the handle
and reports success without sending anything. -/
def _prism_arch_send_opcode {δ σ : Type} (device : Option δ) (_op _type _timeout : Nat)
    (s : σ) : prism_err × σ :=
  match device with
  | none => (PR_ERR_INVALID_ARGUMENT, s)
  | some _ => (PR_OK, s)

/-- The inline function `_v256_addN_ui32` of `src/include/prism/prism.h`. -/
def _v256_addN_ui32 {δ σ : Type} (send : Option δ → Nat → Nat → Nat → σ → prism_err × σ)
    (device : Option δ) (type vector_len timeout : Nat) (s : σ) : prism_err × σ :=
  if device.isNone then (PR_ERR_INVALID_ARGUMENT, s)
  else if vector_len < 1 ∨ vector_len > 8 then (PR_ERR_INVALID_ARGUMENT, s)
  else send device (PRISM_OPCODE_ADD_BASE + (vector_len % 8)) type timeout s

/-- The inline function `_v256_subN_ui32` of `src/include/prism/prism.h`. -/
def _v256_subN_ui32 {δ σ : Type} (send : Option δ → Nat → Nat → Nat → σ → prism_err × σ)
    (device : Option δ) (type vector_len timeout : Nat) (s : σ) : prism_err × σ :=
  if device.isNone then (PR_ERR_INVALID_ARGUMENT, s)
  else if vector_len < 1 ∨ vector_len > 8 then (PR_ERR_INVALID_ARGUMENT, s)
  else send device (PRISM_OPCODE_SUB_BASE + (vector_len % 8)) type timeout s

/-- The inline function `_v256_mulN_ui32` of `src/include/prism/prism.h`. -/
def _v256_mulN_ui32 {δ σ : Type} (send : Option δ → Nat → Nat → Nat → σ → prism_err × σ)
    (device : Option δ) (type vector_len timeout : Nat) (s : σ) : prism_err × σ :=
  if device.isNone then (PR_ERR_INVALID_ARGUMENT, s)
  else if vector_len < 1 ∨ vector_len > 8 then (PR_ERR_INVALID_ARGUMENT, s)
  else send device (PRISM_OPCODE_MUL_BASE + (vector_len % 8)) type timeout s

/-- The inline function `_v256_divN_ui32` of `src/include/prism/prism.h`. -/
def _v256_divN_ui32 {δ σ : Type} (send : Option δ → Nat → Nat → Nat → σ → prism_err × σ)
    (device : Option δ) (type vector_len timeout : Nat) (s : σ) : prism_err × σ :=
  if device.isNone then (PR_ERR_INVALID_ARGUMENT, s)
  else if vector_len < 1 ∨ vector_len > 8 then (PR_ERR_INVALID_ARGUMENT, s)
  else send device (PRISM_OPCODE_DIV_BASE + (vector_len % 8)) type timeout s

/-- The inline function `_v256_andN_ui32` of `src/include/prism/prism.h`. -/
def _v256_andN_ui32 {δ σ : Type} (send : Option δ → Nat → Nat → Nat → σ → prism_err × σ)
    (device : Option δ) (type vector_len timeout : Nat) (s : σ) : prism_err × σ :=
  if device.isNone then (PR_ERR_INVALID_ARGUMENT, s)
  else if vector_len < 1 ∨ vector_len > 8 then (PR_ERR_INVALID_ARGUMENT, s)
  else send device (PRISM_OPCODE_AND_BASE + (vector_len % 8)) type timeout s

/-- The inline function `_v256_nandN_ui32` of `src/include/prism/prism.h`. -/
def _v256_nandN_ui32 {δ σ : Type} (send : Option δ → Nat → Nat → Nat → σ → prism_err × σ)
    (device : Option δ) (type vector_len timeout : Nat) (s : σ) : prism_err × σ :=
  if device.isNone then (PR_ERR_INVALID_ARGUMENT, s)
  else if vector_len < 1 ∨ vector_len > 8 then (PR_ERR_INVALID_ARGUMENT, s)
  else send device (PRISM_OPCODE_NAND_BASE + (vector_len % 8)) type timeout s

/-- The inline function `_v256_orN_ui32` of `src/include/prism/prism.h`. -/
def _v256_orN_ui32 {δ σ : Type} (send : Option δ → Nat → Nat → Nat → σ → prism_err × σ)
    (device : Option δ) (type vector_len timeout : Nat) (s : σ) : prism_err × σ :=
  if device.isNone then (PR_ERR_INVALID_ARGUMENT, s)
  else if vector_len < 1 ∨ vector_len > 8 then (PR_ERR_INVALID_ARGUMENT, s)
  else send device (PRISM_OPCODE_OR_BASE + (vector_len % 8)) type timeout s

/-- The inline function `_v256_xorN_ui32` of `src/include/prism/prism.h`. -/
def _v256_xorN_ui32 {δ σ : Type} (send : Option δ → Nat → Nat → Nat → σ → prism_err × σ)
    (device : Option δ) (type vector_len timeout : Nat) (s : σ) : prism_err × σ :=
  if device.isNone then (PR_ERR_INVALID_ARGUMENT, s)
  else if vector_len < 1 ∨ vector_len > 8 then (PR_ERR_INVALID_ARGUMENT, s)
  else send device (PRISM_OPCODE_XOR_BASE + (vector_len % 8)) type timeout s

/-- The inline function `_v256_norN_ui32` of `src/include/prism/prism.h`. -/
def _v256_norN_ui32 {δ σ : Type} (send : Option δ → Nat → Nat → Nat → σ → prism_err × σ)
    (device : Option δ) (type vector_len timeout : Nat) (s : σ) : prism_err × σ :=
  if device.isNone then (PR_ERR_INVALID_ARGUMENT, s)
  else if vector_len < 1 ∨ vector_len > 8 then (PR_ERR_INVALID_ARGUMENT, s)
  else send device (PRISM_OPCODE_NOR_BASE + (vector_len % 8)) type timeout s

/-- The inline function `_v256_notN_ui32` of `src/include/prism/prism.h`. -/
def _v256_notN_ui32 {δ σ : Type} (send : Option δ → Nat → Nat → Nat → σ → prism_err × σ)
    (device : Option δ) (type vector_len timeout : Nat) (s : σ) : prism_err × σ :=
  if device.isNone then (PR_ERR_INVALID_ARGUMENT, s)
  else if vector_len < 1 ∨ vector_len > 8 then (PR_ERR_INVALID_ARGUMENT, s)
  else send device (PRISM_OPCODE_NOT_BASE + (vector_len % 8)) type timeout s

/-- A channel that only records the opcode, type tag and timeout of every call. -/
def recordingChannel (device : Option Unit) (op type timeout : Nat)
    (calls : List (Nat × Nat × Nat)) : prism_err × List (Nat × Nat × Nat) :=
  match device with
  | none => (PR_ERR_INVALID_ARGUMENT, calls)
  | some _ => (PR_OK, calls ++ [(op, type, timeout)])

end Offset

/-! ## Observations used to state the properties -/

/-- The world at the moment `Wire.endTransmission` is called by a channel call: the
transmission to the device has been opened and the command packet queued. -/
def packetQueued (env : Env) (d : prdev_t) (op type arg timeout : Nat) (w : World) : World :=
  Wire_write (prism_send_data_bytes env op arg type timeout) (Wire_beginTransmission d.address w)

/-- Status byte the bus returns for the packet of a channel call made in world `w`. -/
def writeStatus (env : Env) (d : prdev_t) (op type arg timeout : Nat) (w : World) : Nat :=
  (Wire_endTransmission env (packetQueued env d op type arg timeout w)).1

/-- The world once the read request of a channel call made in world `w` has been served:
packet written, settle delay elapsed, one byte requested. -/
def requestServed (env : Env) (d : prdev_t) (op type arg timeout : Nat) (w : World) : World :=
  Wire_requestFrom env d.address 1
    (delay 50 (Wire_endTransmission env (packetQueued env d op type arg timeout w)).2)

/-- The bytes available after the 1-byte read request of a channel call made in world `w`. -/
def responseBytes (env : Env) (d : prdev_t) (op type arg timeout : Nat) (w : World) : List Nat :=
  (requestServed env d op type arg timeout w).rx

/-- The opcode `_prism_load_bank_x` announces a load of bank A, B, C or D with. -/
def loadOpcode (bank : Nat) : Nat :=
  if bank = PRISM_BANK_A then PRISM_OPCODE_LOAD_A
  else if bank = PRISM_BANK_B then PRISM_OPCODE_LOAD_B
  else if bank = PRISM_BANK_C then PRISM_OPCODE_LOAD_C
  else PRISM_OPCODE_LOAD_D

/-- The pin writes recorded in a trace, as (pin, level) pairs in order. -/
def pinWrites (tr : List Event) : List (Nat × Nat) :=
  tr.filterMap (fun e => match e with
    | Event.digitalWrite p l => some (p, l)
    | _ => none)

/-- The pin reads recorded in a trace, as (pin, level) pairs in order. -/
def pinReads (tr : List Event) : List (Nat × Nat) :=
  tr.filterMap (fun e => match e with
    | Event.digitalRead p l => some (p, l)
    | _ => none)

/-- The payloads written to the bus in a trace, in order. -/
def packets (tr : List Event) : List (List Nat) :=
  tr.filterMap (fun e => match e with
    | Event.wireWrite data => some data
    | _ => none)

/-- The level of an output line after a trace: the last level written to it, `LOW` if it
was never written. -/
def lineLevel (pin : Nat) (tr : List Event) : Nat :=
  tr.foldl (fun lv e => match e with
    | Event.digitalWrite p l => if p = pin then l else lv
    | _ => lv) LOW

/-- The words returned by `n` successive calls of `__prism_recv_uint32`, and the world after
the last one. -/
def recvWords (env : Env) (dev : prdev_t) : Nat → World → List Nat × World
  | 0, w => ([], w)
  | n + 1, w =>
    let r := __prism_recv_uint32 env dev w
    let rs := recvWords env dev n r.2
    (r.1 :: rs.1, rs.2)

/-- The bytes returned by successive calls of `__prism_recv_byte`, one per flag, and the
world after the last one. -/
def recvBytes (env : Env) (dev : prdev_t) : List Bool → World → List Nat × World
  | [], w => ([], w)
  | flag :: flags, w =>
    let r := __prism_recv_byte env dev flag w
    let rs := recvBytes env dev flags r.2
    (r.1 :: rs.1, rs.2)

/-- The nine lines of a configuration other than the entry-flag line: the clock and the
eight data lines. -/
def clockAndDataPins (cfg : prism_dev_config_t) : List Nat :=
  [cfg.pin5Time, cfg.pin1low, cfg.pin2low, cfg.pin3low, cfg.pin4low, cfg.pin7high,
    cfg.pin8high, cfg.pin9high, cfg.pin10high]

/-- The pin activity of a byte transfer in the order the specification lists it: entry
flag, clock high, the eight data bits, 2 µs, clock low, entry flag low for a new entry,
4 µs. -/
def claimedSendByteEvents (cfg : prism_dev_config_t) (value : Nat) (isNewEntry : Bool) :
    List Event :=
  [Event.digitalWrite cfg.pin6Next (if isNewEntry then HIGH else LOW),
   Event.digitalWrite cfg.pin5Time HIGH,
   Event.digitalWrite cfg.pin1low ((value >>> 0) &&& 1),
   Event.digitalWrite cfg.pin2low ((value >>> 1) &&& 1),
   Event.digitalWrite cfg.pin3low ((value >>> 2) &&& 1),
   Event.digitalWrite cfg.pin4low ((value >>> 3) &&& 1),
   Event.digitalWrite cfg.pin7high ((value >>> 4) &&& 1),
   Event.digitalWrite cfg.pin8high ((value >>> 5) &&& 1),
   Event.digitalWrite cfg.pin9high ((value >>> 6) &&& 1),
   Event.digitalWrite cfg.pin10high ((value >>> 7) &&& 1),
   Event.delayMicroseconds 2,
   Event.digitalWrite cfg.pin5Time LOW] ++
  (if isNewEntry then [Event.digitalWrite cfg.pin6Next LOW] else []) ++
  [Event.delayMicroseconds 4]

/-- A typed operation wrapper under one calling convention (arguments it does not have are
ignored), next to the channel call its last line makes. -/
structure TypedWrapper where
  run : Env → Option prdev_t → Nat → Nat → Nat → Nat → World → prism_err × World
  delegate : Env → Option prdev_t → Nat → Nat → Nat → Nat → World → prism_err × World

/-- The twenty typed operation wrappers of `src/inc/prism/prism.h`; the arguments are, in
order, the device, `type`, `vector_len`, `num` and `timeout`. -/
def typedWrappers : List TypedWrapper :=
  [⟨fun env dev type len _ t w => _v256_addN_ui32 env dev type len t w,
    fun env dev type len _ t w =>
      _prism_arch_send_opcode_arg1 env dev PRISM_OPCODE_ADD_N type (len % 8) t w⟩,
   ⟨fun env dev type len _ t w => _v256_subN_ui32 env dev type len t w,
    fun env dev type len _ t w =>
      _prism_arch_send_opcode_arg1 env dev PRISM_OPCODE_SUB_N type (len % 8) t w⟩,
   ⟨fun env dev type len _ t w => _v256_mulN_ui32 env dev type len t w,
    fun env dev type len _ t w =>
      _prism_arch_send_opcode_arg1 env dev PRISM_OPCODE_MUL_N type (len % 8) t w⟩,
   ⟨fun env dev type len _ t w => _v256_divN_ui32 env dev type len t w,
    fun env dev type len _ t w =>
      _prism_arch_send_opcode_arg1 env dev PRISM_OPCODE_DIV_N type (len % 8) t w⟩,
   ⟨fun env dev type len _ t w => _v256_andN_ui32 env dev type len t w,
    fun env dev type len _ t w =>
      _prism_arch_send_opcode_arg1 env dev PRISM_OPCODE_AND_N type (len % 8) t w⟩,
   ⟨fun env dev type len _ t w => _v256_nandN_ui32 env dev type len t w,
    fun env dev type len _ t w =>
      _prism_arch_send_opcode_arg1 env dev PRISM_OPCODE_NAND_N type (len % 8) t w⟩,
   ⟨fun env dev type len _ t w => _v256_orN_ui32 env dev type len t w,
    fun env dev type len _ t w =>
      _prism_arch_send_opcode_arg1 env dev PRISM_OPCODE_OR_N type (len % 8) t w⟩,
   ⟨fun env dev type len _ t w => _v256_xorN_ui32 env dev type len t w,
    fun env dev type len _ t w =>
      _prism_arch_send_opcode_arg1 env dev PRISM_OPCODE_XOR_N type (len % 8) t w⟩,
   ⟨fun env dev type len _ t w => _v256_norN_ui32 env dev type len t w,
    fun env dev type len _ t w =>
      _prism_arch_send_opcode_arg1 env dev PRISM_OPCODE_NOR_N type (len % 8) t w⟩,
   ⟨fun env dev type len _ t w => _v256_notN_ui32 env dev type len t w,
    fun env dev type len _ t w =>
      _prism_arch_send_opcode_arg1 env dev PRISM_OPCODE_NOT_N type (len % 8) t w⟩,
   ⟨fun env dev type len _ t w => _v256_notc_x env dev type len t w,
    fun env dev type _ _ t w => _prism_arch_send_opcode env dev PRISM_OPCODE_NOTC type t w⟩,
   ⟨fun env dev _ len _ t w => _v256_cpm_epN_px env dev len t w,
    fun env dev _ _ _ t w =>
      _prism_arch_send_opcode env dev PRISM_OPCODE_CMP_EQ PRISM_OPCODE_TYPE_UI32 t w⟩,
   ⟨fun env dev _ len _ t w => _v256_cpm_nepN_px env dev len t w,
    fun env dev _ _ _ t w =>
      _prism_arch_send_opcode env dev PRISM_OPCODE_CMP_NE PRISM_OPCODE_TYPE_UI32 t w⟩,
   ⟨fun env dev _ len _ t w => _v256_cpm_gt_px env dev len t w,
    fun env dev _ _ _ t w =>
      _prism_arch_send_opcode env dev PRISM_OPCODE_CMP_GT PRISM_OPCODE_TYPE_UI32 t w⟩,
   ⟨fun env dev _ len _ t w => _v256_cpm_geN_px env dev len t w,
    fun env dev _ _ _ t w =>
      _prism_arch_send_opcode env dev PRISM_OPCODE_CMP_GE PRISM_OPCODE_TYPE_UI32 t w⟩,
   ⟨fun env dev _ len _ t w => _v256_cpm_ltN_px env dev len t w,
    fun env dev _ _ _ t w =>
      _prism_arch_send_opcode env dev PRISM_OPCODE_CMP_LT PRISM_OPCODE_TYPE_UI32 t w⟩,
   ⟨fun env dev _ len _ t w => _v256_cpm_leN_px env dev len t w,
    fun env dev _ _ _ t w =>
      _prism_arch_send_opcode env dev PRISM_OPCODE_CMP_LE PRISM_OPCODE_TYPE_UI32 t w⟩,
   ⟨fun env dev _ len _ t w => _v256_cpm_cplN_px env dev len t w,
    fun env dev _ _ _ t w =>
      _prism_arch_send_opcode env dev PRISM_OPCODE_CPL2 PRISM_OPCODE_TYPE_UI32 t w⟩,
   ⟨fun env dev _ len num t w => _v256_cpm_shlN_pa env dev len num t w,
    fun env dev _ _ num t w =>
      _prism_arch_send_opcode_arg1 env dev PRISM_OPCODE_SHIFT_L PRISM_OPCODE_TYPE_UI32 num t w⟩,
   ⟨fun env dev _ len num t w => _v256_cpm_shrN_pa env dev len num t w,
    fun env dev _ _ num t w =>
      _prism_arch_send_opcode_arg1 env dev PRISM_OPCODE_SHIFT_R PRISM_OPCODE_TYPE_UI32 num t w⟩]

/-- The ten arithmetic and logic wrappers of `src/inc/prism/prism.h`, each with the opcode
the specification gives for its kind. -/
def arithWrappers :
    List ((Env → Option prdev_t → Nat → Nat → Nat → World → prism_err × World) × Nat) :=
  [(_v256_addN_ui32, 0x21), (_v256_subN_ui32, 0x22), (_v256_mulN_ui32, 0x23),
   (_v256_divN_ui32, 0x24), (_v256_andN_ui32, 0x25), (_v256_nandN_ui32, 0x26),
   (_v256_orN_ui32, 0x27), (_v256_xorN_ui32, 0x28), (_v256_norN_ui32, 0x29),
   (_v256_notN_ui32, 0x2A)]

/-! ## A loopback mock device

A device wired to the ten lines of a configuration.  It acknowledges every command with
0x01.  After a STORE_A command it takes one byte from the data lines at every falling
clock edge and appends it to its bank A; after a LOAD_A command it presents the bytes of
bank A on the data lines, one more at every falling clock edge; any other command ends
the transfer. -/

/-- What a pin is wired to. -/
inductive Line where
  | clock
  | flag
  | data (i : Fin 8)
  deriving DecidableEq, Repr

/-- The line a pin number belongs to under a configuration. -/
def lineOf (cfg : prism_dev_config_t) (p : Nat) : Option Line :=
  if p = cfg.pin5Time then some Line.clock
  else if p = cfg.pin6Next then some Line.flag
  else if p = cfg.pin1low then some (Line.data 0)
  else if p = cfg.pin2low then some (Line.data 1)
  else if p = cfg.pin3low then some (Line.data 2)
  else if p = cfg.pin4low then some (Line.data 3)
  else if p = cfg.pin7high then some (Line.data 4)
  else if p = cfg.pin8high then some (Line.data 5)
  else if p = cfg.pin9high then some (Line.data 6)
  else if p = cfg.pin10high then some (Line.data 7)
  else none

/-- The ten pins of a configuration. -/
def allPins (cfg : prism_dev_config_t) : List Nat :=
  [cfg.pin5Time, cfg.pin6Next, cfg.pin1low, cfg.pin2low, cfg.pin3low, cfg.pin4low,
    cfg.pin7high, cfg.pin8high, cfg.pin9high, cfg.pin10high]

/-- State of the loopback device: the clock level and the data levels the host drives,
the transfer in progress (0 none, 1 store to bank A, 2 load from bank A), the bytes of
bank A, the index of the next byte to present and the byte presented now. -/
structure Loopback where
  clock : Nat
  lines : Fin 8 → Nat
  mode : Nat
  bankA : List Nat
  cursor : Nat
  presented : Nat

/-- The device before anything happened. -/
def Loopback.init : Loopback :=
  { clock := 0, lines := fun _ => 0, mode := 0, bankA := [], cursor := 0, presented := 0 }

/-- The byte on eight data lines, line i being bit i. -/
def sampleLines (lines : Fin 8 → Nat) : Nat :=
  (if lines 0 ≠ 0 then 1 else 0) + (if lines 1 ≠ 0 then 2 else 0) +
  (if lines 2 ≠ 0 then 4 else 0) + (if lines 3 ≠ 0 then 8 else 0) +
  (if lines 4 ≠ 0 then 16 else 0) + (if lines 5 ≠ 0 then 32 else 0) +
  (if lines 6 ≠ 0 then 64 else 0) + (if lines 7 ≠ 0 then 128 else 0)

/-- How one event of the host changes the loopback device. -/
def Loopback.step (cfg : prism_dev_config_t) (s : Loopback) : Event → Loopback
  | Event.wireWrite data =>
    if data.getD 0 0 + 256 * data.getD 1 0 = PRISM_OPCODE_STORE_A then
      { s with mode := 1, bankA := [] }
    else if data.getD 0 0 + 256 * data.getD 1 0 = PRISM_OPCODE_LOAD_A then
      { s with mode := 2, cursor := 0 }
    else { s with mode := 0 }
  | Event.digitalWrite p l =>
    match lineOf cfg p with
    | some Line.clock =>
      if s.clock ≠ 0 ∧ l = 0 then
        if s.mode = 1 then { s with clock := 0, bankA := s.bankA ++ [sampleLines s.lines] }
        else if s.mode = 2 then
          { s with clock := 0, presented := s.bankA.getD s.cursor 0, cursor := s.cursor + 1 }
        else { s with clock := 0 }
      else { s with clock := l }
    | some (Line.data i) => { s with lines := Function.update s.lines i l }
    | _ => s
  | _ => s

/-- The loopback device after a trace. -/
def Loopback.after (cfg : prism_dev_config_t) (tr : List Event) : Loopback :=
  tr.foldl (Loopback.step cfg) Loopback.init

/-- The platform with the loopback device attached: little-endian, every bus write
succeeds, every read request is answered with 0x01, and a data pin reads the bit of the
presented byte. -/
def loopbackEnv (cfg : prism_dev_config_t) : Env :=
  { alignLog := 0
    bigEndian := false
    endTx := fun _ => 0
    slave := fun _ => [0x01]
    pin := fun tr p =>
      match lineOf cfg p with
      | some (Line.data i) => (Loopback.after cfg tr).presented.testBit i.val
      | _ => false }

/-- The four bytes of a 32-bit word, lowest first. -/
def wordBytes (x : Nat) : List Nat :=
  [x &&& 0xFF, (x >>> 8) &&& 0xFF, (x >>> 16) &&& 0xFF, (x >>> 24) &&& 0xFF]

/-- The word spelled by the four bytes of a bank from index `k` on. -/
def wordAt (bank : List Nat) (k : Nat) : Nat :=
  bank.getD k 0 ||| (bank.getD (k + 1) 0 <<< 8) ||| (bank.getD (k + 2) 0 <<< 16) |||
    (bank.getD (k + 3) 0 <<< 24)

/-- The waits of whole milliseconds recorded in a trace, in order. -/
def delays (tr : List Event) : List Nat :=
  tr.filterMap (fun e => match e with
    | Event.delay ms => some ms
    | _ => none)

/-- The two's-complement reinterpretation of a 32-bit signed value as an unsigned one. -/
def twosComplement (a : Int) : Nat :=
  if a < 0 then (a + 2 ^ 32).toNat else a.toNat

/-- The typed wrappers of `src/inc/prism/prism.h` that send no lane count: `_v256_notc_x`,
the seven `_v256_cpm_*_px` and the two shifts (the last ten entries of `typedWrappers`). -/
def laneBlindWrappers : List TypedWrapper := typedWrappers.drop 10

/-- A little-endian platform on which a pin reads the level last written to it: nothing
but the host drives the lines. -/
def latchEnv : Env :=
  { alignLog := 0, bigEndian := false, endTx := fun _ => 0, slave := fun _ => [0x01],
    pin := fun tr p => decide (lineLevel p tr ≠ 0) }

/-- Whether a payload is a command packet with opcode END on a little-endian platform. -/
def isEndPacket (data : List Nat) : Bool :=
  data.getD 0 0 + 256 * data.getD 1 0 == PRISM_OPCODE_END

/-- A little-endian platform whose slave acknowledges every command except END: once an END
packet is on the bus it supplies no response byte. -/
def endFailEnv : Env :=
  { alignLog := 0, bigEndian := false, endTx := fun _ => 0,
    slave := fun tr => if (packets tr).any isEndPacket then [] else [0x01],
    pin := fun _ _ => false }

/-- The pin configuration `prism_device_create` installs when it is given none. -/
def installedDefaultConfig : prism_dev_config_t :=
  { pin1low := 2, pin2low := 3, pin3low := 5, pin4low := 4, pin5Time := 6, pin6Next := 7,
    pin7high := 8, pin8high := 9, pin9high := 10, pin10high := 11 }

/-- The opcodes a wrapper of `src/include/prism/prism.h` hands to the channel for the lane
counts 1, 2, .., 8, in this order, as the recording channel sees them. -/
def offsetOpcodes
    (wrapper : (Option Unit → Nat → Nat → Nat → List (Nat × Nat × Nat) →
        prism_err × List (Nat × Nat × Nat)) →
      Option Unit → Nat → Nat → Nat → List (Nat × Nat × Nat) →
        prism_err × List (Nat × Nat × Nat)) : List Nat :=
  ((List.range' 1 8).map (fun n =>
    (wrapper Offset.recordingChannel (some ()) PRISM_OPCODE_TYPE_UI32 n 1000 []).2.map
      (fun call => call.1))).flatten

/-! ## Sample platforms and devices -/

/-- A little-endian platform whose bus accepts every write and whose slave never
supplies a response byte. -/
def silentEnv : Env :=
  { alignLog := 0, bigEndian := false, endTx := fun _ => 0, slave := fun _ => [],
    pin := fun _ _ => false }

/-- A little-endian platform whose bus accepts every write and whose slave answers every
read request with the byte 0x01. -/
def ackEnv : Env :=
  { alignLog := 0, bigEndian := false, endTx := fun _ => 0, slave := fun _ => [0x01],
    pin := fun _ _ => false }

/-- A handle whose memory is all zero, as before `prism_device_create` fills it. -/
def blankDevice : prdev_t :=
  { address := 0, config := ⟨0, 0, 0, 0, 0, 0, 0, 0, 0, 0⟩, flank := 0, major := 0, minor := 0,
    patch := 0 }

/-- A pin configuration that differs from the default one in every field. -/
def sampleConfig : prism_dev_config_t := ⟨22, 23, 24, 25, 26, 27, 28, 29, 30, 31⟩

/-- A handle at address 0x42 with the pins of `sampleConfig`. -/
def sampleDevice : prdev_t :=
  { address := 0x42, config := sampleConfig, flank := 0, major := 0, minor := 0, patch := 0 }

/-- The world before the driver has done anything. -/
def World.start : World := { trace := [], rx := [] }

/-- A vector with eight different lanes. -/
def sampleVector : _v256i :=
  ⟨fun i => 0x01020304 + 0x10101010 * i.val⟩

/-- The events of one `__prism_send_byte` call. -/
def byteTransfer (dev : prdev_t) (byte : Nat) (new_entry : Bool) : List Event :=
  (__prism_send_byte dev byte new_entry World.start).trace

/-- The events of one `__prism_send_uint32` call. -/
def wordTransfer (dev : prdev_t) (entry : Nat) : List Event :=
  (__prism_send_uint32 dev entry World.start).trace

/-! ## Opcode channel: basic lemmas -/

/-- The three ways a channel call on a non-null device can end. -/
theorem send_opcode_arg1_some (env : Env) (d : prdev_t) (op type arg timeout : Nat) (w : World) :
    _prism_arch_send_opcode_arg1 env (some d) op type arg timeout w =
      if writeStatus env d op type arg timeout w ≠ 0 then
        (PR_ERR_UNKNOWN, (Wire_endTransmission env (packetQueued env d op type arg timeout w)).2)
      else if responseBytes env d op type arg timeout w = [] then
        (PR_ERR_UNKNOWN, requestServed env d op type arg timeout w)
      else
        (if (responseBytes env d op type arg timeout w).head? = some 0x01 then PR_OK
          else PR_ERR_UNKNOWN,
         { requestServed env d op type arg timeout w with
           rx := (responseBytes env d op type arg timeout w).tail }) := by
  unfold responseBytes requestServed writeStatus packetQueued
  simp only [_prism_arch_send_opcode_arg1, Wire_available, Wire_read]
  by_cases hs : (Wire_endTransmission env (Wire_write (prism_send_data_bytes env op arg type timeout)
      (Wire_beginTransmission d.address w))).1 = 0
  · simp only [hs, ne_eq, not_true_eq_false, if_false]
    generalize (Wire_requestFrom env d.address 1 (delay 50 (Wire_endTransmission env (Wire_write
      (prism_send_data_bytes env op arg type timeout) (Wire_beginTransmission d.address w))).2)) = w2
    rcases w2 with ⟨tr, rx⟩
    cases rx with
    | nil => simp
    | cons b rest =>
      by_cases hb : b = 1
      · simp [hb]
      · simp [hb]
  · simp [hs]

/-- A channel call on a non-null device answers `PR_OK` or `PR_ERR_UNKNOWN`. -/
theorem send_opcode_arg1_some_result (env : Env) (d : prdev_t) (op type arg timeout : Nat)
    (w : World) :
    (_prism_arch_send_opcode_arg1 env (some d) op type arg timeout w).1 =
      if writeStatus env d op type arg timeout w = 0 ∧
          (responseBytes env d op type arg timeout w).head? = some 0x01
        then PR_OK else PR_ERR_UNKNOWN := by
  rw [send_opcode_arg1_some]
  by_cases hs : writeStatus env d op type arg timeout w = 0
  · by_cases hr : responseBytes env d op type arg timeout w = []
    · simp [hs, hr]
    · simp [hs, hr]
  · simp [hs]

/-! ## Opcode channel: results -/

/-- C1: for a non-null device, `_prism_arch_send_opcode_arg1` returns `PR_OK` exactly when
the bus write succeeds (`endTransmission` returns 0), a response byte is available and that
byte is 0x01; a failed write, an empty response and a byte other than 0x01 each give
`PR_ERR_UNKNOWN`. -/
theorem send_opcode_arg1_result (env : Env) (d : prdev_t) (op type arg timeout : Nat)
    (w : World) :
    ((_prism_arch_send_opcode_arg1 env (some d) op type arg timeout w).1 = PR_OK ↔
      writeStatus env d op type arg timeout w = 0 ∧
      responseBytes env d op type arg timeout w ≠ [] ∧
      (responseBytes env d op type arg timeout w).head? = some 0x01) ∧
    (writeStatus env d op type arg timeout w ≠ 0 →
      (_prism_arch_send_opcode_arg1 env (some d) op type arg timeout w).1 = PR_ERR_UNKNOWN) ∧
    (responseBytes env d op type arg timeout w = [] →
      (_prism_arch_send_opcode_arg1 env (some d) op type arg timeout w).1 = PR_ERR_UNKNOWN) ∧
    (∀ b, (responseBytes env d op type arg timeout w).head? = some b → b ≠ 0x01 →
      (_prism_arch_send_opcode_arg1 env (some d) op type arg timeout w).1 = PR_ERR_UNKNOWN) := by
  rw [send_opcode_arg1_some_result]
  refine ⟨?_, ?_, ?_, ?_⟩
  · constructor
    · intro h
      by_cases hc : writeStatus env d op type arg timeout w = 0 ∧
          (responseBytes env d op type arg timeout w).head? = some 0x01
      · refine ⟨hc.1, ?_, hc.2⟩
        intro hnil
        rw [hnil] at hc
        simp at hc
      · rw [if_neg hc] at h
        exact absurd h (by decide)
    · rintro ⟨hs, _, hb⟩
      rw [if_pos ⟨hs, hb⟩]
  · intro hs
    rw [if_neg (fun hc => hs hc.1)]
  · intro hr
    rw [if_neg]
    rw [hr]
    simp
  · intro b hb hne
    rw [if_neg]
    rw [hb]
    simp [hne]

/-- C2: `_prism_arch_send_opcode` answers `PR_ERR_INVALID_ARGUMENT` and leaves the world
untouched (no transmission, no read request) when the device is null, the opcode is 0 or
the type tag is 0; `_prism_arch_send_opcode_arg1` answers `PR_ERR_INVALID_ARGUMENT` only
for a null device, and then also leaves the world untouched. -/
theorem send_opcode_validation (env : Env) (dev : Option prdev_t) (op type arg timeout : Nat)
    (w : World) :
    (dev = none ∨ op = 0 ∨ type = 0 →
      _prism_arch_send_opcode env dev op type timeout w = (PR_ERR_INVALID_ARGUMENT, w)) ∧
    ((_prism_arch_send_opcode_arg1 env dev op type arg timeout w).1 = PR_ERR_INVALID_ARGUMENT ↔
      dev = none) ∧
    (dev = none →
      _prism_arch_send_opcode_arg1 env dev op type arg timeout w = (PR_ERR_INVALID_ARGUMENT, w)) := by
  refine ⟨?_, ?_, ?_⟩
  · intro h
    unfold _prism_arch_send_opcode
    rcases h with h | h | h
    · simp [h]
    · simp [h]
    · simp [h]
  · cases dev with
    | none => simp [_prism_arch_send_opcode_arg1]
    | some d =>
      rw [send_opcode_arg1_some_result]
      simp only [reduceCtorEq, iff_false]
      split <;> decide
  · intro h
    simp [h, _prism_arch_send_opcode_arg1]

/-! ## Opcode channel: the packet on the wire -/

theorem scalarBytes_length (env : Env) (size value : Nat) :
    (scalarBytes env size value).length = size := by
  unfold scalarBytes
  split <;> simp

theorem scalarBytes_one (env : Env) (value : Nat) : scalarBytes env 1 value = [value % 256] := by
  unfold scalarBytes
  split <;> simp [List.range_succ]

/-- Whatever the alignment cap of the platform, the members of `prism_send_data_t` are
aligned to 1, 2 or 4 bytes. -/
theorem alignOf_shape (env : Env) :
    ∃ a, (a = 1 ∨ a = 2 ∨ a = 4) ∧
      alignOf env 1 = 1 ∧ alignOf env 2 = min 2 a ∧ alignOf env 4 = a := by
  unfold alignOf
  have h1 : 1 ≤ 2 ^ env.alignLog := Nat.one_le_two_pow
  rcases hk : env.alignLog with _ | _ | k
  · exact ⟨1, by simp⟩
  · exact ⟨2, by simp⟩
  · have h4 : 4 ≤ 2 ^ (k + 1 + 1) := by
      have : 1 ≤ 2 ^ k := Nat.one_le_two_pow
      calc 4 = 4 * 1 := by norm_num
        _ ≤ 4 * 2 ^ k := Nat.mul_le_mul_left 4 this
        _ = 2 ^ (k + 1 + 1) := by ring
    refine ⟨4, by simp, ?_, ?_, ?_⟩
    · exact Nat.min_eq_left (by omega)
    · rw [Nat.min_eq_left (by omega)]
      rfl
    · exact Nat.min_eq_left h4

/-- The command packet has no padding: it is the two bytes of `op`, the byte `arg`, the
byte `type` and the four bytes of `timeout`. -/
theorem prism_send_data_bytes_eq (env : Env) (op arg type timeout : Nat) :
    prism_send_data_bytes env op arg type timeout =
      scalarBytes env 2 op ++ [arg % 256] ++ [type % 256] ++ scalarBytes env 4 timeout := by
  obtain ⟨a, ha, h1, h2, h4⟩ := alignOf_shape env
  unfold prism_send_data_bytes structBytes structAlign
  simp only [layout, List.map, List.foldl, h1, h2, h4, List.length_nil, List.nil_append,
    List.length_append, List.length_replicate, scalarBytes_length, scalarBytes_one]
  rcases ha with rfl | rfl | rfl <;> simp [padding, scalarBytes_length]

theorem prism_send_data_bytes_length (env : Env) (op arg type timeout : Nat) :
    (prism_send_data_bytes env op arg type timeout).length = 8 := by
  rw [prism_send_data_bytes_eq]
  simp [scalarBytes_length]

/-- The trace once `Wire.endTransmission` has returned in a channel call. -/
theorem packetSent_trace (env : Env) (d : prdev_t) (op type arg timeout : Nat) (w : World) :
    (Wire_endTransmission env (packetQueued env d op type arg timeout w)).2.trace =
      w.trace ++
        [Event.beginTransmission d.address,
         Event.wireWrite (prism_send_data_bytes env op arg type timeout),
         Event.endTransmission (writeStatus env d op type arg timeout w)] := by
  simp [writeStatus, Wire_endTransmission, emit, packetQueued, Wire_write,
    Wire_beginTransmission]

/-- The trace once the read request of a channel call has been served. -/
theorem requestServed_trace (env : Env) (d : prdev_t) (op type arg timeout : Nat) (w : World) :
    (requestServed env d op type arg timeout w).trace =
      w.trace ++
        [Event.beginTransmission d.address,
         Event.wireWrite (prism_send_data_bytes env op arg type timeout),
         Event.endTransmission (writeStatus env d op type arg timeout w),
         Event.delay 50,
         Event.requestFrom d.address 1 (responseBytes env d op type arg timeout w)] := by
  simp [responseBytes, requestServed, writeStatus, Wire_requestFrom, delay,
    Wire_endTransmission, emit, packetQueued, Wire_write, Wire_beginTransmission]

/-- The events of one channel call on a non-null device. -/
theorem send_opcode_arg1_trace (env : Env) (d : prdev_t) (op type arg timeout : Nat)
    (w : World) :
    (_prism_arch_send_opcode_arg1 env (some d) op type arg timeout w).2.trace =
      w.trace ++
        [Event.beginTransmission d.address,
         Event.wireWrite (prism_send_data_bytes env op arg type timeout),
         Event.endTransmission (writeStatus env d op type arg timeout w)] ++
        (if writeStatus env d op type arg timeout w = 0 then
          [Event.delay 50,
           Event.requestFrom d.address 1 (responseBytes env d op type arg timeout w)]
         else []) := by
  rw [send_opcode_arg1_some]
  by_cases hs : writeStatus env d op type arg timeout w = 0
  · by_cases hr : responseBytes env d op type arg timeout w = []
    · simp only [hs, ne_eq, not_true_eq_false, if_false, if_true, if_pos hr]
      rw [requestServed_trace, hs]
      simp
    · simp only [hs, ne_eq, not_true_eq_false, if_false, if_true, if_neg hr]
      rw [requestServed_trace, hs]
      simp
  · simp only [hs, ne_eq, not_false_eq_true, if_true, if_false]
    rw [packetSent_trace]
    simp

/-- C3: on a non-null device `_prism_arch_send_opcode_arg1` opens exactly one transmission
to the device address and writes one 8-byte payload, `op` in 2 bytes, `arg` in 1, `type` in
1 and `timeout` in 4 with nothing in between; when the bus reports success it waits and
requests exactly 1 byte from the same address, and otherwise does nothing more. -/
theorem send_opcode_arg1_wire (env : Env) (d : prdev_t) (op type arg timeout : Nat) (w : World) :
    prism_send_data_bytes env op arg type timeout =
        scalarBytes env 2 op ++ [arg % 256] ++ [type % 256] ++ scalarBytes env 4 timeout ∧
      (scalarBytes env 2 op).length = 2 ∧ (scalarBytes env 4 timeout).length = 4 ∧
      (prism_send_data_bytes env op arg type timeout).length = 8 ∧
      (_prism_arch_send_opcode_arg1 env (some d) op type arg timeout w).2.trace =
        w.trace ++
          [Event.beginTransmission d.address,
           Event.wireWrite (prism_send_data_bytes env op arg type timeout),
           Event.endTransmission (writeStatus env d op type arg timeout w)] ++
          (if writeStatus env d op type arg timeout w = 0 then
            [Event.delay 50,
             Event.requestFrom d.address 1 (responseBytes env d op type arg timeout w)]
           else []) :=
  ⟨prism_send_data_bytes_eq env op arg type timeout, scalarBytes_length env 2 op,
    scalarBytes_length env 4 timeout, prism_send_data_bytes_length env op arg type timeout,
    send_opcode_arg1_trace env d op type arg timeout w⟩

/-- The packet of a store to bank A with timeout 1000 on a little-endian platform. -/
theorem prism_send_data_bytes_sample :
    prism_send_data_bytes ackEnv PRISM_OPCODE_STORE_A 255 PRISM_OPCODE_TYPE_UI32 1000 =
      [0x58, 0x00, 0xFF, 0xD0, 0xE8, 0x03, 0x00, 0x00] := by
  decide

/-! ## Device lifecycle -/

/-- What `_prism_arch_get_variable` returns on a non-null device: the byte received, or the
value of `PR_ERR_UNKNOWN` when none was. -/
theorem get_variable_some (env : Env) (d : prdev_t) (op : Nat) (w : World) :
    _prism_arch_get_variable env (some d) op w =
      (match responseBytes env d op PRISM_OPCODE_TYPE_UI8 0 UINT16_MAX w with
        | [] => 4
        | b :: _ => b,
       { requestServed env d op PRISM_OPCODE_TYPE_UI8 0 UINT16_MAX w with
         rx := (responseBytes env d op PRISM_OPCODE_TYPE_UI8 0 UINT16_MAX w).tail }) := by
  unfold responseBytes requestServed packetQueued
  simp only [_prism_arch_get_variable, Wire_available, Wire_read]
  generalize (Wire_requestFrom env d.address 1 (delay 50 (Wire_endTransmission env (Wire_write
    (prism_send_data_bytes env op 0 PRISM_OPCODE_TYPE_UI8 UINT16_MAX)
    (Wire_beginTransmission d.address w))).2)) = w2
  rcases w2 with ⟨tr, rx⟩
  cases rx with
  | nil => simp [prism_err.toNat]
  | cons b rest => simp

/-- C4: with a non-null handle, `prism_device_create` answers `PR_ERR_INVALID_ARGUMENT` for
address 0 and for every address above 127, and `PR_OK` with a handle at that address for
every address from 1 to 127, whatever the bus and the device answer. -/
theorem device_create_address (env : Env) (address : Nat) (wireInit : Bool)
    (config : Option prism_dev_config_t) (d : prdev_t) (w : World) :
    (address = 0 ∨ address > 127 →
      (prism_device_create env address wireInit config (some d) w).1 =
        PR_ERR_INVALID_ARGUMENT) ∧
    (1 ≤ address ∧ address ≤ 127 →
      (prism_device_create env address wireInit config (some d) w).1 = PR_OK ∧
      ∃ d', (prism_device_create env address wireInit config (some d) w).2.1 = some d' ∧
        d'.address = address) := by
  constructor
  · intro h
    simp [prism_device_create, h]
  · intro h
    have hn : ¬ (address = 0 ∨ address > 127) := by omega
    unfold prism_device_create
    dsimp only
    rw [if_neg hn]
    exact ⟨rfl, _, rfl, by cases config <;> rfl⟩

/-- The opcode `PRISM_OPCODE_ARCH_INIT` is 0, so `_prism_arch_send_opcode` refuses it
before touching the bus. -/
theorem send_opcode_arch_init (env : Env) (dev : Option prdev_t) (type timeout : Nat)
    (w : World) :
    _prism_arch_send_opcode env dev PRISM_OPCODE_ARCH_INIT type timeout w =
      (PR_ERR_INVALID_ARGUMENT, w) := by
  unfold _prism_arch_send_opcode PRISM_OPCODE_ARCH_INIT
  by_cases h : dev = none <;> simp [h]

/-- The events of one `_prism_arch_get_variable` call on a non-null device. -/
theorem get_variable_trace (env : Env) (d : prdev_t) (op : Nat) (w : World) :
    (_prism_arch_get_variable env (some d) op w).2.trace =
      w.trace ++
        [Event.beginTransmission d.address,
         Event.wireWrite (prism_send_data_bytes env op 0 PRISM_OPCODE_TYPE_UI8 UINT16_MAX),
         Event.endTransmission (writeStatus env d op PRISM_OPCODE_TYPE_UI8 0 UINT16_MAX w),
         Event.delay 50,
         Event.requestFrom d.address 1
           (responseBytes env d op PRISM_OPCODE_TYPE_UI8 0 UINT16_MAX w)] := by
  rw [get_variable_some]
  exact requestServed_trace env d op PRISM_OPCODE_TYPE_UI8 0 UINT16_MAX w

/-- A `_prism_arch_get_variable` call only appends to the trace. -/
theorem get_variable_extends (env : Env) (d : prdev_t) (op : Nat) (w : World) :
    ∃ rest, (_prism_arch_get_variable env (some d) op w).2.trace = w.trace ++ rest :=
  ⟨_, get_variable_trace env d op w⟩

/-- With a silent slave `_prism_arch_get_variable` returns 4, the value of `PR_ERR_UNKNOWN`. -/
theorem get_variable_silent (env : Env) (hs : ∀ h, env.slave h = []) (d : prdev_t) (op : Nat)
    (w : World) : (_prism_arch_get_variable env (some d) op w).1 = 4 := by
  rw [get_variable_some]
  simp [responseBytes, requestServed, Wire_requestFrom, hs]

/-- Appending to a trace keeps what was already known to start it. -/
theorem extends_trans {pre : List Event} {w1 w2 : World}
    (h1 : ∃ rest, w1.trace = pre ++ rest) (h2 : ∃ rest, w2.trace = w1.trace ++ rest) :
    ∃ rest, w2.trace = pre ++ rest := by
  obtain ⟨r1, e1⟩ := h1
  obtain ⟨r2, e2⟩ := h2
  exact ⟨r1 ++ r2, by rw [e2, e1, List.append_assoc]⟩

/-- The version banner of `prism_device_create` only appends to the trace. -/
theorem banner_extends (c : Prop) (inst : Decidable c) (a b e : Nat) (w1 : World) :
    ∃ rest, (@ite World c inst
        (Serial_printlnNum e (Serial_print "." (Serial_printNum b (Serial_print "."
          (Serial_printNum a (Serial_print "Prism Device Version: " w1))))))
        w1).trace = w1.trace ++ rest := by
  by_cases hc : c
  · rw [if_pos hc]
    refine ⟨[Event.serialPrint "Prism Device Version: ", Event.serialPrintNum a,
      Event.serialPrint ".", Event.serialPrintNum b, Event.serialPrint ".",
      Event.serialPrintlnNum e], ?_⟩
    simp [Serial_printlnNum, Serial_printNum, Serial_print, emit]
  · rw [if_neg hc]
    exact ⟨[], by simp⟩

/-- The first bus traffic of `prism_device_create` is the flank query. -/
theorem device_create_trace (env : Env) (address : Nat) (wireInit : Bool)
    (config : Option prism_dev_config_t) (d : prdev_t) (w : World)
    (h : 1 ≤ address ∧ address ≤ 127) :
    ∃ rest, (prism_device_create env address wireInit config (some d) w).2.2.trace =
      (w.trace ++ (if wireInit then [Event.wireBegin] else []) ++
        [Event.delay 100, Event.beginTransmission address,
         Event.wireWrite (prism_send_data_bytes env PRISM_OPCODE_ARCH_GET_FLANK 0
           PRISM_OPCODE_TYPE_UI8 UINT16_MAX)]) ++ rest := by
  have hn : ¬ (address = 0 ∨ address > 127) := by omega
  unfold prism_device_create
  dsimp only
  rw [if_neg hn]
  simp only [send_opcode_arch_init]
  refine extends_trans ?_ (banner_extends _ _ _ _ _ _)
  refine extends_trans ?_ (get_variable_extends env _ _ _)
  refine extends_trans ?_ (get_variable_extends env _ _ _)
  refine extends_trans ?_ (get_variable_extends env _ _ _)
  rw [get_variable_trace]
  generalize writeStatus env _ _ _ _ _ _ = st
  generalize responseBytes env _ _ _ _ _ _ = resp
  refine ⟨[Event.endTransmission st, Event.delay 50, Event.requestFrom address 1 resp], ?_⟩
  cases config <;> cases wireInit <;> simp [delay, emit, Wire_begin]

/-- C5: `prism_device_create` does not transmit `PRISM_OPCODE_ARCH_INIT`: the opcode is 0,
which `_prism_arch_send_opcode` rejects with `PR_ERR_INVALID_ARGUMENT` before any bus
activity, so for a valid address the first packet on the bus is the flank query
(op 0x01). -/
theorem device_create_arch_init_not_sent (env : Env) (address : Nat) (wireInit : Bool)
    (config : Option prism_dev_config_t) (d : prdev_t) (w : World)
    (h : 1 ≤ address ∧ address ≤ 127) :
    (∀ d' w', _prism_arch_send_opcode env (some d') PRISM_OPCODE_ARCH_INIT
        PRISM_OPCODE_TYPE_UI32 255 w' = (PR_ERR_INVALID_ARGUMENT, w')) ∧
    ∃ rest, (prism_device_create env address wireInit config (some d) w).2.2.trace =
      (w.trace ++ (if wireInit then [Event.wireBegin] else []) ++
        [Event.delay 100, Event.beginTransmission address,
         Event.wireWrite (prism_send_data_bytes env PRISM_OPCODE_ARCH_GET_FLANK 0
           PRISM_OPCODE_TYPE_UI8 UINT16_MAX)]) ++ rest :=
  ⟨fun d' w' => send_opcode_arch_init env (some d') PRISM_OPCODE_TYPE_UI32 255 w',
    device_create_trace env address wireInit config d w h⟩

/-- C5 at address 1 on an acknowledging device. -/
theorem device_create_arch_init_not_sent_witness :
    (1 ≤ 1 ∧ 1 ≤ 127) ∧
    ((∀ d' w', _prism_arch_send_opcode ackEnv (some d') PRISM_OPCODE_ARCH_INIT
        PRISM_OPCODE_TYPE_UI32 255 w' = (PR_ERR_INVALID_ARGUMENT, w')) ∧
    ∃ rest, (prism_device_create ackEnv 1 false none (some blankDevice) World.start).2.2.trace =
      (World.start.trace ++ (if false then [Event.wireBegin] else []) ++
        [Event.delay 100, Event.beginTransmission 1,
         Event.wireWrite (prism_send_data_bytes ackEnv PRISM_OPCODE_ARCH_GET_FLANK 0
           PRISM_OPCODE_TYPE_UI8 UINT16_MAX)]) ++ rest) :=
  ⟨by decide, device_create_arch_init_not_sent ackEnv 1 false none blankDevice World.start
    (by decide)⟩

/-- The whole trace of `prism_device_create` at address 1 with a null configuration on an
acknowledging device: four queries (op 1, 2, 3, 4) and the version banner, and no packet
with op 0. -/
theorem device_create_ack_trace :
    (prism_device_create ackEnv 1 false none (some blankDevice) World.start).2.2.trace =
      [Event.delay 100,
       Event.beginTransmission 1, Event.wireWrite [1, 0, 0, 0xD4, 0xFF, 0xFF, 0, 0],
       Event.endTransmission 0, Event.delay 50, Event.requestFrom 1 1 [1],
       Event.beginTransmission 1, Event.wireWrite [2, 0, 0, 0xD4, 0xFF, 0xFF, 0, 0],
       Event.endTransmission 0, Event.delay 50, Event.requestFrom 1 1 [1],
       Event.beginTransmission 1, Event.wireWrite [3, 0, 0, 0xD4, 0xFF, 0xFF, 0, 0],
       Event.endTransmission 0, Event.delay 50, Event.requestFrom 1 1 [1],
       Event.beginTransmission 1, Event.wireWrite [4, 0, 0, 0xD4, 0xFF, 0xFF, 0, 0],
       Event.endTransmission 0, Event.delay 50, Event.requestFrom 1 1 [1],
       Event.serialPrint "Prism Device Version: ", Event.serialPrintNum 1,
       Event.serialPrint ".", Event.serialPrintNum 1, Event.serialPrint ".",
       Event.serialPrintlnNum 1] := by
  decide

/-- C6: when the slave never supplies a response byte, `_prism_arch_get_variable` returns 4
(the value of `PR_ERR_UNKNOWN`), not 0, and the handle `prism_device_create` leaves behind
has flank, major, minor and patch all equal to 4. -/
theorem device_create_silent_metadata (env : Env) (address : Nat) (wireInit : Bool)
    (config : Option prism_dev_config_t) (d : prdev_t) (w : World)
    (hs : ∀ h, env.slave h = []) (h : 1 ≤ address ∧ address ≤ 127) :
    (∀ d' op w', (_prism_arch_get_variable env (some d') op w').1 = 4) ∧
    ∃ d', (prism_device_create env address wireInit config (some d) w).2.1 = some d' ∧
      d'.flank = 4 ∧ d'.major = 4 ∧ d'.minor = 4 ∧ d'.patch = 4 := by
  have hn : ¬ (address = 0 ∨ address > 127) := by omega
  refine ⟨fun d' op w' => get_variable_silent env hs d' op w', ?_⟩
  unfold prism_device_create
  dsimp only
  rw [if_neg hn]
  exact ⟨_, rfl, get_variable_silent env hs _ _ _, get_variable_silent env hs _ _ _,
    get_variable_silent env hs _ _ _, get_variable_silent env hs _ _ _⟩

/-- C6 at address 1 on a silent device. -/
theorem device_create_silent_metadata_witness :
    ((∀ h, silentEnv.slave h = []) ∧ (1 ≤ 1 ∧ 1 ≤ 127)) ∧
    ((∀ d' op w', (_prism_arch_get_variable silentEnv (some d') op w').1 = 4) ∧
    ∃ d', (prism_device_create silentEnv 1 false none (some blankDevice) World.start).2.1 =
        some d' ∧
      d'.flank = 4 ∧ d'.major = 4 ∧ d'.minor = 4 ∧ d'.patch = 4) :=
  ⟨⟨fun _ => rfl, by decide⟩,
    device_create_silent_metadata silentEnv 1 false none blankDevice World.start
      (fun _ => rfl) (by decide)⟩

/-- C7: with a null configuration `prism_device_create` installs the pins
2, 3, 5, 4, 6, 7, 8, 9, 10, 11: `pin3low` is 5 and `pin4low` is 4, the two defaults
exchanged; a supplied configuration is copied field for field. -/
theorem device_create_config (env : Env) (address : Nat) (wireInit : Bool) (d : prdev_t)
    (w : World) (h : 1 ≤ address ∧ address ≤ 127) :
    (∃ d', (prism_device_create env address wireInit none (some d) w).2.1 = some d' ∧
      d'.config =
        { pin1low := 2, pin2low := 3, pin3low := 5, pin4low := 4, pin5Time := 6,
          pin6Next := 7, pin7high := 8, pin8high := 9, pin9high := 10, pin10high := 11 }) ∧
    (∀ c, ∃ d', (prism_device_create env address wireInit (some c) (some d) w).2.1 = some d' ∧
      d'.config = c) := by
  have hn : ¬ (address = 0 ∨ address > 127) := by omega
  constructor
  · unfold prism_device_create
    dsimp only
    rw [if_neg hn]
    exact ⟨_, rfl, rfl⟩
  · intro c
    unfold prism_device_create
    dsimp only
    rw [if_neg hn]
    exact ⟨_, rfl, rfl⟩

/-- C7 at address 1. -/
theorem device_create_config_witness :
    (1 ≤ 1 ∧ 1 ≤ 127) ∧
    ((∃ d', (prism_device_create ackEnv 1 false none (some blankDevice) World.start).2.1 =
        some d' ∧
      d'.config =
        { pin1low := 2, pin2low := 3, pin3low := 5, pin4low := 4, pin5Time := 6,
          pin6Next := 7, pin7high := 8, pin8high := 9, pin9high := 10, pin10high := 11 }) ∧
    (∀ c, ∃ d', (prism_device_create ackEnv 1 false (some c) (some blankDevice)
        World.start).2.1 = some d' ∧ d'.config = c)) :=
  ⟨by decide, device_create_config ackEnv 1 false blankDevice World.start (by decide)⟩

/-! ## Bank transfer -/

/-- C8: `_v256_store_bank_v` answers `PR_ERR_INVALID_ARGUMENT` and leaves the world
untouched (no bus transmission, no pin write) for a null device and for every bank other
than `PRISM_BANK_A` and `PRISM_BANK_B`. -/
theorem store_bank_rejects (env : Env) (device : Option prdev_t) (bank : Nat) (vec : _v256i)
    (timeout : Nat) (w : World)
    (h : device = none ∨ (bank ≠ PRISM_BANK_A ∧ bank ≠ PRISM_BANK_B)) :
    _v256_store_bank_v env device bank vec timeout w = (PR_ERR_INVALID_ARGUMENT, w) := by
  unfold _v256_store_bank_v
  rcases h with h | h
  · rw [if_pos h]
  · by_cases hd : device = none
    · rw [if_pos hd]
    · rw [if_neg hd, if_pos h]

/-- C8 for bank C on an acknowledging device. -/
theorem store_bank_rejects_witness :
    (some sampleDevice = none ∨ (PRISM_BANK_C ≠ PRISM_BANK_A ∧ PRISM_BANK_C ≠ PRISM_BANK_B)) ∧
    _v256_store_bank_v ackEnv (some sampleDevice) PRISM_BANK_C sampleVector 1000 World.start =
      (PR_ERR_INVALID_ARGUMENT, World.start) :=
  ⟨Or.inr (by decide),
    store_bank_rejects ackEnv (some sampleDevice) PRISM_BANK_C sampleVector 1000 World.start
      (Or.inr (by decide))⟩

/-- C9: for every bank other than A, B, C and D (`PRISM_BANK_MAX` = 4 included, which the
wrapper lets through), `_v256_load_bank_x` and `_prism_load_bank_x` answer
`PR_ERR_INVALID_ARGUMENT`, leave the world untouched and return the output vector as it
was. -/
theorem load_bank_rejects (env : Env) (device : Option prdev_t) (bank : Nat) (vec : _v256i)
    (timeout : Nat) (w : World)
    (h : bank ≠ PRISM_BANK_A ∧ bank ≠ PRISM_BANK_B ∧ bank ≠ PRISM_BANK_C ∧ bank ≠ PRISM_BANK_D) :
    _v256_load_bank_x env device bank vec timeout w = (PR_ERR_INVALID_ARGUMENT, vec, w) ∧
    _prism_load_bank_x env device bank vec timeout w = (PR_ERR_INVALID_ARGUMENT, vec, w) ∧
    ¬ (PRISM_BANK_MAX > PRISM_BANK_MAX) := by
  have hl : _prism_load_bank_x env device bank vec timeout w =
      (PR_ERR_INVALID_ARGUMENT, vec, w) := by
    unfold _prism_load_bank_x
    simp [h.1, h.2.1, h.2.2.1, h.2.2.2]
  refine ⟨?_, hl, by decide⟩
  unfold _v256_load_bank_x
  by_cases hd : device = none
  · rw [if_pos hd]
  · rw [if_neg hd]
    by_cases hm : bank > PRISM_BANK_MAX
    · rw [if_pos hm]
    · rw [if_neg hm, hl]

/-- C9 for `PRISM_BANK_MAX` on an acknowledging device. -/
theorem load_bank_rejects_witness :
    (PRISM_BANK_MAX ≠ PRISM_BANK_A ∧ PRISM_BANK_MAX ≠ PRISM_BANK_B ∧
      PRISM_BANK_MAX ≠ PRISM_BANK_C ∧ PRISM_BANK_MAX ≠ PRISM_BANK_D) ∧
    (_v256_load_bank_x ackEnv (some sampleDevice) PRISM_BANK_MAX sampleVector 1000 World.start =
        (PR_ERR_INVALID_ARGUMENT, sampleVector, World.start) ∧
      _prism_load_bank_x ackEnv (some sampleDevice) PRISM_BANK_MAX sampleVector 1000
          World.start = (PR_ERR_INVALID_ARGUMENT, sampleVector, World.start) ∧
      ¬ (PRISM_BANK_MAX > PRISM_BANK_MAX)) :=
  ⟨by decide,
    load_bank_rejects ackEnv (some sampleDevice) PRISM_BANK_MAX sampleVector 1000 World.start
      (by decide)⟩

/-- A `__prism_send_byte` call appends its events to the trace, whatever came before. -/
theorem send_byte_trace (dev : prdev_t) (byte : Nat) (new_entry : Bool) (w : World) :
    (__prism_send_byte dev byte new_entry w).trace = w.trace ++ byteTransfer dev byte new_entry := by
  cases new_entry <;>
    simp [byteTransfer, __prism_send_byte, digitalWrite, delayMicroseconds, emit, World.start]

/-- One word goes out as four byte transfers, lowest byte first, the first one flagged as
a new entry. -/
theorem wordTransfer_eq (dev : prdev_t) (entry : Nat) :
    wordTransfer dev entry =
      byteTransfer dev ((entry % 2 ^ 32) &&& 0xFF) true ++
      byteTransfer dev (((entry % 2 ^ 32) >>> 8) &&& 0xFF) false ++
      byteTransfer dev (((entry % 2 ^ 32) >>> 16) &&& 0xFF) false ++
      byteTransfer dev (((entry % 2 ^ 32) >>> 24) &&& 0xFF) false := by
  unfold wordTransfer __prism_send_uint32
  simp only [send_byte_trace, World.start, List.nil_append, List.append_assoc]

/-- A `__prism_send_uint32` call appends its events to the trace, whatever came before. -/
theorem send_uint32_trace (dev : prdev_t) (entry : Nat) (w : World) :
    (__prism_send_uint32 dev entry w).trace = w.trace ++ wordTransfer dev entry := by
  rw [wordTransfer_eq]
  unfold __prism_send_uint32
  simp only [send_byte_trace, List.append_assoc]

/-- The lane loop of a store, over any list of lane indices. -/
theorem sendLanes_fold_trace (dev : prdev_t) (vec : _v256i) (l : List (Fin 8)) (w : World) :
    (l.foldl (fun w i => __prism_send_uint32 dev (vec.ui i) w) w).trace =
      w.trace ++ (l.map (fun i => wordTransfer dev (vec.ui i))).flatten := by
  induction l generalizing w with
  | nil => simp
  | cons i l ih =>
    rw [List.foldl_cons, ih, send_uint32_trace]
    simp [List.append_assoc]

/-- The lane loop of a store appends the eight word transfers in index order. -/
theorem sendLanes_trace (dev : prdev_t) (vec : _v256i) (w : World) :
    (sendLanes dev vec w).trace =
      w.trace ++ ((List.finRange 8).map (fun i => wordTransfer dev (vec.ui i))).flatten :=
  sendLanes_fold_trace dev vec (List.finRange 8) w

/-- With a non-zero opcode and type tag the base form is the argument form with
argument 255. -/
theorem send_opcode_some (env : Env) (d : prdev_t) (op type timeout : Nat) (w : World)
    (hop : op ≠ 0) (htype : type ≠ 0) :
    _prism_arch_send_opcode env (some d) op type timeout w =
      _prism_arch_send_opcode_arg1 env (some d) op type 255 timeout w := by
  unfold _prism_arch_send_opcode
  simp [hop, htype]

/-- The read request of a channel call yields at most one byte. -/
theorem responseBytes_length (env : Env) (d : prdev_t) (op type arg timeout : Nat) (w : World) :
    (responseBytes env d op type arg timeout w).length ≤ 1 := by
  simp [responseBytes, requestServed, Wire_requestFrom]

/-- The events of an acknowledged channel call. -/
theorem send_opcode_arg1_ack_trace (env : Env) (d : prdev_t) (op type arg timeout : Nat)
    (w : World)
    (hack : (_prism_arch_send_opcode_arg1 env (some d) op type arg timeout w).1 = PR_OK) :
    (_prism_arch_send_opcode_arg1 env (some d) op type arg timeout w).2.trace =
      w.trace ++
        [Event.beginTransmission d.address,
         Event.wireWrite (prism_send_data_bytes env op arg type timeout),
         Event.endTransmission 0, Event.delay 50, Event.requestFrom d.address 1 [0x01]] := by
  rw [send_opcode_arg1_some_result] at hack
  by_cases hc : writeStatus env d op type arg timeout w = 0 ∧
      (responseBytes env d op type arg timeout w).head? = some 0x01
  · have hlen := responseBytes_length env d op type arg timeout w
    have hresp : responseBytes env d op type arg timeout w = [0x01] := by
      rcases hr : responseBytes env d op type arg timeout w with _ | ⟨b, rest⟩
      · rw [hr] at hc
        simp at hc
      · rw [hr] at hc hlen
        cases rest with
        | nil => simpa using hc.2
        | cons c rest => simp at hlen
    rw [send_opcode_arg1_trace, hc.1, hresp]
    simp
  · rw [if_neg hc] at hack
    exact absurd hack (by decide)

/-- The events of a channel call whose answer is not looked at. -/
theorem send_opcode_arg1_trace_exists (env : Env) (d : prdev_t) (op type arg timeout : Nat)
    (w : World) :
    ∃ st resp, (_prism_arch_send_opcode_arg1 env (some d) op type arg timeout w).2.trace =
      w.trace ++
        [Event.beginTransmission d.address,
         Event.wireWrite (prism_send_data_bytes env op arg type timeout),
         Event.endTransmission st] ++
        (if st = 0 then [Event.delay 50, Event.requestFrom d.address 1 resp] else []) :=
  ⟨_, _, send_opcode_arg1_trace env d op type arg timeout w⟩

/-- C10: for bank A or B on a device that acknowledges the store opcode,
`_prism_send_bank_x` returns `PR_OK` and its wire activity is, in this order: one command
packet with op 0x58 (bank A) or 0x59 (bank B); the lanes `vec.ui[0]` to `vec.ui[7]` in
index order, each as one word transfer of four byte transfers; one command packet with
op 0x5F. -/
theorem send_bank_wire (env : Env) (d : prdev_t) (vec : _v256i) (bank timeout : Nat)
    (w : World) (hb : bank = PRISM_BANK_A ∨ bank = PRISM_BANK_B)
    (hack : (_prism_arch_send_opcode env (some d)
      (if bank = PRISM_BANK_A then PRISM_OPCODE_STORE_A else PRISM_OPCODE_STORE_B)
      PRISM_OPCODE_TYPE_UI32 timeout w).1 = PR_OK) :
    (_prism_send_bank_x env (some d) vec bank timeout w).1 = PR_OK ∧
    (∃ st resp, (_prism_send_bank_x env (some d) vec bank timeout w).2.trace =
      w.trace ++
        [Event.beginTransmission d.address,
         Event.wireWrite (prism_send_data_bytes env (if bank = PRISM_BANK_A then 0x58 else 0x59)
           255 PRISM_OPCODE_TYPE_UI32 timeout),
         Event.endTransmission 0, Event.delay 50, Event.requestFrom d.address 1 [0x01]] ++
        ((List.finRange 8).map (fun i => wordTransfer d (vec.ui i))).flatten ++
        [Event.beginTransmission d.address,
         Event.wireWrite (prism_send_data_bytes env 0x5F 255 PRISM_OPCODE_TYPE_UI8 timeout),
         Event.endTransmission st] ++
        (if st = 0 then [Event.delay 50, Event.requestFrom d.address 1 resp] else [])) ∧
    (∀ entry, wordTransfer d entry =
      byteTransfer d ((entry % 2 ^ 32) &&& 0xFF) true ++
      byteTransfer d (((entry % 2 ^ 32) >>> 8) &&& 0xFF) false ++
      byteTransfer d (((entry % 2 ^ 32) >>> 16) &&& 0xFF) false ++
      byteTransfer d (((entry % 2 ^ 32) >>> 24) &&& 0xFF) false) := by
  have hop : (if bank = PRISM_BANK_A then PRISM_OPCODE_STORE_A else PRISM_OPCODE_STORE_B) ≠ 0 := by
    rcases hb with hb | hb <;> rw [hb] <;> decide
  have hopv : (if bank = PRISM_BANK_A then PRISM_OPCODE_STORE_A else PRISM_OPCODE_STORE_B) =
      (if bank = PRISM_BANK_A then 0x58 else 0x59) := rfl
  rw [send_opcode_some env d _ _ _ _ hop (by decide)] at hack
  have htr := send_opcode_arg1_ack_trace env d _ _ _ _ w hack
  have hrun : _prism_send_bank_x env (some d) vec bank timeout w =
      (PR_OK, (_prism_arch_send_opcode_arg1 env (some d) PRISM_OPCODE_END PRISM_OPCODE_TYPE_UI8
        255 timeout (sendLanes d vec (_prism_arch_send_opcode_arg1 env (some d)
          (if bank = PRISM_BANK_A then PRISM_OPCODE_STORE_A else PRISM_OPCODE_STORE_B)
          PRISM_OPCODE_TYPE_UI32 255 timeout w).2)).2) := by
    unfold _prism_send_bank_x
    rw [send_opcode_some env d _ _ _ _ hop (by decide)]
    simp only [hack, ne_eq, not_true_eq_false, if_false]
    rw [send_opcode_some env d _ _ _ _ (by decide) (by decide)]
  refine ⟨by rw [hrun], ?_, wordTransfer_eq d⟩
  rw [hrun]
  obtain ⟨st, resp, hend⟩ := send_opcode_arg1_trace_exists env d PRISM_OPCODE_END
    PRISM_OPCODE_TYPE_UI8 255 timeout (sendLanes d vec (_prism_arch_send_opcode_arg1 env (some d)
      (if bank = PRISM_BANK_A then PRISM_OPCODE_STORE_A else PRISM_OPCODE_STORE_B)
      PRISM_OPCODE_TYPE_UI32 255 timeout w).2)
  refine ⟨st, resp, ?_⟩
  rw [hend, sendLanes_trace, htr, hopv]
  rfl

/-- C10 for bank A on an acknowledging device. -/
theorem send_bank_wire_witness :
    ((PRISM_BANK_A = PRISM_BANK_A ∨ PRISM_BANK_A = PRISM_BANK_B) ∧
      (_prism_arch_send_opcode ackEnv (some sampleDevice)
        (if PRISM_BANK_A = PRISM_BANK_A then PRISM_OPCODE_STORE_A else PRISM_OPCODE_STORE_B)
        PRISM_OPCODE_TYPE_UI32 1000 World.start).1 = PR_OK) ∧
    ((_prism_send_bank_x ackEnv (some sampleDevice) sampleVector PRISM_BANK_A 1000
        World.start).1 = PR_OK ∧
    (∃ st resp, (_prism_send_bank_x ackEnv (some sampleDevice) sampleVector PRISM_BANK_A 1000
        World.start).2.trace =
      World.start.trace ++
        [Event.beginTransmission sampleDevice.address,
         Event.wireWrite (prism_send_data_bytes ackEnv
           (if PRISM_BANK_A = PRISM_BANK_A then 0x58 else 0x59) 255 PRISM_OPCODE_TYPE_UI32 1000),
         Event.endTransmission 0, Event.delay 50,
         Event.requestFrom sampleDevice.address 1 [0x01]] ++
        ((List.finRange 8).map (fun i => wordTransfer sampleDevice (sampleVector.ui i))).flatten ++
        [Event.beginTransmission sampleDevice.address,
         Event.wireWrite (prism_send_data_bytes ackEnv 0x5F 255 PRISM_OPCODE_TYPE_UI8 1000),
         Event.endTransmission st] ++
        (if st = 0 then [Event.delay 50, Event.requestFrom sampleDevice.address 1 resp]
          else [])) ∧
    (∀ entry, wordTransfer sampleDevice entry =
      byteTransfer sampleDevice ((entry % 2 ^ 32) &&& 0xFF) true ++
      byteTransfer sampleDevice (((entry % 2 ^ 32) >>> 8) &&& 0xFF) false ++
      byteTransfer sampleDevice (((entry % 2 ^ 32) >>> 16) &&& 0xFF) false ++
      byteTransfer sampleDevice (((entry % 2 ^ 32) >>> 24) &&& 0xFF) false)) :=
  ⟨⟨Or.inl rfl, by decide⟩,
    send_bank_wire ackEnv sampleDevice sampleVector PRISM_BANK_A 1000 World.start
      (Or.inl rfl) (by decide)⟩

/-! ## Bank transfer: abort and load -/

/-- The opcode field can be read back from a command packet. -/
theorem packet_op_injective (env : Env) (op arg type timeout op' arg' type' timeout' : Nat)
    (h : prism_send_data_bytes env op arg type timeout =
      prism_send_data_bytes env op' arg' type' timeout') :
    op % 65536 = op' % 65536 := by
  rw [prism_send_data_bytes_eq, prism_send_data_bytes_eq] at h
  simp only [List.append_assoc] at h
  have h2 := (List.append_inj h (by simp [scalarBytes_length])).1
  unfold scalarBytes at h2
  cases hb : env.bigEndian <;> simp [hb, List.range_succ] at h2 <;> omega

/-- A channel call writes no pin, reads no pin, and puts at most its own packet on the bus. -/
theorem send_opcode_events (env : Env) (dev : Option prdev_t) (op type timeout : Nat)
    (w : World) :
    pinWrites (_prism_arch_send_opcode env dev op type timeout w).2.trace = pinWrites w.trace ∧
    pinReads (_prism_arch_send_opcode env dev op type timeout w).2.trace = pinReads w.trace ∧
    (packets (_prism_arch_send_opcode env dev op type timeout w).2.trace = packets w.trace ∨
      packets (_prism_arch_send_opcode env dev op type timeout w).2.trace =
        packets w.trace ++ [prism_send_data_bytes env op 255 type timeout]) := by
  unfold _prism_arch_send_opcode
  by_cases hd : dev = none
  · simp [hd]
  · obtain ⟨d, rfl⟩ := Option.ne_none_iff_exists'.mp hd
    by_cases hop : op = 0
    · simp [hop]
    · by_cases ht : type = 0
      · simp [ht]
      · simp only [hop, ht, if_false, reduceCtorEq]
        rw [send_opcode_arg1_trace]
        refine ⟨?_, ?_, Or.inr ?_⟩
        · split <;> simp [pinWrites, List.filterMap_append]
        · split <;> simp [pinReads, List.filterMap_append]
        · split <;> simp [packets, List.filterMap_append]

/-- C11: when the first opcode of a bank transfer is not answered with `PR_OK`,
`_prism_send_bank_x` and `_prism_load_bank_x` stop there: they return that error and the
world the opcode call left, the load returns the output vector as it was, and that world
has no new pin write or read and no packet other than (at most) the first one, which is
not an END packet. -/
theorem bank_transfer_aborts (env : Env) (dev : Option prdev_t) (vec out : _v256i)
    (bank timeout : Nat) (w : World) :
    ((_prism_arch_send_opcode env dev
        (if bank = PRISM_BANK_A then PRISM_OPCODE_STORE_A else PRISM_OPCODE_STORE_B)
        PRISM_OPCODE_TYPE_UI32 timeout w).1 ≠ PR_OK →
      _prism_send_bank_x env dev vec bank timeout w =
        _prism_arch_send_opcode env dev
          (if bank = PRISM_BANK_A then PRISM_OPCODE_STORE_A else PRISM_OPCODE_STORE_B)
          PRISM_OPCODE_TYPE_UI32 timeout w) ∧
    (bank = PRISM_BANK_A ∨ bank = PRISM_BANK_B ∨ bank = PRISM_BANK_C ∨ bank = PRISM_BANK_D →
      (_prism_arch_send_opcode env dev (loadOpcode bank) PRISM_OPCODE_TYPE_UI8 timeout w).1 ≠
        PR_OK →
      _prism_load_bank_x env dev bank out timeout w =
        ((_prism_arch_send_opcode env dev (loadOpcode bank) PRISM_OPCODE_TYPE_UI8 timeout w).1,
          out,
          (_prism_arch_send_opcode env dev (loadOpcode bank) PRISM_OPCODE_TYPE_UI8 timeout w).2)) ∧
    (∀ op type,
      pinWrites (_prism_arch_send_opcode env dev op type timeout w).2.trace = pinWrites w.trace ∧
      pinReads (_prism_arch_send_opcode env dev op type timeout w).2.trace = pinReads w.trace ∧
      (packets (_prism_arch_send_opcode env dev op type timeout w).2.trace = packets w.trace ∨
        packets (_prism_arch_send_opcode env dev op type timeout w).2.trace =
          packets w.trace ++ [prism_send_data_bytes env op 255 type timeout])) ∧
    (∀ op, op = PRISM_OPCODE_STORE_A ∨ op = PRISM_OPCODE_STORE_B ∨ op = loadOpcode bank →
      ∀ arg type arg' type' timeout', prism_send_data_bytes env op arg type timeout ≠
        prism_send_data_bytes env PRISM_OPCODE_END arg' type' timeout') := by
  refine ⟨?_, ?_, fun op type => send_opcode_events env dev op type timeout w, ?_⟩
  · intro h
    unfold _prism_send_bank_x
    simp only [h, ne_eq, not_false_eq_true, if_true]
  · intro hb h
    have hop : (if bank = PRISM_BANK_A then
          _prism_arch_send_opcode env dev PRISM_OPCODE_LOAD_A PRISM_OPCODE_TYPE_UI8 timeout w
        else if bank = PRISM_BANK_B then
          _prism_arch_send_opcode env dev PRISM_OPCODE_LOAD_B PRISM_OPCODE_TYPE_UI8 timeout w
        else if bank = PRISM_BANK_C then
          _prism_arch_send_opcode env dev PRISM_OPCODE_LOAD_C PRISM_OPCODE_TYPE_UI8 timeout w
        else if bank = PRISM_BANK_D then
          _prism_arch_send_opcode env dev PRISM_OPCODE_LOAD_D PRISM_OPCODE_TYPE_UI8 timeout w
        else (PR_ERR_INVALID_ARGUMENT, w)) =
        _prism_arch_send_opcode env dev (loadOpcode bank) PRISM_OPCODE_TYPE_UI8 timeout w := by
      unfold loadOpcode
      rcases hb with hb | hb | hb | hb <;> rw [hb] <;> rfl
    unfold _prism_load_bank_x
    rw [hop]
    simp only [h, ne_eq, not_false_eq_true, if_true]
  · intro op hop arg type arg' type' timeout' heq
    have h := packet_op_injective env _ _ _ _ _ _ _ _ heq
    unfold loadOpcode at hop
    rcases hop with hop | hop | hop
    · rw [hop] at h
      exact absurd h (by decide)
    · rw [hop] at h
      exact absurd h (by decide)
    · rw [hop] at h
      revert h
      split_ifs <;> decide

/-- The trace of a store that is not acknowledged: the store packet and nothing else. -/
theorem send_bank_silent_trace :
    _prism_send_bank_x silentEnv (some sampleDevice) sampleVector PRISM_BANK_A 1000 World.start =
      (PR_ERR_UNKNOWN,
        { trace := [Event.beginTransmission 0x42,
            Event.wireWrite [0x58, 0x00, 0xFF, 0xD0, 0xE8, 0x03, 0x00, 0x00],
            Event.endTransmission 0, Event.delay 50, Event.requestFrom 0x42 1 []],
          rx := [] }) := by
  rfl

/-- The lane loop of a load stores the eight received words in index order. -/
theorem recvLanes_eq (env : Env) (dev : prdev_t) (out : _v256i) (w : World) :
    recvLanes env dev out w =
      (⟨fun i => (recvWords env dev 8 w).1.getD i.val 0⟩, (recvWords env dev 8 w).2) := by
  have h8 : List.finRange 8 = [0, 1, 2, 3, 4, 5, 6, 7] := rfl
  unfold recvLanes
  rw [h8]
  simp only [List.foldl, recvWords]
  refine Prod.ext ?_ rfl
  simp only
  congr 1
  funext i
  fin_cases i <;> simp [Function.update]

/-- A channel call on a non-null device puts exactly its own packet on the bus. -/
theorem send_opcode_arg1_packets (env : Env) (d : prdev_t) (op type arg timeout : Nat)
    (w : World) :
    packets (_prism_arch_send_opcode_arg1 env (some d) op type arg timeout w).2.trace =
      packets w.trace ++ [prism_send_data_bytes env op arg type timeout] := by
  rw [send_opcode_arg1_trace]
  split <;> simp [packets, List.filterMap_append]

/-- A byte reception touches only pins. -/
theorem recv_byte_packets (env : Env) (dev : prdev_t) (new_entry : Bool) (w : World) :
    packets (__prism_recv_byte env dev new_entry w).2.trace = packets w.trace := by
  cases new_entry <;>
    simp [__prism_recv_byte, digitalWrite, digitalRead, delayMicroseconds, emit, packets,
      List.filterMap_append]

/-- A word reception touches only pins. -/
theorem recv_uint32_packets (env : Env) (dev : prdev_t) (w : World) :
    packets (__prism_recv_uint32 env dev w).2.trace = packets w.trace := by
  simp only [__prism_recv_uint32, recv_byte_packets]

/-- Successive word receptions touch only pins, and return one word each. -/
theorem recvWords_packets (env : Env) (dev : prdev_t) (n : Nat) (w : World) :
    packets (recvWords env dev n w).2.trace = packets w.trace ∧
      (recvWords env dev n w).1.length = n := by
  induction n generalizing w with
  | zero => simp [recvWords]
  | succ n ih =>
    simp only [recvWords, List.length_cons]
    exact ⟨by rw [(ih _).1, recv_uint32_packets], by rw [(ih _).2]⟩

/-- C12: for bank A, B, C or D on a device that acknowledges the load opcode,
`_prism_load_bank_x` announces the load with the opcode of the bank (A 0x5C, B 0x5D,
C 0x5A, D 0x5B), then makes exactly eight word receptions and stores the i-th received
word in `out->ui[i]`, then sends one END (0x5F) packet, and returns `PR_OK`. -/
theorem load_bank_wire (env : Env) (d : prdev_t) (bank : Nat) (out : _v256i) (timeout : Nat)
    (w : World)
    (hb : bank = PRISM_BANK_A ∨ bank = PRISM_BANK_B ∨ bank = PRISM_BANK_C ∨ bank = PRISM_BANK_D)
    (hack : (_prism_arch_send_opcode env (some d) (loadOpcode bank) PRISM_OPCODE_TYPE_UI8
      timeout w).1 = PR_OK) :
    loadOpcode bank =
      (if bank = PRISM_BANK_A then 0x5C else if bank = PRISM_BANK_B then 0x5D
        else if bank = PRISM_BANK_C then 0x5A else 0x5B) ∧
    (_prism_load_bank_x env (some d) bank out timeout w).1 = PR_OK ∧
    (recvWords env d 8 (_prism_arch_send_opcode env (some d) (loadOpcode bank)
      PRISM_OPCODE_TYPE_UI8 timeout w).2).1.length = 8 ∧
    (∀ i : Fin 8, (_prism_load_bank_x env (some d) bank out timeout w).2.1.ui i =
      (recvWords env d 8 (_prism_arch_send_opcode env (some d) (loadOpcode bank)
        PRISM_OPCODE_TYPE_UI8 timeout w).2).1.getD i.val 0) ∧
    (_prism_load_bank_x env (some d) bank out timeout w).2.2 =
      (_prism_arch_send_opcode env (some d) PRISM_OPCODE_END PRISM_OPCODE_TYPE_UI32 timeout
        (recvWords env d 8 (_prism_arch_send_opcode env (some d) (loadOpcode bank)
          PRISM_OPCODE_TYPE_UI8 timeout w).2).2).2 ∧
    packets (_prism_load_bank_x env (some d) bank out timeout w).2.2.trace =
      packets w.trace ++
        [prism_send_data_bytes env (loadOpcode bank) 255 PRISM_OPCODE_TYPE_UI8 timeout,
         prism_send_data_bytes env 0x5F 255 PRISM_OPCODE_TYPE_UI32 timeout] := by
  have hop : (if bank = PRISM_BANK_A then
        _prism_arch_send_opcode env (some d) PRISM_OPCODE_LOAD_A PRISM_OPCODE_TYPE_UI8 timeout w
      else if bank = PRISM_BANK_B then
        _prism_arch_send_opcode env (some d) PRISM_OPCODE_LOAD_B PRISM_OPCODE_TYPE_UI8 timeout w
      else if bank = PRISM_BANK_C then
        _prism_arch_send_opcode env (some d) PRISM_OPCODE_LOAD_C PRISM_OPCODE_TYPE_UI8 timeout w
      else if bank = PRISM_BANK_D then
        _prism_arch_send_opcode env (some d) PRISM_OPCODE_LOAD_D PRISM_OPCODE_TYPE_UI8 timeout w
      else (PR_ERR_INVALID_ARGUMENT, w)) =
      _prism_arch_send_opcode env (some d) (loadOpcode bank) PRISM_OPCODE_TYPE_UI8 timeout w := by
    unfold loadOpcode
    rcases hb with hb | hb | hb | hb <;> rw [hb] <;> rfl
  have hval : loadOpcode bank =
      (if bank = PRISM_BANK_A then 0x5C else if bank = PRISM_BANK_B then 0x5D
        else if bank = PRISM_BANK_C then 0x5A else 0x5B) := rfl
  have hne : loadOpcode bank ≠ 0 := by
    unfold loadOpcode
    split_ifs <;> decide
  have hrun : _prism_load_bank_x env (some d) bank out timeout w =
      (PR_OK, (recvLanes env d out (_prism_arch_send_opcode env (some d) (loadOpcode bank)
          PRISM_OPCODE_TYPE_UI8 timeout w).2).1,
        (_prism_arch_send_opcode env (some d) PRISM_OPCODE_END PRISM_OPCODE_TYPE_UI32 timeout
          (recvLanes env d out (_prism_arch_send_opcode env (some d) (loadOpcode bank)
            PRISM_OPCODE_TYPE_UI8 timeout w).2).2).2) := by
    unfold _prism_load_bank_x
    rw [hop]
    simp only [hack, ne_eq, not_true_eq_false, if_false]
  rw [hrun, recvLanes_eq]
  refine ⟨hval, rfl, (recvWords_packets env d 8 _).2, fun i => rfl, rfl, ?_⟩
  simp only
  rw [send_opcode_some env d _ _ _ _ (by decide) (by decide), send_opcode_arg1_packets,
    (recvWords_packets env d 8 _).1, send_opcode_some env d _ _ _ _ hne (by decide),
    send_opcode_arg1_packets]
  simp [PRISM_OPCODE_END]

/-! ## Word transporter -/

theorem and_255 (x : Nat) : x &&& 0xFF = x % 256 :=
  Nat.and_pow_two_sub_one_eq_mod x 8

/-- Or-ing a shifted value above a smaller one is adding it. -/
theorem or_shiftLeft (a b i : Nat) (ha : a < 2 ^ i) : a ||| (b <<< i) = a + b * 2 ^ i := by
  rw [Nat.shiftLeft_eq, Nat.lor_comm, Nat.mul_comm, ← Nat.mul_add_lt_is_or ha]
  omega

/-- Four bytes or-ed together at offsets 0, 8, 16 and 24 are the base-256 number they
spell. -/
theorem or_bytes (b0 b1 b2 b3 : Nat) (h0 : b0 < 256) (h1 : b1 < 256) (h2 : b2 < 256) :
    b0 ||| (b1 <<< 8) ||| (b2 <<< 16) ||| (b3 <<< 24) =
      b0 + b1 * 256 + b2 * 65536 + b3 * 16777216 := by
  rw [or_shiftLeft b0 b1 8 (by omega)]
  rw [or_shiftLeft _ b2 16 (by omega)]
  rw [or_shiftLeft _ b3 24 (by omega)]
  norm_num

/-- A received byte fits in 8 bits. -/
theorem recv_byte_lt (env : Env) (dev : prdev_t) (new_entry : Bool) (w : World) :
    (__prism_recv_byte env dev new_entry w).1 < 256 := by
  unfold __prism_recv_byte
  exact Nat.mod_lt _ (by norm_num)

/-- The word `__prism_recv_uint32` assembles from its four byte receptions. -/
theorem recv_uint32_eq (env : Env) (dev : prdev_t) (w : World) :
    ∃ b0 b1 b2 b3 w',
      recvBytes env dev [true, false, false, false] w = ([b0, b1, b2, b3], w') ∧
      b0 < 256 ∧ b1 < 256 ∧ b2 < 256 ∧ b3 < 256 ∧
      __prism_recv_uint32 env dev w = (b0 ||| (b1 <<< 8) ||| (b2 <<< 16) ||| (b3 <<< 24), w') := by
  have h0 := recv_byte_lt env dev true w
  have h1 := recv_byte_lt env dev false (__prism_recv_byte env dev true w).2
  have h2 := recv_byte_lt env dev false
    (__prism_recv_byte env dev false (__prism_recv_byte env dev true w).2).2
  have h3 := recv_byte_lt env dev false (__prism_recv_byte env dev false
    (__prism_recv_byte env dev false (__prism_recv_byte env dev true w).2).2).2
  refine ⟨_, _, _, _, _, rfl, h0, h1, h2, h3, ?_⟩
  unfold __prism_recv_uint32
  refine Prod.ext ?_ rfl
  simp only
  generalize (__prism_recv_byte env dev true w).1 = b0 at h0 ⊢
  generalize (__prism_recv_byte env dev false (__prism_recv_byte env dev true w).2).1 = b1
    at h1 ⊢
  generalize (__prism_recv_byte env dev false
    (__prism_recv_byte env dev false (__prism_recv_byte env dev true w).2).2).1 = b2 at h2 ⊢
  generalize (__prism_recv_byte env dev false (__prism_recv_byte env dev false
    (__prism_recv_byte env dev false (__prism_recv_byte env dev true w).2).2).2).1 = b3 at h3 ⊢
  rw [or_bytes b0 b1 b2 b3 h0 h1 h2]
  simp only [Nat.zero_or, Nat.shiftLeft_zero]
  rw [Nat.mod_eq_of_lt (by omega : b0 < 2 ^ 32)]
  rw [or_shiftLeft b0 b1 8 (by omega)]
  rw [Nat.mod_eq_of_lt (by omega : b0 + b1 * 2 ^ 8 < 2 ^ 32)]
  rw [or_shiftLeft _ b2 16 (by omega)]
  rw [Nat.mod_eq_of_lt (by omega : b0 + b1 * 2 ^ 8 + b2 * 2 ^ 16 < 2 ^ 32)]
  rw [or_shiftLeft _ b3 24 (by omega)]
  rw [Nat.mod_eq_of_lt (by omega : b0 + b1 * 2 ^ 8 + b2 * 2 ^ 16 + b3 * 2 ^ 24 < 2 ^ 32)]
  norm_num

/-- The four bytes `__prism_send_uint32` emits for a 32-bit word spell that word. -/
theorem word_bytes_reassemble (x : Nat) (hx : x < 2 ^ 32) :
    (x &&& 0xFF) ||| (((x >>> 8) &&& 0xFF) <<< 8) ||| (((x >>> 16) &&& 0xFF) <<< 16) |||
      (((x >>> 24) &&& 0xFF) <<< 24) = x := by
  simp only [and_255, Nat.shiftRight_eq_div_pow]
  rw [or_bytes _ _ _ _ (Nat.mod_lt _ (by norm_num)) (Nat.mod_lt _ (by norm_num))
    (Nat.mod_lt _ (by norm_num))]
  omega

/-- C14: for a 32-bit word `x`, `__prism_send_uint32` is four `__prism_send_byte` calls,
lowest byte first, with flags true, false, false, false; `__prism_recv_uint32` is four
`__prism_recv_byte` calls with the same flags and returns
`b0 | b1 << 8 | b2 << 16 | b3 << 24`; and the four bytes sent for `x` reassemble to `x`. -/
theorem word_transport (env : Env) (d : prdev_t) (x : Nat) (w : World) (hx : x < 2 ^ 32) :
    __prism_send_uint32 d x w =
      __prism_send_byte d ((x >>> 24) &&& 0xFF) false
        (__prism_send_byte d ((x >>> 16) &&& 0xFF) false
          (__prism_send_byte d ((x >>> 8) &&& 0xFF) false
            (__prism_send_byte d (x &&& 0xFF) true w))) ∧
    (__prism_send_uint32 d x w).trace =
      w.trace ++ (byteTransfer d (x &&& 0xFF) true ++ byteTransfer d ((x >>> 8) &&& 0xFF) false ++
        byteTransfer d ((x >>> 16) &&& 0xFF) false ++ byteTransfer d ((x >>> 24) &&& 0xFF) false) ∧
    (∃ b0 b1 b2 b3 w',
      recvBytes env d [true, false, false, false] w = ([b0, b1, b2, b3], w') ∧
      b0 < 256 ∧ b1 < 256 ∧ b2 < 256 ∧ b3 < 256 ∧
      __prism_recv_uint32 env d w = (b0 ||| (b1 <<< 8) ||| (b2 <<< 16) ||| (b3 <<< 24), w')) ∧
    (x &&& 0xFF) ||| (((x >>> 8) &&& 0xFF) <<< 8) ||| (((x >>> 16) &&& 0xFF) <<< 16) |||
      (((x >>> 24) &&& 0xFF) <<< 24) = x := by
  have hmod : x % 2 ^ 32 = x := Nat.mod_eq_of_lt hx
  refine ⟨?_, ?_, recv_uint32_eq env d w, word_bytes_reassemble x hx⟩
  · unfold __prism_send_uint32
    simp only [hmod]
  · rw [send_uint32_trace, wordTransfer_eq, hmod]

/-- C14 for the word 0x01020304. -/
theorem word_transport_witness :
    (0x01020304 : Nat) < 2 ^ 32 ∧
    (__prism_send_uint32 sampleDevice 0x01020304 World.start =
      __prism_send_byte sampleDevice ((0x01020304 >>> 24) &&& 0xFF) false
        (__prism_send_byte sampleDevice ((0x01020304 >>> 16) &&& 0xFF) false
          (__prism_send_byte sampleDevice ((0x01020304 >>> 8) &&& 0xFF) false
            (__prism_send_byte sampleDevice (0x01020304 &&& 0xFF) true World.start))) ∧
    (__prism_send_uint32 sampleDevice 0x01020304 World.start).trace =
      World.start.trace ++ (byteTransfer sampleDevice (0x01020304 &&& 0xFF) true ++
        byteTransfer sampleDevice ((0x01020304 >>> 8) &&& 0xFF) false ++
        byteTransfer sampleDevice ((0x01020304 >>> 16) &&& 0xFF) false ++
        byteTransfer sampleDevice ((0x01020304 >>> 24) &&& 0xFF) false) ∧
    (∃ b0 b1 b2 b3 w',
      recvBytes ackEnv sampleDevice [true, false, false, false] World.start =
        ([b0, b1, b2, b3], w') ∧
      b0 < 256 ∧ b1 < 256 ∧ b2 < 256 ∧ b3 < 256 ∧
      __prism_recv_uint32 ackEnv sampleDevice World.start =
        (b0 ||| (b1 <<< 8) ||| (b2 <<< 16) ||| (b3 <<< 24), w')) ∧
    (0x01020304 &&& 0xFF) ||| (((0x01020304 >>> 8) &&& 0xFF) <<< 8) |||
      (((0x01020304 >>> 16) &&& 0xFF) <<< 16) ||| (((0x01020304 >>> 24) &&& 0xFF) <<< 24) =
        0x01020304) :=
  ⟨by decide, word_transport ackEnv sampleDevice 0x01020304 World.start (by decide)⟩

/-! ## Byte transporter -/

/-- The events of a byte transfer, spelled out. -/
theorem byteTransfer_eq (dev : prdev_t) (byte : Nat) (new_entry : Bool) :
    byteTransfer dev byte new_entry =
      [Event.digitalWrite dev.config.pin5Time HIGH,
       Event.digitalWrite dev.config.pin6Next (if new_entry then HIGH else LOW),
       Event.digitalWrite dev.config.pin1low ((byte % 256) &&& 0x01),
       Event.digitalWrite dev.config.pin2low (((byte % 256) >>> 1) &&& 0x01),
       Event.digitalWrite dev.config.pin3low (((byte % 256) >>> 2) &&& 0x01),
       Event.digitalWrite dev.config.pin4low (((byte % 256) >>> 3) &&& 0x01),
       Event.digitalWrite dev.config.pin7high (((byte % 256) >>> 4) &&& 0x01),
       Event.digitalWrite dev.config.pin8high (((byte % 256) >>> 5) &&& 0x01),
       Event.digitalWrite dev.config.pin9high (((byte % 256) >>> 6) &&& 0x01),
       Event.digitalWrite dev.config.pin10high (((byte % 256) >>> 7) &&& 0x01),
       Event.delayMicroseconds 2,
       Event.digitalWrite dev.config.pin5Time LOW] ++
      (if new_entry then [Event.digitalWrite dev.config.pin6Next LOW] else []) ++
      [Event.delayMicroseconds 4] := by
  cases new_entry <;>
    simp [byteTransfer, __prism_send_byte, digitalWrite, delayMicroseconds, emit, World.start]

/-- The level of a line after two traces in a row. -/
theorem lineLevel_append (pin : Nat) (a b : List Event) :
    lineLevel pin (a ++ b) =
      b.foldl (fun lv e => match e with
        | Event.digitalWrite p l => if p = pin then l else lv
        | _ => lv) (lineLevel pin a) := by
  simp [lineLevel, List.foldl_append]

/-- A line that is low stays low over events that never write it high. -/
theorem lineLevel_stays_low (pin : Nat) (b : List Event)
    (hq : ∀ e ∈ b, ∀ l, e = Event.digitalWrite pin l → l = LOW) :
    ∀ a, lineLevel pin a = LOW → lineLevel pin (a ++ b) = LOW := by
  induction b with
  | nil => intro a ha; simpa using ha
  | cons e b ih =>
    intro a ha
    have hstep : lineLevel pin (a ++ [e]) = LOW := by
      rw [lineLevel_append]
      cases e with
      | digitalWrite p l =>
        by_cases hp : p = pin
        · have := hq (Event.digitalWrite p l) (List.mem_cons_self _ _) l (by rw [hp])
          simp [hp, this]
        · simp [hp, ha]
      | _ => simpa using ha
    have := ih (fun e' he' => hq e' (List.mem_cons_of_mem _ he')) (a ++ [e]) hstep
    simpa using this

/-- A byte transfer that is not a new entry never writes the entry-flag line high. -/
theorem byteTransfer_flag_quiet (d : prdev_t) (byte : Nat)
    (hd : d.config.pin6Next ∉ clockAndDataPins d.config) :
    ∀ e ∈ byteTransfer d byte false, ∀ l, e = Event.digitalWrite d.config.pin6Next l → l = LOW := by
  simp only [clockAndDataPins, List.mem_cons, List.mem_singleton, not_or, List.not_mem_nil,
    or_false] at hd
  obtain ⟨h5, h1, h2, h3, h4, h7, h8, h9, h10⟩ := hd
  intro e he l hl
  rw [byteTransfer_eq] at he
  subst hl
  simpa [h5, h1, h2, h3, h4, h7, h8, h9, h10, LOW] using he

/-- After a byte transfer flagged as a new entry the entry-flag line is low again. -/
theorem byteTransfer_flag_low (d : prdev_t) (byte : Nat) :
    lineLevel d.config.pin6Next (byteTransfer d byte true) = LOW := by
  rw [byteTransfer_eq]
  simp [lineLevel]

/-- C15: when the entry-flag pin differs from the clock and data pins, the pin writes of
one `__prism_send_uint32` call set the entry-flag line high exactly once, in the first of
the four byte transfers, and from the end of that first transfer on the line is low at
every instant, in particular at the falling clock edges of bytes 2, 3 and 4. -/
theorem entry_flag_once (d : prdev_t) (x : Nat)
    (hd : d.config.pin6Next ∉ clockAndDataPins d.config) :
    (pinWrites (wordTransfer d x)).count (d.config.pin6Next, HIGH) = 1 ∧
    (pinWrites (byteTransfer d ((x % 2 ^ 32) &&& 0xFF) true)).count (d.config.pin6Next, HIGH) = 1 ∧
    (∀ pre post, wordTransfer d x = pre ++ post →
      (byteTransfer d ((x % 2 ^ 32) &&& 0xFF) true).length ≤ pre.length →
      lineLevel d.config.pin6Next pre = LOW) := by
  have hd' := hd
  simp only [clockAndDataPins, List.mem_cons, List.mem_singleton, not_or, List.not_mem_nil,
    or_false] at hd'
  obtain ⟨h5, h1, h2, h3, h4, h7, h8, h9, h10⟩ := hd'
  have hcount : ∀ b ne, (pinWrites (byteTransfer d b ne)).count (d.config.pin6Next, HIGH) =
      if ne then 1 else 0 := by
    intro b ne
    rw [byteTransfer_eq]
    cases ne <;>
      simp [pinWrites, List.count_cons, HIGH, LOW, Ne.symm h5, Ne.symm h1, Ne.symm h2,
        Ne.symm h3, Ne.symm h4, Ne.symm h7, Ne.symm h8, Ne.symm h9, Ne.symm h10]
  refine ⟨?_, by rw [hcount]; rfl, ?_⟩
  · rw [wordTransfer_eq]
    simp only [pinWrites, List.filterMap_append, List.count_append]
    have hc := hcount
    simp only [pinWrites] at hc
    rw [hc, hc, hc, hc]
    rfl
  · intro pre post hsplit hlen
    rw [wordTransfer_eq, List.append_assoc, List.append_assoc] at hsplit
    rcases List.append_eq_append_iff.mp hsplit with ⟨a', hpre, hrest⟩ | ⟨c', hb1, _⟩
    · rw [hpre]
      refine lineLevel_stays_low _ a' ?_ _ (byteTransfer_flag_low d _)
      intro e he l hl
      have hmem : e ∈ byteTransfer d (((x % 2 ^ 32) >>> 8) &&& 0xFF) false ++
          (byteTransfer d (((x % 2 ^ 32) >>> 16) &&& 0xFF) false ++
            byteTransfer d (((x % 2 ^ 32) >>> 24) &&& 0xFF) false) := by
        rw [hrest]
        exact List.mem_append_left _ he
      rcases List.mem_append.mp hmem with hm | hm
      · exact byteTransfer_flag_quiet d _ hd e hm l hl
      · rcases List.mem_append.mp hm with hm | hm
        · exact byteTransfer_flag_quiet d _ hd e hm l hl
        · exact byteTransfer_flag_quiet d _ hd e hm l hl
    · have hc : c' = [] := by
        have := congrArg List.length hb1
        rw [List.length_append] at this
        exact List.length_eq_zero.mp (by omega)
      rw [hc, List.append_nil] at hb1
      rw [← hb1]
      exact byteTransfer_flag_low d _

/-- C16, as stated, fails: for the byte 0xA5 flagged as a new entry the events of
`__prism_send_byte` are not the claimed sequence, which starts with the entry flag; the
code raises the clock first. -/
theorem send_byte_claimed_order_fails :
    (__prism_send_byte sampleDevice 0xA5 true World.start).trace ≠
        World.start.trace ++ claimedSendByteEvents sampleDevice.config 0xA5 true ∧
      (__prism_send_byte sampleDevice 0xA5 true World.start).trace.head? =
        some (Event.digitalWrite sampleDevice.config.pin5Time HIGH) ∧
      (claimedSendByteEvents sampleDevice.config 0xA5 true).head? =
        some (Event.digitalWrite sampleDevice.config.pin6Next HIGH) := by
  decide

/-- C16, amended: for every configuration, byte value and flag, `__prism_send_byte` performs
exactly: clock line HIGH; entry-flag line to the flag; the 8 data lines with bits 0..7 of
the value (pin1low bit 0, pin2low bit 1, pin3low bit 2, pin4low bit 3, pin7high bit 4,
pin8high bit 5, pin9high bit 6, pin10high bit 7); wait 2 µs; clock line LOW; entry-flag
line LOW if the flag is set; wait 4 µs. -/
theorem send_byte_events (d : prdev_t) (byte : Nat) (new_entry : Bool) (w : World)
    (hb : byte < 256) :
    (__prism_send_byte d byte new_entry w).trace =
      w.trace ++
        ([Event.digitalWrite d.config.pin5Time HIGH,
          Event.digitalWrite d.config.pin6Next (if new_entry then HIGH else LOW),
          Event.digitalWrite d.config.pin1low ((byte >>> 0) &&& 1),
          Event.digitalWrite d.config.pin2low ((byte >>> 1) &&& 1),
          Event.digitalWrite d.config.pin3low ((byte >>> 2) &&& 1),
          Event.digitalWrite d.config.pin4low ((byte >>> 3) &&& 1),
          Event.digitalWrite d.config.pin7high ((byte >>> 4) &&& 1),
          Event.digitalWrite d.config.pin8high ((byte >>> 5) &&& 1),
          Event.digitalWrite d.config.pin9high ((byte >>> 6) &&& 1),
          Event.digitalWrite d.config.pin10high ((byte >>> 7) &&& 1),
          Event.delayMicroseconds 2,
          Event.digitalWrite d.config.pin5Time LOW] ++
        (if new_entry then [Event.digitalWrite d.config.pin6Next LOW] else []) ++
        [Event.delayMicroseconds 4]) := by
  rw [send_byte_trace, byteTransfer_eq, Nat.mod_eq_of_lt hb]
  rfl

/-- C16, amended, for the byte 0xA5 flagged as a new entry. -/
theorem send_byte_events_witness :
    (0xA5 : Nat) < 256 ∧
    (__prism_send_byte sampleDevice 0xA5 true World.start).trace =
      World.start.trace ++
        ([Event.digitalWrite sampleDevice.config.pin5Time HIGH,
          Event.digitalWrite sampleDevice.config.pin6Next (if true then HIGH else LOW),
          Event.digitalWrite sampleDevice.config.pin1low ((0xA5 >>> 0) &&& 1),
          Event.digitalWrite sampleDevice.config.pin2low ((0xA5 >>> 1) &&& 1),
          Event.digitalWrite sampleDevice.config.pin3low ((0xA5 >>> 2) &&& 1),
          Event.digitalWrite sampleDevice.config.pin4low ((0xA5 >>> 3) &&& 1),
          Event.digitalWrite sampleDevice.config.pin7high ((0xA5 >>> 4) &&& 1),
          Event.digitalWrite sampleDevice.config.pin8high ((0xA5 >>> 5) &&& 1),
          Event.digitalWrite sampleDevice.config.pin9high ((0xA5 >>> 6) &&& 1),
          Event.digitalWrite sampleDevice.config.pin10high ((0xA5 >>> 7) &&& 1),
          Event.delayMicroseconds 2,
          Event.digitalWrite sampleDevice.config.pin5Time LOW] ++
        (if true then [Event.digitalWrite sampleDevice.config.pin6Next LOW] else []) ++
        [Event.delayMicroseconds 4]) :=
  ⟨by decide, send_byte_events sampleDevice 0xA5 true World.start (by decide)⟩

/-- Eight levels or-ed into a byte at positions 0..7 make the byte whose bits they are. -/
theorem assemble_bits :
    ∀ c0 c1 c2 c3 c4 c5 c6 c7 : Bool,
      ((((((((0 ||| ((if c0 then HIGH else LOW) <<< 0)) % 256 |||
        ((if c1 then HIGH else LOW) <<< 1)) % 256 |||
        ((if c2 then HIGH else LOW) <<< 2)) % 256 |||
        ((if c3 then HIGH else LOW) <<< 3)) % 256 |||
        ((if c4 then HIGH else LOW) <<< 4)) % 256 |||
        ((if c5 then HIGH else LOW) <<< 5)) % 256 |||
        ((if c6 then HIGH else LOW) <<< 6)) % 256 |||
        ((if c7 then HIGH else LOW) <<< 7)) % 256 =
        (if c0 then 1 else 0) + 2 * (if c1 then 1 else 0) + 4 * (if c2 then 1 else 0) +
          8 * (if c3 then 1 else 0) + 16 * (if c4 then 1 else 0) + 32 * (if c5 then 1 else 0) +
          64 * (if c6 then 1 else 0) + 128 * (if c7 then 1 else 0) ∧
      (List.range 8).map (fun i =>
        (((if c0 then 1 else 0) + 2 * (if c1 then 1 else 0) + 4 * (if c2 then 1 else 0) +
          8 * (if c3 then 1 else 0) + 16 * (if c4 then 1 else 0) + 32 * (if c5 then 1 else 0) +
          64 * (if c6 then 1 else 0) + 128 * (if c7 then 1 else 0)) >>> i) &&& 1) =
        [if c0 then 1 else 0, if c1 then 1 else 0, if c2 then 1 else 0, if c3 then 1 else 0,
         if c4 then 1 else 0, if c5 then 1 else 0, if c6 then 1 else 0, if c7 then 1 else 0] := by
  decide

/-- C17: `__prism_recv_byte` writes the entry-flag line to the flag, the clock line HIGH,
waits 2 µs, writes the clock line LOW, waits 2 µs, writes the entry-flag line LOW if the
flag is set, and only then reads the data lines pin1low, pin2low, pin3low, pin4low,
pin7high, pin8high, pin9high, pin10high in this order; every level read is 0 or 1 and the
byte returned has the i-th level read as its bit i. -/
theorem recv_byte_events (env : Env) (d : prdev_t) (new_entry : Bool) (w : World) :
    ∃ r0 r1 r2 r3 r4 r5 r6 r7 : Nat,
      (r0 ≤ 1 ∧ r1 ≤ 1 ∧ r2 ≤ 1 ∧ r3 ≤ 1 ∧ r4 ≤ 1 ∧ r5 ≤ 1 ∧ r6 ≤ 1 ∧ r7 ≤ 1) ∧
      (__prism_recv_byte env d new_entry w).2.trace =
        w.trace ++
          ([Event.digitalWrite d.config.pin6Next (if new_entry then HIGH else LOW),
            Event.digitalWrite d.config.pin5Time HIGH,
            Event.delayMicroseconds 2,
            Event.digitalWrite d.config.pin5Time LOW,
            Event.delayMicroseconds 2] ++
          (if new_entry then [Event.digitalWrite d.config.pin6Next LOW] else []) ++
          [Event.digitalRead d.config.pin1low r0, Event.digitalRead d.config.pin2low r1,
           Event.digitalRead d.config.pin3low r2, Event.digitalRead d.config.pin4low r3,
           Event.digitalRead d.config.pin7high r4, Event.digitalRead d.config.pin8high r5,
           Event.digitalRead d.config.pin9high r6, Event.digitalRead d.config.pin10high r7]) ∧
      (__prism_recv_byte env d new_entry w).1 =
        r0 + 2 * r1 + 4 * r2 + 8 * r3 + 16 * r4 + 32 * r5 + 64 * r6 + 128 * r7 ∧
      (List.range 8).map (fun i => ((__prism_recv_byte env d new_entry w).1 >>> i) &&& 1) =
        [r0, r1, r2, r3, r4, r5, r6, r7] := by
  have hle : ∀ c : Bool, (if c then 1 else 0 : Nat) ≤ 1 := by decide
  cases new_entry
  · simp only [__prism_recv_byte, digitalRead, digitalWrite, delayMicroseconds, emit,
      Bool.false_eq_true, if_false, List.append_assoc, List.singleton_append, List.cons_append,
      List.nil_append, List.append_nil]
    refine ⟨_, _, _, _, _, _, _, _, ⟨hle _, hle _, hle _, hle _, hle _, hle _, hle _, hle _⟩,
      rfl, (assemble_bits _ _ _ _ _ _ _ _).1, ?_⟩
    rw [(assemble_bits _ _ _ _ _ _ _ _).1]
    exact (assemble_bits _ _ _ _ _ _ _ _).2
  · simp only [__prism_recv_byte, digitalRead, digitalWrite, delayMicroseconds, emit,
      if_true, List.append_assoc, List.singleton_append, List.cons_append,
      List.nil_append, List.append_nil]
    refine ⟨_, _, _, _, _, _, _, _, ⟨hle _, hle _, hle _, hle _, hle _, hle _, hle _, hle _⟩,
      rfl, (assemble_bits _ _ _ _ _ _ _ _).1, ?_⟩
    rw [(assemble_bits _ _ _ _ _ _ _ _).1]
    exact (assemble_bits _ _ _ _ _ _ _ _).2

/-! ## Typed operation wrappers -/

/-- C18: each of the twenty typed operation wrappers of `src/inc/prism/prism.h` answers
`PR_ERR_INVALID_ARGUMENT` and leaves the world untouched when the device is null or the
lane count is 0 or above 8, and otherwise returns exactly what the channel call it
delegates to returns. -/
theorem typed_wrapper_validation (c : TypedWrapper) (hc : c ∈ typedWrappers) (env : Env)
    (dev : Option prdev_t) (type len num timeout : Nat) (w : World) :
    (dev = none ∨ len = 0 ∨ len > 8 →
      c.run env dev type len num timeout w = (PR_ERR_INVALID_ARGUMENT, w)) ∧
    (dev ≠ none → 1 ≤ len → len ≤ 8 →
      c.run env dev type len num timeout w = c.delegate env dev type len num timeout w) := by
  simp only [typedWrappers, List.mem_cons, List.mem_singleton, List.not_mem_nil, or_false] at hc
  have hbad : len = 0 ∨ len > 8 → (len < 1 ∨ len > 8) := by omega
  have hgood : 1 ≤ len → len ≤ 8 → ¬ (len < 1 ∨ len > 8) := by omega
  rcases hc with rfl | rfl | rfl | rfl | rfl | rfl | rfl | rfl | rfl | rfl | rfl | rfl | rfl |
    rfl | rfl | rfl | rfl | rfl | rfl | rfl
  all_goals
    simp only [_v256_addN_ui32, _v256_subN_ui32, _v256_mulN_ui32, _v256_divN_ui32,
      _v256_andN_ui32, _v256_nandN_ui32, _v256_orN_ui32, _v256_xorN_ui32, _v256_norN_ui32,
      _v256_notN_ui32, _v256_notc_x, _v256_cpm_epN_px, _v256_cpm_nepN_px, _v256_cpm_gt_px,
      _v256_cpm_geN_px, _v256_cpm_ltN_px, _v256_cpm_leN_px, _v256_cpm_cplN_px,
      _v256_cpm_shlN_pa, _v256_cpm_shrN_pa]
    constructor
    · intro h
      by_cases hd : dev = none
      · rw [if_pos hd]
      · rw [if_neg hd, if_pos (hbad (h.resolve_left hd))]
    · intro hd h1 h8
      rw [if_neg hd, if_neg (hgood h1 h8)]

/-- C18 for `_v256_addN_ui32` with 8 lanes on an acknowledging device. -/
theorem typed_wrapper_validation_witness :
    (⟨fun env dev type len _ t w => _v256_addN_ui32 env dev type len t w,
      fun env dev type len _ t w =>
        _prism_arch_send_opcode_arg1 env dev PRISM_OPCODE_ADD_N type (len % 8) t w⟩ :
      TypedWrapper) ∈ typedWrappers ∧
    ((some sampleDevice = none ∨ 8 = 0 ∨ 8 > 8 →
      _v256_addN_ui32 ackEnv (some sampleDevice) PRISM_OPCODE_TYPE_UI32 8 1000 World.start =
        (PR_ERR_INVALID_ARGUMENT, World.start)) ∧
    (some sampleDevice ≠ none → 1 ≤ 8 → 8 ≤ 8 →
      _v256_addN_ui32 ackEnv (some sampleDevice) PRISM_OPCODE_TYPE_UI32 8 1000 World.start =
        _prism_arch_send_opcode_arg1 ackEnv (some sampleDevice) PRISM_OPCODE_ADD_N
          PRISM_OPCODE_TYPE_UI32 (8 % 8) 1000 World.start)) :=
  ⟨List.mem_cons_self _ _,
    typed_wrapper_validation _ (List.mem_cons_self _ _) ackEnv (some sampleDevice)
      PRISM_OPCODE_TYPE_UI32 8 0 1000 World.start⟩

/-- C19, as stated, fails for 8 lanes: `_v256_addN_ui32` with `vector_len` = 8 writes the
packet whose argument byte (the third byte) is 0, not the packet with argument 8. -/
theorem arith_wrapper_arg_fails_at_8 :
    packets (_v256_addN_ui32 ackEnv (some sampleDevice) PRISM_OPCODE_TYPE_UI32 8 1000
        World.start).2.trace =
      [[0x21, 0x00, 0x00, 0xD0, 0xE8, 0x03, 0x00, 0x00]] ∧
    prism_send_data_bytes ackEnv 0x21 8 PRISM_OPCODE_TYPE_UI32 1000 =
      [0x21, 0x00, 0x08, 0xD0, 0xE8, 0x03, 0x00, 0x00] ∧
    packets (_v256_addN_ui32 ackEnv (some sampleDevice) PRISM_OPCODE_TYPE_UI32 8 1000
        World.start).2.trace ≠
      [prism_send_data_bytes ackEnv 0x21 8 PRISM_OPCODE_TYPE_UI32 1000] := by
  decide

/-- C19, amended: in `src/inc/prism/prism.h`, for every lane count n in 1..8 each of the ten
arithmetic and logic wrappers sends the fixed opcode of its kind (0x21 .. 0x2A) with the
caller's type tag and with n modulo 8 as the argument byte: n itself for 1..7, and 0 for
8 lanes. -/
theorem arith_wrapper_packet
    (k : (Env → Option prdev_t → Nat → Nat → Nat → World → prism_err × World) × Nat)
    (hk : k ∈ arithWrappers) (env : Env) (d : prdev_t) (type n timeout : Nat) (w : World)
    (h1 : 1 ≤ n) (h8 : n ≤ 8) :
    k.1 env (some d) type n timeout w =
      _prism_arch_send_opcode_arg1 env (some d) k.2 type (n % 8) timeout w ∧
    packets (k.1 env (some d) type n timeout w).2.trace =
      packets w.trace ++ [prism_send_data_bytes env k.2 (n % 8) type timeout] ∧
    (n ≤ 7 → n % 8 = n) ∧ (n = 8 → n % 8 = 0) := by
  have hgood : ¬ (n < 1 ∨ n > 8) := by omega
  have hrun : k.1 env (some d) type n timeout w =
      _prism_arch_send_opcode_arg1 env (some d) k.2 type (n % 8) timeout w := by
    simp only [arithWrappers, List.mem_cons, List.mem_singleton, List.not_mem_nil, or_false] at hk
    rcases hk with rfl | rfl | rfl | rfl | rfl | rfl | rfl | rfl | rfl | rfl
    all_goals
      simp only [_v256_addN_ui32, _v256_subN_ui32, _v256_mulN_ui32, _v256_divN_ui32,
        _v256_andN_ui32, _v256_nandN_ui32, _v256_orN_ui32, _v256_xorN_ui32, _v256_norN_ui32,
        _v256_notN_ui32, if_neg hgood, reduceCtorEq, if_false]
      rfl
  refine ⟨hrun, ?_, fun h => by omega, fun h => by omega⟩
  rw [hrun, send_opcode_arg1_packets]

/-- C19, amended, for `_v256_addN_ui32` with 8 lanes on an acknowledging device. -/
theorem arith_wrapper_packet_witness :
    ((_v256_addN_ui32, 0x21) ∈ arithWrappers ∧ 1 ≤ 8 ∧ 8 ≤ 8) ∧
    (_v256_addN_ui32 ackEnv (some sampleDevice) PRISM_OPCODE_TYPE_UI32 8 1000 World.start =
      _prism_arch_send_opcode_arg1 ackEnv (some sampleDevice) 0x21 PRISM_OPCODE_TYPE_UI32 (8 % 8)
        1000 World.start ∧
    packets (_v256_addN_ui32 ackEnv (some sampleDevice) PRISM_OPCODE_TYPE_UI32 8 1000
        World.start).2.trace =
      packets World.start.trace ++
        [prism_send_data_bytes ackEnv 0x21 (8 % 8) PRISM_OPCODE_TYPE_UI32 1000] ∧
    (8 ≤ 7 → 8 % 8 = 8) ∧ (8 = 8 → 8 % 8 = 0)) :=
  ⟨⟨List.mem_cons_self _ _, by decide, by decide⟩,
    arith_wrapper_packet (_v256_addN_ui32, 0x21) (List.mem_cons_self _ _) ackEnv sampleDevice
      PRISM_OPCODE_TYPE_UI32 8 1000 World.start (by decide) (by decide)⟩

/-- C20: in `src/include/prism/prism.h`, for every lane count n in 1..8 each of the ten
arithmetic and logic wrappers calls `_prism_arch_send_opcode` with the opcode
base + (n mod 8) of its kind (ADD 0x01, SUB 0x08, MUL 0x10, DIV 0x18, AND 0x20, NAND 0x28,
OR 0x30, XOR 0x38, NOR 0x40, NOT 0x48), the caller's type tag and the caller's timeout. -/
theorem offset_wrapper_opcode {δ σ : Type}
    (send : Option δ → Nat → Nat → Nat → σ → prism_err × σ) (d : δ) (type n timeout : Nat)
    (s : σ) (h1 : 1 ≤ n) (h8 : n ≤ 8) :
    Offset._v256_addN_ui32 send (some d) type n timeout s =
      send (some d) (0x01 + n % 8) type timeout s ∧
    Offset._v256_subN_ui32 send (some d) type n timeout s =
      send (some d) (0x08 + n % 8) type timeout s ∧
    Offset._v256_mulN_ui32 send (some d) type n timeout s =
      send (some d) (0x10 + n % 8) type timeout s ∧
    Offset._v256_divN_ui32 send (some d) type n timeout s =
      send (some d) (0x18 + n % 8) type timeout s ∧
    Offset._v256_andN_ui32 send (some d) type n timeout s =
      send (some d) (0x20 + n % 8) type timeout s ∧
    Offset._v256_nandN_ui32 send (some d) type n timeout s =
      send (some d) (0x28 + n % 8) type timeout s ∧
    Offset._v256_orN_ui32 send (some d) type n timeout s =
      send (some d) (0x30 + n % 8) type timeout s ∧
    Offset._v256_xorN_ui32 send (some d) type n timeout s =
      send (some d) (0x38 + n % 8) type timeout s ∧
    Offset._v256_norN_ui32 send (some d) type n timeout s =
      send (some d) (0x40 + n % 8) type timeout s ∧
    Offset._v256_notN_ui32 send (some d) type n timeout s =
      send (some d) (0x48 + n % 8) type timeout s := by
  have hgood : ¬ (n < 1 ∨ n > 8) := by omega
  refine ⟨?_, ?_, ?_, ?_, ?_, ?_, ?_, ?_, ?_, ?_⟩ <;>
    simp only [Offset._v256_addN_ui32, Offset._v256_subN_ui32, Offset._v256_mulN_ui32,
      Offset._v256_divN_ui32, Offset._v256_andN_ui32, Offset._v256_nandN_ui32,
      Offset._v256_orN_ui32, Offset._v256_xorN_ui32, Offset._v256_norN_ui32,
      Offset._v256_notN_ui32, Option.isNone_some, Bool.false_eq_true, if_false, if_neg hgood] <;>
    rfl

/-- C20 for 7 lanes of `ui32` on a channel that records its calls. -/
theorem offset_wrapper_opcode_witness :
    (1 ≤ 7 ∧ 7 ≤ 8) ∧
    (Offset._v256_addN_ui32 Offset.recordingChannel (some ()) PRISM_OPCODE_TYPE_UI32 7 1000 [] =
      Offset.recordingChannel (some ()) (0x01 + 7 % 8) PRISM_OPCODE_TYPE_UI32 1000 [] ∧
    Offset._v256_subN_ui32 Offset.recordingChannel (some ()) PRISM_OPCODE_TYPE_UI32 7 1000 [] =
      Offset.recordingChannel (some ()) (0x08 + 7 % 8) PRISM_OPCODE_TYPE_UI32 1000 [] ∧
    Offset._v256_mulN_ui32 Offset.recordingChannel (some ()) PRISM_OPCODE_TYPE_UI32 7 1000 [] =
      Offset.recordingChannel (some ()) (0x10 + 7 % 8) PRISM_OPCODE_TYPE_UI32 1000 [] ∧
    Offset._v256_divN_ui32 Offset.recordingChannel (some ()) PRISM_OPCODE_TYPE_UI32 7 1000 [] =
      Offset.recordingChannel (some ()) (0x18 + 7 % 8) PRISM_OPCODE_TYPE_UI32 1000 [] ∧
    Offset._v256_andN_ui32 Offset.recordingChannel (some ()) PRISM_OPCODE_TYPE_UI32 7 1000 [] =
      Offset.recordingChannel (some ()) (0x20 + 7 % 8) PRISM_OPCODE_TYPE_UI32 1000 [] ∧
    Offset._v256_nandN_ui32 Offset.recordingChannel (some ()) PRISM_OPCODE_TYPE_UI32 7 1000 [] =
      Offset.recordingChannel (some ()) (0x28 + 7 % 8) PRISM_OPCODE_TYPE_UI32 1000 [] ∧
    Offset._v256_orN_ui32 Offset.recordingChannel (some ()) PRISM_OPCODE_TYPE_UI32 7 1000 [] =
      Offset.recordingChannel (some ()) (0x30 + 7 % 8) PRISM_OPCODE_TYPE_UI32 1000 [] ∧
    Offset._v256_xorN_ui32 Offset.recordingChannel (some ()) PRISM_OPCODE_TYPE_UI32 7 1000 [] =
      Offset.recordingChannel (some ()) (0x38 + 7 % 8) PRISM_OPCODE_TYPE_UI32 1000 [] ∧
    Offset._v256_norN_ui32 Offset.recordingChannel (some ()) PRISM_OPCODE_TYPE_UI32 7 1000 [] =
      Offset.recordingChannel (some ()) (0x40 + 7 % 8) PRISM_OPCODE_TYPE_UI32 1000 [] ∧
    Offset._v256_notN_ui32 Offset.recordingChannel (some ()) PRISM_OPCODE_TYPE_UI32 7 1000 [] =
      Offset.recordingChannel (some ()) (0x48 + 7 % 8) PRISM_OPCODE_TYPE_UI32 1000 []) :=
  ⟨by decide, offset_wrapper_opcode Offset.recordingChannel () PRISM_OPCODE_TYPE_UI32 7 1000 []
    (by decide) (by decide)⟩

/-- The calls the offset revision records for an addition over 8 lanes and a subtraction
over 1 lane. -/
theorem offset_wrapper_samples :
    (Offset._v256_addN_ui32 Offset.recordingChannel (some ()) PRISM_OPCODE_TYPE_UI32 8 1000 []).2 =
      [(0x01, 0xD0, 1000)] ∧
    (Offset._v256_subN_ui32 Offset.recordingChannel (some ()) PRISM_OPCODE_TYPE_SI32 1 1000 []).2 =
      [(0x09, 0xD1, 1000)] := by
  decide

/-! ## Round trip through the loopback device -/

/-- With ten different pins every pin is recognised as its own line. -/
theorem lineOf_pins (cfg : prism_dev_config_t) (h : (allPins cfg).Nodup) :
    lineOf cfg cfg.pin5Time = some Line.clock ∧ lineOf cfg cfg.pin6Next = some Line.flag ∧
    lineOf cfg cfg.pin1low = some (Line.data 0) ∧ lineOf cfg cfg.pin2low = some (Line.data 1) ∧
    lineOf cfg cfg.pin3low = some (Line.data 2) ∧ lineOf cfg cfg.pin4low = some (Line.data 3) ∧
    lineOf cfg cfg.pin7high = some (Line.data 4) ∧ lineOf cfg cfg.pin8high = some (Line.data 5) ∧
    lineOf cfg cfg.pin9high = some (Line.data 6) ∧ lineOf cfg cfg.pin10high = some (Line.data 7) := by
  simp only [allPins, List.nodup_cons, List.mem_cons, List.mem_singleton, not_or,
    List.not_mem_nil, not_false_eq_true, List.nodup_nil, and_true] at h
  obtain ⟨⟨a1, a2, a3, a4, a5, a6, a7, a8, a9⟩, ⟨b2, b3, b4, b5, b6, b7, b8, b9⟩,
    ⟨c3, c4, c5, c6, c7, c8, c9⟩, ⟨d4, d5, d6, d7, d8, d9⟩, ⟨e5, e6, e7, e8, e9⟩,
    ⟨f6, f7, f8, f9⟩, ⟨g7, g8, g9⟩, ⟨h8, h9⟩, i9⟩ := h
  unfold lineOf
  refine ⟨?_, ?_, ?_, ?_, ?_, ?_, ?_, ?_, ?_, ?_⟩
  · simp
  · simp [Ne.symm a1]
  · simp [Ne.symm a2, Ne.symm b2]
  · simp [Ne.symm a3, Ne.symm b3, Ne.symm c3]
  · simp [Ne.symm a4, Ne.symm b4, Ne.symm c4, Ne.symm d4]
  · simp [Ne.symm a5, Ne.symm b5, Ne.symm c5, Ne.symm d5, Ne.symm e5]
  · simp [Ne.symm a6, Ne.symm b6, Ne.symm c6, Ne.symm d6, Ne.symm e6, Ne.symm f6]
  · simp [Ne.symm a7, Ne.symm b7, Ne.symm c7, Ne.symm d7, Ne.symm e7, Ne.symm f7, Ne.symm g7]
  · simp [Ne.symm a8, Ne.symm b8, Ne.symm c8, Ne.symm d8, Ne.symm e8, Ne.symm f8, Ne.symm g8,
      Ne.symm h8]
  · simp [Ne.symm a9, Ne.symm b9, Ne.symm c9, Ne.symm d9, Ne.symm e9, Ne.symm f9, Ne.symm g9,
      Ne.symm h9, Ne.symm i9]

/-- The loopback device after two traces in a row. -/
theorem Loopback.after_append (cfg : prism_dev_config_t) (a b : List Event) :
    Loopback.after cfg (a ++ b) = b.foldl (Loopback.step cfg) (Loopback.after cfg a) := by
  simp [Loopback.after, List.foldl_append]

set_option maxRecDepth 100000 in
/-- The byte read back from eight lines carrying the bits of a byte. -/
theorem sampleLines_bits : ∀ b < 256,
    (if b &&& 1 ≠ 0 then 1 else 0) + (if (b >>> 1) &&& 1 ≠ 0 then 2 else 0) +
    (if (b >>> 2) &&& 1 ≠ 0 then 4 else 0) + (if (b >>> 3) &&& 1 ≠ 0 then 8 else 0) +
    (if (b >>> 4) &&& 1 ≠ 0 then 16 else 0) + (if (b >>> 5) &&& 1 ≠ 0 then 32 else 0) +
    (if (b >>> 6) &&& 1 ≠ 0 then 64 else 0) + (if (b >>> 7) &&& 1 ≠ 0 then 128 else 0) = b := by
  decide

set_option maxRecDepth 100000 in
/-- The byte spelled by the eight low bits of a byte. -/
theorem testBit_bits : ∀ p < 256,
    (if p.testBit 0 then 1 else 0) + 2 * (if p.testBit 1 then 1 else 0) +
    4 * (if p.testBit 2 then 1 else 0) + 8 * (if p.testBit 3 then 1 else 0) +
    16 * (if p.testBit 4 then 1 else 0) + 32 * (if p.testBit 5 then 1 else 0) +
    64 * (if p.testBit 6 then 1 else 0) + 128 * (if p.testBit 7 then 1 else 0) = p := by
  decide

/-- During a store the loopback device appends the byte of each byte transfer to bank A. -/
theorem loopback_store_byte (d : prdev_t) (hp : (allPins d.config).Nodup) (tr : List Event)
    (byte : Nat) (new_entry : Bool) (hmode : (Loopback.after d.config tr).mode = 1) :
    (Loopback.after d.config (tr ++ byteTransfer d byte new_entry)).mode = 1 ∧
    (Loopback.after d.config (tr ++ byteTransfer d byte new_entry)).bankA =
      (Loopback.after d.config tr).bankA ++ [byte % 256] := by
  obtain ⟨k5, k6, k1, k2, k3, k4, k7, k8, k9, k10⟩ := lineOf_pins d.config hp
  rw [Loopback.after_append, byteTransfer_eq]
  generalize Loopback.after d.config tr = s at hmode ⊢
  have hbits := sampleLines_bits (byte % 256) (Nat.mod_lt _ (by norm_num))
  cases new_entry <;>
    simpa [List.foldl, Loopback.step, k5, k6, k1, k2, k3, k4, k7, k8, k9, k10, hmode, HIGH, LOW,
      sampleLines, Function.update] using hbits

/-- During a store the loopback device appends the four bytes of each word transfer. -/
theorem loopback_store_word (d : prdev_t) (hp : (allPins d.config).Nodup) (tr : List Event)
    (x : Nat) (hmode : (Loopback.after d.config tr).mode = 1) :
    (Loopback.after d.config (tr ++ wordTransfer d x)).mode = 1 ∧
    (Loopback.after d.config (tr ++ wordTransfer d x)).bankA =
      (Loopback.after d.config tr).bankA ++ wordBytes (x % 2 ^ 32) := by
  rw [wordTransfer_eq]
  simp only [← List.append_assoc]
  have h1 := loopback_store_byte d hp tr ((x % 2 ^ 32) &&& 0xFF) true hmode
  have h2 := loopback_store_byte d hp _ (((x % 2 ^ 32) >>> 8) &&& 0xFF) false h1.1
  have h3 := loopback_store_byte d hp _ (((x % 2 ^ 32) >>> 16) &&& 0xFF) false h2.1
  have h4 := loopback_store_byte d hp _ (((x % 2 ^ 32) >>> 24) &&& 0xFF) false h3.1
  refine ⟨h4.1, ?_⟩
  rw [h4.2, h3.2, h2.2, h1.2]
  simp [wordBytes, and_255]

/-- During a store the loopback device appends the bytes of all the lanes sent. -/
theorem loopback_store_lanes (d : prdev_t) (hp : (allPins d.config).Nodup) (lanes : List Nat) :
    ∀ tr, (Loopback.after d.config tr).mode = 1 →
      (Loopback.after d.config (tr ++ (lanes.map (wordTransfer d)).flatten)).mode = 1 ∧
      (Loopback.after d.config (tr ++ (lanes.map (wordTransfer d)).flatten)).bankA =
        (Loopback.after d.config tr).bankA ++
          (lanes.map (fun x => wordBytes (x % 2 ^ 32))).flatten := by
  induction lanes with
  | nil => intro tr h; simpa using h
  | cons x lanes ih =>
    intro tr h
    have hw := loopback_store_word d hp tr x h
    have := ih (tr ++ wordTransfer d x) hw.1
    simp only [List.map_cons, List.flatten_cons, ← List.append_assoc]
    refine ⟨this.1, ?_⟩
    rw [this.2, hw.2, List.append_assoc]

/-- The loopback device looks at the packet of a command and at nothing else of it. -/
theorem loopback_command (cfg : prism_dev_config_t) (tr : List Event) (a a' q n st : Nat)
    (data r : List Nat) :
    Loopback.after cfg (tr ++ [Event.beginTransmission a, Event.wireWrite data,
      Event.endTransmission st, Event.delay n, Event.requestFrom a' q r]) =
      Loopback.step cfg (Loopback.after cfg tr) (Event.wireWrite data) := by
  simp [Loopback.after_append, List.foldl, Loopback.step]

/-- On the loopback platform the first two bytes of a packet spell the opcode. -/
theorem loopback_packet_op (cfg : prism_dev_config_t) (op arg type timeout : Nat) :
    (prism_send_data_bytes (loopbackEnv cfg) op arg type timeout).getD 0 0 +
      256 * (prism_send_data_bytes (loopbackEnv cfg) op arg type timeout).getD 1 0 =
        op % 65536 := by
  rw [prism_send_data_bytes_eq]
  simp [scalarBytes, loopbackEnv, List.range_succ]
  omega

/-- How the loopback device reacts to the packet of a command. -/
theorem loopback_step_packet (cfg : prism_dev_config_t) (s : Loopback)
    (op arg type timeout : Nat) :
    Loopback.step cfg s
        (Event.wireWrite (prism_send_data_bytes (loopbackEnv cfg) op arg type timeout)) =
      if op % 65536 = PRISM_OPCODE_STORE_A then { s with mode := 1, bankA := [] }
      else if op % 65536 = PRISM_OPCODE_LOAD_A then { s with mode := 2, cursor := 0 }
      else { s with mode := 0 } := by
  simp only [Loopback.step, loopback_packet_op]

/-- The loopback device acknowledges every command. -/
theorem loopback_ack (cfg : prism_dev_config_t) (d : prdev_t) (op type arg timeout : Nat)
    (w : World) :
    (_prism_arch_send_opcode_arg1 (loopbackEnv cfg) (some d) op type arg timeout w).1 = PR_OK ∧
    (_prism_arch_send_opcode_arg1 (loopbackEnv cfg) (some d) op type arg timeout w).2.trace =
      w.trace ++ [Event.beginTransmission d.address,
        Event.wireWrite (prism_send_data_bytes (loopbackEnv cfg) op arg type timeout),
        Event.endTransmission 0, Event.delay 50, Event.requestFrom d.address 1 [0x01]] := by
  have hs : writeStatus (loopbackEnv cfg) d op type arg timeout w = 0 := by
    simp [writeStatus, Wire_endTransmission, loopbackEnv]
  have hr : responseBytes (loopbackEnv cfg) d op type arg timeout w = [0x01] := by
    simp [responseBytes, requestServed, Wire_requestFrom, loopbackEnv]
  have hok : (_prism_arch_send_opcode_arg1 (loopbackEnv cfg) (some d) op type arg timeout w).1 =
      PR_OK := by
    rw [send_opcode_arg1_some_result, hs, hr]
    simp
  exact ⟨hok, send_opcode_arg1_ack_trace _ d op type arg timeout w hok⟩

/-- During a load a byte reception returns the next byte of bank A and moves the cursor
of the loopback device one further. -/
theorem loopback_recv_byte (d : prdev_t) (hp : (allPins d.config).Nodup) (w : World)
    (new_entry : Bool) (bank : List Nat) (k : Nat)
    (hmode : (Loopback.after d.config w.trace).mode = 2)
    (hbank : (Loopback.after d.config w.trace).bankA = bank)
    (hcur : (Loopback.after d.config w.trace).cursor = k)
    (hlt : bank.getD k 0 < 256) :
    (__prism_recv_byte (loopbackEnv d.config) d new_entry w).1 = bank.getD k 0 ∧
    (Loopback.after d.config
      (__prism_recv_byte (loopbackEnv d.config) d new_entry w).2.trace).mode = 2 ∧
    (Loopback.after d.config
      (__prism_recv_byte (loopbackEnv d.config) d new_entry w).2.trace).bankA = bank ∧
    (Loopback.after d.config
      (__prism_recv_byte (loopbackEnv d.config) d new_entry w).2.trace).cursor = k + 1 := by
  obtain ⟨k5, k6, k1, k2, k3, k4, k7, k8, k9, k10⟩ := lineOf_pins d.config hp
  have hbits := testBit_bits (bank.getD k 0) hlt
  cases new_entry
  · simp only [__prism_recv_byte, digitalRead, digitalWrite, delayMicroseconds, emit,
      Bool.false_eq_true, if_false, List.append_assoc, List.singleton_append, List.cons_append,
      List.nil_append, List.append_nil]
    rw [(assemble_bits _ _ _ _ _ _ _ _).1]
    simpa [loopbackEnv, k5, k6, k1, k2, k3, k4, k7, k8, k9, k10, Loopback.after_append,
      List.foldl, Loopback.step, hmode, hbank, hcur, HIGH, LOW] using hbits
  · simp only [__prism_recv_byte, digitalRead, digitalWrite, delayMicroseconds, emit,
      if_true, List.append_assoc, List.singleton_append, List.cons_append,
      List.nil_append, List.append_nil]
    rw [(assemble_bits _ _ _ _ _ _ _ _).1]
    simpa [loopbackEnv, k5, k6, k1, k2, k3, k4, k7, k8, k9, k10, Loopback.after_append,
      List.foldl, Loopback.step, hmode, hbank, hcur, HIGH, LOW] using hbits

/-- During a load a word reception returns the next four bytes of bank A as one word and
moves the cursor of the loopback device four further. -/
theorem loopback_recv_word (d : prdev_t) (hp : (allPins d.config).Nodup) (w : World)
    (bank : List Nat) (k : Nat) (hb : ∀ j, bank.getD j 0 < 256)
    (hmode : (Loopback.after d.config w.trace).mode = 2)
    (hbank : (Loopback.after d.config w.trace).bankA = bank)
    (hcur : (Loopback.after d.config w.trace).cursor = k) :
    (__prism_recv_uint32 (loopbackEnv d.config) d w).1 = wordAt bank k ∧
    (Loopback.after d.config (__prism_recv_uint32 (loopbackEnv d.config) d w).2.trace).mode = 2 ∧
    (Loopback.after d.config (__prism_recv_uint32 (loopbackEnv d.config) d w).2.trace).bankA =
      bank ∧
    (Loopback.after d.config (__prism_recv_uint32 (loopbackEnv d.config) d w).2.trace).cursor =
      k + 4 := by
  have e1 := loopback_recv_byte d hp w true bank k hmode hbank hcur (hb _)
  have e2 := loopback_recv_byte d hp _ false bank (k + 1) e1.2.1 e1.2.2.1 e1.2.2.2 (hb _)
  have e3 := loopback_recv_byte d hp _ false bank (k + 1 + 1) e2.2.1 e2.2.2.1 e2.2.2.2 (hb _)
  have e4 := loopback_recv_byte d hp _ false bank (k + 1 + 1 + 1) e3.2.1 e3.2.2.1 e3.2.2.2
    (hb _)
  obtain ⟨b0, b1, b2, b3, w', hrb, _, _, _, _, heq⟩ := recv_uint32_eq (loopbackEnv d.config) d w
  simp only [recvBytes, Prod.mk.injEq, List.cons.injEq, and_true] at hrb
  obtain ⟨⟨h0, h1, h2, h3⟩, hw⟩ := hrb
  rw [heq, ← h0, ← h1, ← h2, ← h3, ← hw]
  refine ⟨?_, e4.2.1, e4.2.2.1, ?_⟩
  · simp only [wordAt]
    rw [e1.1, e2.1, e3.1, e4.1]
  · rw [e4.2.2.2]

/-- During a load successive word receptions return the words of bank A in order. -/
theorem loopback_recv_words (d : prdev_t) (hp : (allPins d.config).Nodup) (bank : List Nat)
    (hb : ∀ j, bank.getD j 0 < 256) (n : Nat) :
    ∀ (w : World) (k : Nat), (Loopback.after d.config w.trace).mode = 2 →
      (Loopback.after d.config w.trace).bankA = bank →
      (Loopback.after d.config w.trace).cursor = k →
      (recvWords (loopbackEnv d.config) d n w).1 =
        (List.range n).map (fun j => wordAt bank (k + 4 * j)) := by
  induction n with
  | zero => intro w k _ _ _; simp [recvWords]
  | succ n ih =>
    intro w k hmode hbank hcur
    have hw := loopback_recv_word d hp w bank k hb hmode hbank hcur
    have hrest := ih _ (k + 4) hw.2.1 hw.2.2.1 hw.2.2.2
    simp only [recvWords]
    rw [hrest, hw.1, List.range_succ_eq_map, List.map_cons, List.map_map]
    refine congrArg₂ _ rfl (List.map_congr_left ?_)
    intro j _
    simp only [Function.comp, Nat.succ_eq_add_one]
    congr 1
    omega

/-- An acknowledged store runs to its end. -/
theorem send_bank_x_ok (env : Env) (d : prdev_t) (vec : _v256i) (bank timeout : Nat) (w : World)
    (hop : (if bank = PRISM_BANK_A then PRISM_OPCODE_STORE_A else PRISM_OPCODE_STORE_B) ≠ 0)
    (hack : (_prism_arch_send_opcode_arg1 env (some d)
      (if bank = PRISM_BANK_A then PRISM_OPCODE_STORE_A else PRISM_OPCODE_STORE_B)
      PRISM_OPCODE_TYPE_UI32 255 timeout w).1 = PR_OK) :
    _prism_send_bank_x env (some d) vec bank timeout w =
      (PR_OK, (_prism_arch_send_opcode_arg1 env (some d) PRISM_OPCODE_END PRISM_OPCODE_TYPE_UI8
        255 timeout (sendLanes d vec (_prism_arch_send_opcode_arg1 env (some d)
          (if bank = PRISM_BANK_A then PRISM_OPCODE_STORE_A else PRISM_OPCODE_STORE_B)
          PRISM_OPCODE_TYPE_UI32 255 timeout w).2)).2) := by
  unfold _prism_send_bank_x
  rw [send_opcode_some env d _ _ _ _ hop (by decide)]
  simp only [hack, ne_eq, not_true_eq_false, if_false]
  rw [send_opcode_some env d _ _ _ _ (by decide) (by decide)]

/-- An acknowledged load of bank A runs to its end. -/
theorem load_bank_a_ok (env : Env) (d : prdev_t) (out : _v256i) (timeout : Nat) (w : World)
    (hack : (_prism_arch_send_opcode_arg1 env (some d) PRISM_OPCODE_LOAD_A PRISM_OPCODE_TYPE_UI8
      255 timeout w).1 = PR_OK) :
    _prism_load_bank_x env (some d) PRISM_BANK_A out timeout w =
      (PR_OK, ⟨fun i => (recvWords env d 8 (_prism_arch_send_opcode_arg1 env (some d)
          PRISM_OPCODE_LOAD_A PRISM_OPCODE_TYPE_UI8 255 timeout w).2).1.getD i.val 0⟩,
        (_prism_arch_send_opcode_arg1 env (some d) PRISM_OPCODE_END PRISM_OPCODE_TYPE_UI32 255
          timeout (recvWords env d 8 (_prism_arch_send_opcode_arg1 env (some d)
            PRISM_OPCODE_LOAD_A PRISM_OPCODE_TYPE_UI8 255 timeout w).2).2).2) := by
  unfold _prism_load_bank_x
  simp only [if_true]
  rw [send_opcode_some env d _ _ _ _ (by decide) (by decide)]
  simp only [hack, ne_eq, not_true_eq_false, if_false]
  rw [recvLanes_eq, send_opcode_some env d _ _ _ _ (by decide) (by decide)]

/-- The bytes of words are bytes. -/
theorem wordBytes_getD_lt (lanes : List Nat) (j : Nat) :
    ((lanes.map (fun x => wordBytes (x % 2 ^ 32))).flatten).getD j 0 < 256 := by
  by_cases hj : j < ((lanes.map (fun x => wordBytes (x % 2 ^ 32))).flatten).length
  · rw [List.getD_eq_getElem _ _ hj]
    have hmem := List.getElem_mem hj
    generalize ((lanes.map (fun x => wordBytes (x % 2 ^ 32))).flatten)[j] = y at hmem ⊢
    simp only [List.mem_flatten, List.mem_map] at hmem
    obtain ⟨l, ⟨x, _, rfl⟩, hy⟩ := hmem
    simp only [wordBytes, and_255, List.mem_cons, List.mem_singleton, List.not_mem_nil,
      or_false] at hy
    rcases hy with rfl | rfl | rfl | rfl <;> exact Nat.mod_lt _ (by norm_num)
  · rw [List.getD_eq_default _ _ (by omega)]
    norm_num

/-- After a store to bank A the loopback device holds the bytes of the eight lanes. -/
theorem loopback_store_state (dev : prdev_t) (hp : (allPins dev.config).Nodup) (vec : _v256i)
    (timeout : Nat) (w : World) :
    (_prism_send_bank_x (loopbackEnv dev.config) (some dev) vec PRISM_BANK_A timeout w).1 =
      PR_OK ∧
    (Loopback.after dev.config (_prism_send_bank_x (loopbackEnv dev.config) (some dev) vec
      PRISM_BANK_A timeout w).2.trace).bankA =
      (((List.finRange 8).map vec.ui).map (fun x => wordBytes (x % 2 ^ 32))).flatten := by
  have hS := loopback_ack dev.config dev PRISM_OPCODE_STORE_A PRISM_OPCODE_TYPE_UI32 255 timeout w
  rw [send_bank_x_ok _ dev vec PRISM_BANK_A timeout w (by decide) hS.1]
  refine ⟨rfl, ?_⟩
  simp only [if_true] at hS ⊢
  have hE := loopback_ack dev.config dev PRISM_OPCODE_END PRISM_OPCODE_TYPE_UI8 255 timeout
    (sendLanes dev vec (_prism_arch_send_opcode_arg1 (loopbackEnv dev.config) (some dev)
      PRISM_OPCODE_STORE_A PRISM_OPCODE_TYPE_UI32 255 timeout w).2)
  rw [hE.2, loopback_command, sendLanes_trace, hS.2]
  have hstart : (Loopback.after dev.config (w.trace ++ [Event.beginTransmission dev.address,
      Event.wireWrite (prism_send_data_bytes (loopbackEnv dev.config) PRISM_OPCODE_STORE_A 255
        PRISM_OPCODE_TYPE_UI32 timeout),
      Event.endTransmission 0, Event.delay 50, Event.requestFrom dev.address 1 [0x01]])).mode = 1 ∧
      (Loopback.after dev.config (w.trace ++ [Event.beginTransmission dev.address,
      Event.wireWrite (prism_send_data_bytes (loopbackEnv dev.config) PRISM_OPCODE_STORE_A 255
        PRISM_OPCODE_TYPE_UI32 timeout),
      Event.endTransmission 0, Event.delay 50, Event.requestFrom dev.address 1 [0x01]])).bankA =
        [] := by
    rw [loopback_command, loopback_step_packet]
    simp [PRISM_OPCODE_STORE_A]
  have hmap : (List.finRange 8).map (fun i => wordTransfer dev (vec.ui i)) =
      ((List.finRange 8).map vec.ui).map (wordTransfer dev) := by
    rw [List.map_map]
    rfl
  rw [hmap]
  have hl := loopback_store_lanes dev hp ((List.finRange 8).map vec.ui) _ hstart.1
  rw [hstart.2, List.nil_append] at hl
  rw [loopback_step_packet, if_neg (by decide), if_neg (by decide)]
  exact hl.2

/-- A load of bank A from the loopback device returns the words its bank A spells. -/
theorem loopback_load_words (dev : prdev_t) (hp : (allPins dev.config).Nodup) (bank : List Nat)
    (hb : ∀ j, bank.getD j 0 < 256) (out : _v256i) (timeout : Nat) (w : World)
    (hbank : (Loopback.after dev.config w.trace).bankA = bank) :
    (_prism_load_bank_x (loopbackEnv dev.config) (some dev) PRISM_BANK_A out timeout w).1 =
      PR_OK ∧
    ∀ lane : Fin 8,
      (_prism_load_bank_x (loopbackEnv dev.config) (some dev) PRISM_BANK_A out timeout w).2.1.ui
        lane = wordAt bank (4 * lane.val) := by
  have hL := loopback_ack dev.config dev PRISM_OPCODE_LOAD_A PRISM_OPCODE_TYPE_UI8 255 timeout w
  rw [load_bank_a_ok _ dev out timeout w hL.1]
  refine ⟨rfl, ?_⟩
  have hstate : (Loopback.after dev.config (_prism_arch_send_opcode_arg1 (loopbackEnv dev.config)
      (some dev) PRISM_OPCODE_LOAD_A PRISM_OPCODE_TYPE_UI8 255 timeout w).2.trace).mode = 2 ∧
      (Loopback.after dev.config (_prism_arch_send_opcode_arg1 (loopbackEnv dev.config)
      (some dev) PRISM_OPCODE_LOAD_A PRISM_OPCODE_TYPE_UI8 255 timeout w).2.trace).bankA = bank ∧
      (Loopback.after dev.config (_prism_arch_send_opcode_arg1 (loopbackEnv dev.config)
      (some dev) PRISM_OPCODE_LOAD_A PRISM_OPCODE_TYPE_UI8 255 timeout w).2.trace).cursor = 0 := by
    rw [hL.2, loopback_command, loopback_step_packet]
    simp [PRISM_OPCODE_STORE_A, PRISM_OPCODE_LOAD_A, hbank]
  have hw := loopback_recv_words dev hp bank hb 8 _ 0 hstate.1 hstate.2.1 hstate.2.2
  intro lane
  simp only
  rw [hw]
  fin_cases lane <;> simp [List.range_succ]

/-- The lanes of `_v256_set8_uiv`, listed. -/
theorem set8_uiv_lanes (a b c d e f g h : Nat) :
    (List.finRange 8).map (_v256_set8_uiv a b c d e f g h).ui =
      [a % 2 ^ 32, b % 2 ^ 32, c % 2 ^ 32, d % 2 ^ 32, e % 2 ^ 32, f % 2 ^ 32, g % 2 ^ 32,
        h % 2 ^ 32] := by
  have h8 : List.finRange 8 = [0, 1, 2, 3, 4, 5, 6, 7] := rfl
  rw [h8]
  simp [_v256_set8_uiv, Function.update]

/-- The word spelled at offset 0 of a list that starts with the bytes of a word. -/
theorem wordAt_wordBytes (x : Nat) (hx : x < 2 ^ 32) (rest : List Nat) :
    wordAt (wordBytes x ++ rest) 0 = x := by
  have := word_bytes_reassemble x hx
  simpa [wordAt, wordBytes] using this

/-- Skipping the four bytes of a word moves a word offset by 4. -/
theorem wordAt_skip (x : Nat) (rest : List Nat) (k : Nat) :
    wordAt (wordBytes x ++ rest) (k + 4) = wordAt rest k := by
  simp [wordAt, wordBytes, List.getD_cons_succ, Nat.add_assoc]

/-- C13: against the loopback device wired to ten different pins, storing
`_v256_set8_uiv(a, ..., h)` to bank A with `_v256_store_bank_v` and then loading bank A
with `_v256_load_bank_x` returns `PR_OK` both times, and the vector loaded has the lanes
a, ..., h in this order, for all 32-bit values a, ..., h. -/
theorem store_load_round_trip (dev : prdev_t) (a b c d e f g h : Nat) (t1 t2 : Nat)
    (out0 : _v256i) (w : World) (hp : (allPins dev.config).Nodup)
    (ha : a < 2 ^ 32) (hb : b < 2 ^ 32) (hc : c < 2 ^ 32) (hd : d < 2 ^ 32)
    (he : e < 2 ^ 32) (hf : f < 2 ^ 32) (hg : g < 2 ^ 32) (hh : h < 2 ^ 32) :
    (_v256_store_bank_v (loopbackEnv dev.config) (some dev) PRISM_BANK_A
      (_v256_set8_uiv a b c d e f g h) t1 w).1 = PR_OK ∧
    (_v256_load_bank_x (loopbackEnv dev.config) (some dev) PRISM_BANK_A out0 t2
      (_v256_store_bank_v (loopbackEnv dev.config) (some dev) PRISM_BANK_A
        (_v256_set8_uiv a b c d e f g h) t1 w).2).1 = PR_OK ∧
    (List.finRange 8).map
      (_v256_load_bank_x (loopbackEnv dev.config) (some dev) PRISM_BANK_A out0 t2
        (_v256_store_bank_v (loopbackEnv dev.config) (some dev) PRISM_BANK_A
          (_v256_set8_uiv a b c d e f g h) t1 w).2).2.1.ui =
      [a, b, c, d, e, f, g, h] := by
  have hstore : ∀ vec, _v256_store_bank_v (loopbackEnv dev.config) (some dev) PRISM_BANK_A vec t1 w =
      _prism_send_bank_x (loopbackEnv dev.config) (some dev) vec PRISM_BANK_A t1 w := by
    intro vec
    simp [_v256_store_bank_v]
  have hload : ∀ w', _v256_load_bank_x (loopbackEnv dev.config) (some dev) PRISM_BANK_A out0 t2 w' =
      _prism_load_bank_x (loopbackEnv dev.config) (some dev) PRISM_BANK_A out0 t2 w' := by
    intro w'
    simp [_v256_load_bank_x, PRISM_BANK_A, PRISM_BANK_MAX]
  rw [hstore, hload]
  obtain ⟨hs1, hs2⟩ := loopback_store_state dev hp (_v256_set8_uiv a b c d e f g h) t1 w
  rw [set8_uiv_lanes] at hs2
  simp only [List.map_cons, List.map_nil, List.flatten_cons, List.flatten_nil, Nat.mod_mod,
    Nat.mod_eq_of_lt ha, Nat.mod_eq_of_lt hb, Nat.mod_eq_of_lt hc, Nat.mod_eq_of_lt hd,
    Nat.mod_eq_of_lt he, Nat.mod_eq_of_lt hf, Nat.mod_eq_of_lt hg, Nat.mod_eq_of_lt hh] at hs2
  have hbytes : ∀ j, (wordBytes a ++ (wordBytes b ++ (wordBytes c ++ (wordBytes d ++
      (wordBytes e ++ (wordBytes f ++ (wordBytes g ++ (wordBytes h ++ [])))))))).getD j 0 <
        256 := by
    intro j
    have := wordBytes_getD_lt [a, b, c, d, e, f, g, h] j
    simpa only [List.map_cons, List.map_nil, List.flatten_cons, List.flatten_nil,
      Nat.mod_eq_of_lt ha, Nat.mod_eq_of_lt hb, Nat.mod_eq_of_lt hc, Nat.mod_eq_of_lt hd,
      Nat.mod_eq_of_lt he, Nat.mod_eq_of_lt hf, Nat.mod_eq_of_lt hg, Nat.mod_eq_of_lt hh]
      using this
  obtain ⟨hl1, hl2⟩ := loopback_load_words dev hp _ hbytes out0 t2 _ hs2
  refine ⟨hs1, hl1, ?_⟩
  have h8 : List.finRange 8 = [0, 1, 2, 3, 4, 5, 6, 7] := rfl
  rw [h8]
  simp only [List.map_cons, List.map_nil, hl2]
  have w0 := wordAt_wordBytes a ha
  have w1 := wordAt_wordBytes b hb
  have w2 := wordAt_wordBytes c hc
  have w3 := wordAt_wordBytes d hd
  have w4 := wordAt_wordBytes e he
  have w5 := wordAt_wordBytes f hf
  have w6 := wordAt_wordBytes g hg
  have w7 := wordAt_wordBytes h hh
  have e0 : 4 * ((0 : Fin 8) : Nat) = 0 := rfl
  have e1 : 4 * ((1 : Fin 8) : Nat) = 0 + 4 := rfl
  have e2 : 4 * ((2 : Fin 8) : Nat) = 0 + 4 + 4 := rfl
  have e3 : 4 * ((3 : Fin 8) : Nat) = 0 + 4 + 4 + 4 := rfl
  have e4 : 4 * ((4 : Fin 8) : Nat) = 0 + 4 + 4 + 4 + 4 := rfl
  have e5 : 4 * ((5 : Fin 8) : Nat) = 0 + 4 + 4 + 4 + 4 + 4 := rfl
  have e6 : 4 * ((6 : Fin 8) : Nat) = 0 + 4 + 4 + 4 + 4 + 4 + 4 := rfl
  have e7 : 4 * ((7 : Fin 8) : Nat) = 0 + 4 + 4 + 4 + 4 + 4 + 4 + 4 := rfl
  rw [e0, e1, e2, e3, e4, e5, e6, e7]
  simp only [wordAt_skip, w0, w1, w2, w3, w4, w5, w6, w7]

/-- C13 for eight sample words on the pins of `sampleDevice`. -/
theorem store_load_round_trip_witness :
    ((allPins sampleDevice.config).Nodup ∧
      (0xDEADBEEF : Nat) < 2 ^ 32 ∧ (0xFFFFFFFF : Nat) < 2 ^ 32 ∧ (0 : Nat) < 2 ^ 32 ∧
      (0x80000000 : Nat) < 2 ^ 32 ∧ (0x12345678 : Nat) < 2 ^ 32 ∧ (0x0A0B0C0D : Nat) < 2 ^ 32 ∧
      (7 : Nat) < 2 ^ 32 ∧ (0x01020304 : Nat) < 2 ^ 32) ∧
    ((_v256_store_bank_v (loopbackEnv sampleDevice.config) (some sampleDevice) PRISM_BANK_A
      (_v256_set8_uiv 0xDEADBEEF 0xFFFFFFFF 0 0x80000000 0x12345678 0x0A0B0C0D 7 0x01020304)
      1000 World.start).1 = PR_OK ∧
    (_v256_load_bank_x (loopbackEnv sampleDevice.config) (some sampleDevice) PRISM_BANK_A
      sampleVector 1000
      (_v256_store_bank_v (loopbackEnv sampleDevice.config) (some sampleDevice) PRISM_BANK_A
        (_v256_set8_uiv 0xDEADBEEF 0xFFFFFFFF 0 0x80000000 0x12345678 0x0A0B0C0D 7 0x01020304)
        1000 World.start).2).1 = PR_OK ∧
    (List.finRange 8).map
      (_v256_load_bank_x (loopbackEnv sampleDevice.config) (some sampleDevice) PRISM_BANK_A
        sampleVector 1000
        (_v256_store_bank_v (loopbackEnv sampleDevice.config) (some sampleDevice) PRISM_BANK_A
          (_v256_set8_uiv 0xDEADBEEF 0xFFFFFFFF 0 0x80000000 0x12345678 0x0A0B0C0D 7 0x01020304)
          1000 World.start).2).2.1.ui =
      [0xDEADBEEF, 0xFFFFFFFF, 0, 0x80000000, 0x12345678, 0x0A0B0C0D, 7, 0x01020304]) :=
  ⟨⟨by decide, by decide, by decide, by decide, by decide, by decide, by decide, by decide,
      by decide⟩,
    store_load_round_trip sampleDevice 0xDEADBEEF 0xFFFFFFFF 0 0x80000000 0x12345678 0x0A0B0C0D 7
      0x01020304 1000 1000 sampleVector World.start (by decide) (by decide) (by decide)
      (by decide) (by decide) (by decide) (by decide) (by decide) (by decide)⟩

/-- C12 for bank C on an acknowledging device. -/
theorem load_bank_wire_witness :
    ((PRISM_BANK_C = PRISM_BANK_A ∨ PRISM_BANK_C = PRISM_BANK_B ∨ PRISM_BANK_C = PRISM_BANK_C ∨
        PRISM_BANK_C = PRISM_BANK_D) ∧
      (_prism_arch_send_opcode ackEnv (some sampleDevice) (loadOpcode PRISM_BANK_C)
        PRISM_OPCODE_TYPE_UI8 1000 World.start).1 = PR_OK) ∧
    (loadOpcode PRISM_BANK_C =
      (if PRISM_BANK_C = PRISM_BANK_A then 0x5C else if PRISM_BANK_C = PRISM_BANK_B then 0x5D
        else if PRISM_BANK_C = PRISM_BANK_C then 0x5A else 0x5B) ∧
    (_prism_load_bank_x ackEnv (some sampleDevice) PRISM_BANK_C sampleVector 1000
      World.start).1 = PR_OK ∧
    (recvWords ackEnv sampleDevice 8 (_prism_arch_send_opcode ackEnv (some sampleDevice)
      (loadOpcode PRISM_BANK_C) PRISM_OPCODE_TYPE_UI8 1000 World.start).2).1.length = 8 ∧
    (∀ i : Fin 8, (_prism_load_bank_x ackEnv (some sampleDevice) PRISM_BANK_C sampleVector 1000
        World.start).2.1.ui i =
      (recvWords ackEnv sampleDevice 8 (_prism_arch_send_opcode ackEnv (some sampleDevice)
        (loadOpcode PRISM_BANK_C) PRISM_OPCODE_TYPE_UI8 1000 World.start).2).1.getD i.val 0) ∧
    (_prism_load_bank_x ackEnv (some sampleDevice) PRISM_BANK_C sampleVector 1000
        World.start).2.2 =
      (_prism_arch_send_opcode ackEnv (some sampleDevice) PRISM_OPCODE_END PRISM_OPCODE_TYPE_UI32
        1000 (recvWords ackEnv sampleDevice 8 (_prism_arch_send_opcode ackEnv (some sampleDevice)
          (loadOpcode PRISM_BANK_C) PRISM_OPCODE_TYPE_UI8 1000 World.start).2).2).2 ∧
    packets (_prism_load_bank_x ackEnv (some sampleDevice) PRISM_BANK_C sampleVector 1000
        World.start).2.2.trace =
      packets World.start.trace ++
        [prism_send_data_bytes ackEnv (loadOpcode PRISM_BANK_C) 255 PRISM_OPCODE_TYPE_UI8 1000,
         prism_send_data_bytes ackEnv 0x5F 255 PRISM_OPCODE_TYPE_UI32 1000]) :=
  ⟨⟨Or.inr (Or.inr (Or.inl rfl)), by decide⟩,
    load_bank_wire ackEnv sampleDevice PRISM_BANK_C sampleVector 1000 World.start
      (Or.inr (Or.inr (Or.inl rfl))) (by decide)⟩

/-- C15 for the word 0x01020304 on the pins of `sampleDevice`. -/
theorem entry_flag_once_witness :
    sampleDevice.config.pin6Next ∉ clockAndDataPins sampleDevice.config ∧
    ((pinWrites (wordTransfer sampleDevice 0x01020304)).count
        (sampleDevice.config.pin6Next, HIGH) = 1 ∧
    (pinWrites (byteTransfer sampleDevice ((0x01020304 % 2 ^ 32) &&& 0xFF) true)).count
        (sampleDevice.config.pin6Next, HIGH) = 1 ∧
    (∀ pre post, wordTransfer sampleDevice 0x01020304 = pre ++ post →
      (byteTransfer sampleDevice ((0x01020304 % 2 ^ 32) &&& 0xFF) true).length ≤ pre.length →
      lineLevel sampleDevice.config.pin6Next pre = LOW)) :=
  ⟨by decide, entry_flag_once sampleDevice 0x01020304 (by decide)⟩

set_option maxRecDepth 100000 in
/-- The packets of a load from a silent device and of a load from an acknowledging one. -/
theorem load_bank_samples :
    packets (_prism_load_bank_x silentEnv (some sampleDevice) PRISM_BANK_D sampleVector 1000
        World.start).2.2.trace = [[0x5B, 0x00, 0xFF, 0xD4, 0xE8, 0x03, 0x00, 0x00]] ∧
    packets (_prism_load_bank_x ackEnv (some sampleDevice) PRISM_BANK_D sampleVector 1000
        World.start).2.2.trace =
      [[0x5B, 0x00, 0xFF, 0xD4, 0xE8, 0x03, 0x00, 0x00],
       [0x5F, 0x00, 0xFF, 0xD0, 0xE8, 0x03, 0x00, 0x00]] := by
  decide

/-! ## Reset and stop -/

/-- On a non-null device `prism_device_reset` is its one channel call, followed by a wait
when the call succeeded. -/
theorem device_reset_some (env : Env) (d : prdev_t) (w : World) :
    prism_device_reset env (some d) w =
      if (_prism_arch_send_opcode_arg1 env (some d) PRISM_OPCODE_ARCH_RESET PRISM_OPCODE_TYPE_UI8
          255 255 w).1 ≠ PR_OK then
        _prism_arch_send_opcode_arg1 env (some d) PRISM_OPCODE_ARCH_RESET PRISM_OPCODE_TYPE_UI8
          255 255 w
      else
        (PR_OK, delay 50 (_prism_arch_send_opcode_arg1 env (some d) PRISM_OPCODE_ARCH_RESET
          PRISM_OPCODE_TYPE_UI8 255 255 w).2) := by
  unfold prism_device_reset
  rw [send_opcode_some env d _ _ _ _ (by decide) (by decide)]
  simp only [reduceCtorEq, if_false]

/-- On a non-null device `prism_device_stop` is its one channel call, followed by a wait
when the call succeeded. -/
theorem device_stop_some (env : Env) (d : prdev_t) (w : World) :
    prism_device_stop env (some d) w =
      if (_prism_arch_send_opcode_arg1 env (some d) PRISM_OPCODE_ARCH_END PRISM_OPCODE_TYPE_UI8
          255 255 w).1 ≠ PR_OK then
        _prism_arch_send_opcode_arg1 env (some d) PRISM_OPCODE_ARCH_END PRISM_OPCODE_TYPE_UI8
          255 255 w
      else
        (PR_OK, delay 50 (_prism_arch_send_opcode_arg1 env (some d) PRISM_OPCODE_ARCH_END
          PRISM_OPCODE_TYPE_UI8 255 255 w).2) := by
  unfold prism_device_stop
  rw [send_opcode_some env d _ _ _ _ (by decide) (by decide)]
  simp only [reduceCtorEq, if_false]

/-- A wait adds no packet. -/
theorem packets_delay (ms : Nat) (w : World) : packets (delay ms w).trace = packets w.trace := by
  simp [delay, emit, packets, List.filterMap_append]

/-- The one packet of `prism_device_reset`. -/
theorem device_reset_packets (env : Env) (d : prdev_t) (w : World) :
    packets (prism_device_reset env (some d) w).2.trace =
      packets w.trace ++
        [prism_send_data_bytes env PRISM_OPCODE_ARCH_RESET 255 PRISM_OPCODE_TYPE_UI8 255] := by
  rw [device_reset_some]
  split
  · exact send_opcode_arg1_packets env d _ _ _ _ w
  · rw [packets_delay]
    exact send_opcode_arg1_packets env d _ _ _ _ w

/-- The one packet of `prism_device_stop`. -/
theorem device_stop_packets (env : Env) (d : prdev_t) (w : World) :
    packets (prism_device_stop env (some d) w).2.trace =
      packets w.trace ++
        [prism_send_data_bytes env PRISM_OPCODE_ARCH_END 255 PRISM_OPCODE_TYPE_UI8 255] := by
  rw [device_stop_some]
  split
  · exact send_opcode_arg1_packets env d _ _ _ _ w
  · rw [packets_delay]
    exact send_opcode_arg1_packets env d _ _ _ _ w

/-- C21: for a non-null device `prism_device_reset` returns exactly what the channel
returns for the opcode ARCH_RESET (0x05) and `prism_device_stop` what it returns for
ARCH_END (0x06): `PR_OK` exactly when the channel call is `PR_OK`, the channel's error
otherwise; each puts exactly one command packet on the bus. -/
theorem reset_stop_result (env : Env) (d : prdev_t) (w : World) :
    (prism_device_reset env (some d) w).1 =
      (_prism_arch_send_opcode env (some d) 0x05 PRISM_OPCODE_TYPE_UI8 255 w).1 ∧
    (prism_device_stop env (some d) w).1 =
      (_prism_arch_send_opcode env (some d) 0x06 PRISM_OPCODE_TYPE_UI8 255 w).1 ∧
    ((prism_device_reset env (some d) w).1 = PR_OK ↔
      (_prism_arch_send_opcode env (some d) 0x05 PRISM_OPCODE_TYPE_UI8 255 w).1 = PR_OK) ∧
    ((prism_device_stop env (some d) w).1 = PR_OK ↔
      (_prism_arch_send_opcode env (some d) 0x06 PRISM_OPCODE_TYPE_UI8 255 w).1 = PR_OK) ∧
    packets (prism_device_reset env (some d) w).2.trace =
      packets w.trace ++ [prism_send_data_bytes env 0x05 255 PRISM_OPCODE_TYPE_UI8 255] ∧
    packets (prism_device_stop env (some d) w).2.trace =
      packets w.trace ++ [prism_send_data_bytes env 0x06 255 PRISM_OPCODE_TYPE_UI8 255] := by
  have hr : (prism_device_reset env (some d) w).1 =
      (_prism_arch_send_opcode env (some d) 0x05 PRISM_OPCODE_TYPE_UI8 255 w).1 := by
    rw [device_reset_some, send_opcode_some env d _ _ _ _ (by decide) (by decide)]
    by_cases h : (_prism_arch_send_opcode_arg1 env (some d) PRISM_OPCODE_ARCH_RESET
        PRISM_OPCODE_TYPE_UI8 255 255 w).1 = PR_OK
    · rw [if_neg (by simpa using h)]
      exact h.symm
    · rw [if_pos h]
      rfl
  have hs : (prism_device_stop env (some d) w).1 =
      (_prism_arch_send_opcode env (some d) 0x06 PRISM_OPCODE_TYPE_UI8 255 w).1 := by
    rw [device_stop_some, send_opcode_some env d _ _ _ _ (by decide) (by decide)]
    by_cases h : (_prism_arch_send_opcode_arg1 env (some d) PRISM_OPCODE_ARCH_END
        PRISM_OPCODE_TYPE_UI8 255 255 w).1 = PR_OK
    · rw [if_neg (by simpa using h)]
      exact h.symm
    · rw [if_pos h]
      rfl
  exact ⟨hr, hs, by rw [hr], by rw [hs], device_reset_packets env d w,
    device_stop_packets env d w⟩

/-- The packets of a reset and of a stop on an acknowledging device. -/
theorem reset_stop_samples :
    packets (prism_device_reset ackEnv (some sampleDevice) World.start).2.trace =
      [[0x05, 0x00, 0xFF, 0xD4, 0xFF, 0x00, 0x00, 0x00]] ∧
    packets (prism_device_stop ackEnv (some sampleDevice) World.start).2.trace =
      [[0x06, 0x00, 0xFF, 0xD4, 0xFF, 0x00, 0x00, 0x00]] ∧
    (prism_device_reset silentEnv (some sampleDevice) World.start).1 = PR_ERR_UNKNOWN ∧
    (prism_device_stop ackEnv none World.start).1 = PR_ERR_INVALID_ARGUMENT := by
  decide

/-- The four timeout bytes for the value 255 differ from those for the largest 32-bit
value on every platform. -/
theorem timeout_255_not_maximal (env : Env) :
    scalarBytes env 4 255 ≠ scalarBytes env 4 0xFFFFFFFF := by
  unfold scalarBytes
  cases env.bigEndian <;> decide

/-- C22, counterexample: on an acknowledging little-endian platform the packets of a reset
and of a stop end in the timeout bytes FF 00 00 00 (the value 255), whereas a packet with
the largest value of `timeout_t` would end in FF FF FF FF. -/
theorem reset_stop_timeout_not_maximal :
    packets (prism_device_reset ackEnv (some sampleDevice) World.start).2.trace =
      [[0x05, 0x00, 0xFF, 0xD4, 0xFF, 0x00, 0x00, 0x00]] ∧
    packets (prism_device_stop ackEnv (some sampleDevice) World.start).2.trace =
      [[0x06, 0x00, 0xFF, 0xD4, 0xFF, 0x00, 0x00, 0x00]] ∧
    prism_send_data_bytes ackEnv 0x05 255 PRISM_OPCODE_TYPE_UI8 0xFFFFFFFF =
      [0x05, 0x00, 0xFF, 0xD4, 0xFF, 0xFF, 0xFF, 0xFF] ∧
    packets (prism_device_reset ackEnv (some sampleDevice) World.start).2.trace ≠
      [prism_send_data_bytes ackEnv 0x05 255 PRISM_OPCODE_TYPE_UI8 0xFFFFFFFF] ∧
    packets (prism_device_stop ackEnv (some sampleDevice) World.start).2.trace ≠
      [prism_send_data_bytes ackEnv 0x06 255 PRISM_OPCODE_TYPE_UI8 0xFFFFFFFF] := by
  decide

/-- C22, amended: the command packet sent by `prism_device_reset` and by
`prism_device_stop` carries a fixed timeout that no caller input reaches: its 32-bit
timeout field holds the value 255, which is not the largest value of `timeout_t`
(0xFFFFFFFF). -/
theorem reset_stop_timeout_field (env : Env) (d : prdev_t) (w : World) :
    packets (prism_device_reset env (some d) w).2.trace =
      packets w.trace ++
        [scalarBytes env 2 0x05 ++ [0xFF] ++ [0xD4] ++ scalarBytes env 4 255] ∧
    packets (prism_device_stop env (some d) w).2.trace =
      packets w.trace ++
        [scalarBytes env 2 0x06 ++ [0xFF] ++ [0xD4] ++ scalarBytes env 4 255] ∧
    scalarBytes env 4 255 ≠ scalarBytes env 4 0xFFFFFFFF := by
  refine ⟨?_, ?_, timeout_255_not_maximal env⟩
  · rw [device_reset_packets, prism_send_data_bytes_eq]
    rfl
  · rw [device_stop_packets, prism_send_data_bytes_eq]
    rfl

/-! ## Typed wrappers with a zero type tag -/

/-- For a lane count in 1..8 each arithmetic and logic wrapper is its call of the argument
form of the channel. -/
theorem arith_wrapper_delegates
    (k : (Env → Option prdev_t → Nat → Nat → Nat → World → prism_err × World) × Nat)
    (hk : k ∈ arithWrappers) (env : Env) (d : prdev_t) (type n timeout : Nat) (w : World)
    (h1 : 1 ≤ n) (h8 : n ≤ 8) :
    k.1 env (some d) type n timeout w =
      _prism_arch_send_opcode_arg1 env (some d) k.2 type (n % 8) timeout w := by
  have hgood : ¬ (n < 1 ∨ n > 8) := by omega
  simp only [arithWrappers, List.mem_cons, List.mem_singleton, List.not_mem_nil, or_false] at hk
  rcases hk with rfl | rfl | rfl | rfl | rfl | rfl | rfl | rfl | rfl | rfl
  all_goals
    simp only [_v256_addN_ui32, _v256_subN_ui32, _v256_mulN_ui32, _v256_divN_ui32,
      _v256_andN_ui32, _v256_nandN_ui32, _v256_orN_ui32, _v256_xorN_ui32, _v256_norN_ui32,
      _v256_notN_ui32, if_neg hgood, reduceCtorEq, if_false]
    rfl

/-- C23, counterexample: on an acknowledging device `_v256_addN_ui32` with type tag 0 and
8 lanes returns `PR_OK` and puts a packet with the type byte 0 on the bus. -/
theorem arith_wrapper_type_zero_sent :
    (_v256_addN_ui32 ackEnv (some sampleDevice) 0 8 1000 World.start).1 = PR_OK ∧
    (_v256_addN_ui32 ackEnv (some sampleDevice) 0 8 1000 World.start).1 ≠
      PR_ERR_INVALID_ARGUMENT ∧
    (_v256_addN_ui32 ackEnv (some sampleDevice) 0 8 1000 World.start).2.trace =
      [Event.beginTransmission 0x42,
       Event.wireWrite [0x21, 0x00, 0x00, 0x00, 0xE8, 0x03, 0x00, 0x00],
       Event.endTransmission 0, Event.delay 50, Event.requestFrom 0x42 1 [0x01]] ∧
    packets (_v256_addN_ui32 ackEnv (some sampleDevice) 0 8 1000 World.start).2.trace ≠ [] := by
  decide

/-- C23, amended: a zero type tag is rejected locally only by the base form of the
channel. The ten arithmetic and logic wrappers of `src/inc/prism/prism.h` call the
argument form, which checks the device alone: with a non-null device, a lane count n in
1..8 and type = 0 the wrapper never returns `PR_ERR_INVALID_ARGUMENT`; it puts one packet
with the type byte 0 on the bus and returns the channel's result, `PR_OK` exactly when the
bus accepted the write and the device answered 0x01. -/
theorem arith_wrapper_type_zero
    (k : (Env → Option prdev_t → Nat → Nat → Nat → World → prism_err × World) × Nat)
    (hk : k ∈ arithWrappers) (env : Env) (d : prdev_t) (n timeout : Nat) (w : World)
    (h1 : 1 ≤ n) (h8 : n ≤ 8) :
    (k.1 env (some d) 0 n timeout w).1 ≠ PR_ERR_INVALID_ARGUMENT ∧
    k.1 env (some d) 0 n timeout w =
      _prism_arch_send_opcode_arg1 env (some d) k.2 0 (n % 8) timeout w ∧
    packets (k.1 env (some d) 0 n timeout w).2.trace =
      packets w.trace ++
        [scalarBytes env 2 k.2 ++ [n % 8] ++ [0] ++ scalarBytes env 4 timeout] ∧
    ((k.1 env (some d) 0 n timeout w).1 = PR_OK ↔
      writeStatus env d k.2 0 (n % 8) timeout w = 0 ∧
        (responseBytes env d k.2 0 (n % 8) timeout w).head? = some 0x01) := by
  have hrun := arith_wrapper_delegates k hk env d 0 n timeout w h1 h8
  have hres := send_opcode_arg1_some_result env d k.2 0 (n % 8) timeout w
  have hmod : n % 8 % 256 = n % 8 := by omega
  refine ⟨?_, hrun, ?_, ?_⟩
  · rw [hrun, hres]
    split <;> decide
  · rw [hrun, send_opcode_arg1_packets, prism_send_data_bytes_eq, hmod]
  · rw [hrun, hres]
    constructor
    · intro h
      by_contra hc
      rw [if_neg hc] at h
      exact absurd h (by decide)
    · intro h
      rw [if_pos h]

/-- C23, amended, for `_v256_addN_ui32` with 8 lanes on an acknowledging device. -/
theorem arith_wrapper_type_zero_witness :
    ((_v256_addN_ui32, 0x21) ∈ arithWrappers ∧ 1 ≤ 8 ∧ 8 ≤ 8) ∧
    ((_v256_addN_ui32 ackEnv (some sampleDevice) 0 8 1000 World.start).1 ≠
      PR_ERR_INVALID_ARGUMENT ∧
    _v256_addN_ui32 ackEnv (some sampleDevice) 0 8 1000 World.start =
      _prism_arch_send_opcode_arg1 ackEnv (some sampleDevice) 0x21 0 (8 % 8) 1000 World.start ∧
    packets (_v256_addN_ui32 ackEnv (some sampleDevice) 0 8 1000 World.start).2.trace =
      packets World.start.trace ++
        [scalarBytes ackEnv 2 0x21 ++ [8 % 8] ++ [0] ++ scalarBytes ackEnv 4 1000] ∧
    ((_v256_addN_ui32 ackEnv (some sampleDevice) 0 8 1000 World.start).1 = PR_OK ↔
      writeStatus ackEnv sampleDevice 0x21 0 (8 % 8) 1000 World.start = 0 ∧
        (responseBytes ackEnv sampleDevice 0x21 0 (8 % 8) 1000 World.start).head? =
          some 0x01)) :=
  ⟨⟨List.mem_cons_self _ _, by decide, by decide⟩,
    arith_wrapper_type_zero (_v256_addN_ui32, 0x21) (List.mem_cons_self _ _) ackEnv sampleDevice
      8 1000 World.start (by decide) (by decide)⟩

/-! ## The timeout parameter -/

/-- The waits of a channel call: the settle delay of 50 ms when the bus accepted the
packet, none otherwise. -/
theorem send_opcode_arg1_delays (env : Env) (d : prdev_t) (op type arg timeout : Nat)
    (w : World) :
    delays (_prism_arch_send_opcode_arg1 env (some d) op type arg timeout w).2.trace =
      delays w.trace ++ (if writeStatus env d op type arg timeout w = 0 then [50] else []) := by
  rw [send_opcode_arg1_trace]
  by_cases h : writeStatus env d op type arg timeout w = 0
  · simp [h, delays, List.filterMap_append]
  · simp [h, delays, List.filterMap_append]

/-- The receive buffer a channel call leaves behind. -/
theorem send_opcode_arg1_rx (env : Env) (d : prdev_t) (op type arg timeout : Nat)
    (w : World) :
    (_prism_arch_send_opcode_arg1 env (some d) op type arg timeout w).2.rx =
      if writeStatus env d op type arg timeout w ≠ 0 then w.rx
      else (responseBytes env d op type arg timeout w).tail := by
  rw [send_opcode_arg1_some]
  by_cases h : writeStatus env d op type arg timeout w = 0
  · have hR : ∀ x y : List Nat,
        (if writeStatus env d op type arg timeout w ≠ 0 then x else y) = y :=
      fun x y => if_neg (not_not.mpr h)
    rw [if_neg (not_not.mpr h), hR]
    by_cases hr : responseBytes env d op type arg timeout w = []
    · rw [if_pos hr]
      show responseBytes env d op type arg timeout w = _
      rw [hr]
      rfl
    · rw [if_neg hr]
  · have hR : ∀ x y : List Nat,
        (if writeStatus env d op type arg timeout w ≠ 0 then x else y) = x :=
      fun x y => if_pos h
    rw [if_pos h, hR]
    rfl

/-- C24: the timeout parameter is not enforced by the control channel. Two calls of
`_prism_arch_send_opcode_arg1` that differ only in the timeout value and meet the same
device behaviour (same bus status for the packet, same answer to the read request) return
the same error code and wait the same: the one settle delay of 50 ms when the bus accepted
the packet, nothing more. The two event traces are the same apart from the last four
bytes of the packet, which hold the timeout value; the receive buffer left behind is the
same. For a null device the call does not depend on the timeout at all. -/
theorem timeout_not_enforced (env : Env) (d : prdev_t) (op type arg t1 t2 : Nat) (w : World)
    (hst : writeStatus env d op type arg t1 w = writeStatus env d op type arg t2 w)
    (hresp : responseBytes env d op type arg t1 w = responseBytes env d op type arg t2 w) :
    (_prism_arch_send_opcode_arg1 env (some d) op type arg t1 w).1 =
      (_prism_arch_send_opcode_arg1 env (some d) op type arg t2 w).1 ∧
    delays (_prism_arch_send_opcode_arg1 env (some d) op type arg t1 w).2.trace =
      delays w.trace ++ (if writeStatus env d op type arg t1 w = 0 then [50] else []) ∧
    delays (_prism_arch_send_opcode_arg1 env (some d) op type arg t2 w).2.trace =
      delays w.trace ++ (if writeStatus env d op type arg t1 w = 0 then [50] else []) ∧
    (∀ t, t = t1 ∨ t = t2 →
      (_prism_arch_send_opcode_arg1 env (some d) op type arg t w).2.trace =
        w.trace ++
          [Event.beginTransmission d.address,
           Event.wireWrite
             (scalarBytes env 2 op ++ [arg % 256] ++ [type % 256] ++ scalarBytes env 4 t),
           Event.endTransmission (writeStatus env d op type arg t1 w)] ++
          (if writeStatus env d op type arg t1 w = 0 then
            [Event.delay 50,
             Event.requestFrom d.address 1 (responseBytes env d op type arg t1 w)]
           else [])) ∧
    (_prism_arch_send_opcode_arg1 env (some d) op type arg t1 w).2.rx =
      (_prism_arch_send_opcode_arg1 env (some d) op type arg t2 w).2.rx ∧
    _prism_arch_send_opcode_arg1 env none op type arg t1 w =
      _prism_arch_send_opcode_arg1 env none op type arg t2 w := by
  refine ⟨?_, ?_, ?_, ?_, ?_, rfl⟩
  · rw [send_opcode_arg1_some_result, send_opcode_arg1_some_result, hst, hresp]
  · exact send_opcode_arg1_delays env d op type arg t1 w
  · rw [send_opcode_arg1_delays, hst]
  · intro t ht
    rcases ht with rfl | rfl
    · rw [send_opcode_arg1_trace, prism_send_data_bytes_eq]
    · rw [send_opcode_arg1_trace, prism_send_data_bytes_eq, hst, hresp]
  · rw [send_opcode_arg1_rx, send_opcode_arg1_rx, hst, hresp]

/-- C24 for the timeouts 0 and 0xFFFFFFFF on an acknowledging device. -/
theorem timeout_not_enforced_witness :
    (writeStatus ackEnv sampleDevice 0x21 0xD0 3 0 World.start =
        writeStatus ackEnv sampleDevice 0x21 0xD0 3 0xFFFFFFFF World.start ∧
      responseBytes ackEnv sampleDevice 0x21 0xD0 3 0 World.start =
        responseBytes ackEnv sampleDevice 0x21 0xD0 3 0xFFFFFFFF World.start) ∧
    (_prism_arch_send_opcode_arg1 ackEnv (some sampleDevice) 0x21 0xD0 3 0 World.start).1 =
      (_prism_arch_send_opcode_arg1 ackEnv (some sampleDevice) 0x21 0xD0 3 0xFFFFFFFF
        World.start).1 ∧
    delays (_prism_arch_send_opcode_arg1 ackEnv (some sampleDevice) 0x21 0xD0 3 0
        World.start).2.trace = [50] ∧
    delays (_prism_arch_send_opcode_arg1 ackEnv (some sampleDevice) 0x21 0xD0 3 0xFFFFFFFF
        World.start).2.trace = [50] :=
  have h := timeout_not_enforced ackEnv sampleDevice 0x21 0xD0 3 0 0xFFFFFFFF World.start
    (by decide) (by decide)
  ⟨⟨by decide, by decide⟩, h.1, h.2.1, h.2.2.1⟩

/-- The timeout leaves no mark on a silent device either: the call fails after the one
settle delay, whatever the timeout. -/
theorem timeout_silent_samples :
    (_prism_arch_send_opcode_arg1 silentEnv (some sampleDevice) 0x21 0xD0 3 0 World.start).1 =
      PR_ERR_UNKNOWN ∧
    (_prism_arch_send_opcode_arg1 silentEnv (some sampleDevice) 0x21 0xD0 3 0xFFFFFFFF
      World.start).1 = PR_ERR_UNKNOWN ∧
    delays (_prism_arch_send_opcode_arg1 silentEnv (some sampleDevice) 0x21 0xD0 3 0
      World.start).2.trace = [50] ∧
    delays (_prism_arch_send_opcode_arg1 silentEnv (some sampleDevice) 0x21 0xD0 3 0xFFFFFFFF
      World.start).2.trace = [50] := by
  decide

/-! ## Vector construction and access -/

/-- The bit pattern stored for a 32-bit signed value is its two's-complement
reinterpretation, which is a 32-bit value. -/
theorem si32_as_ui32_eq (a : Int) (h1 : -2 ^ 31 ≤ a) (h2 : a < 2 ^ 31) :
    si32_as_ui32 a = twosComplement a % 2 ^ 32 ∧ twosComplement a < 2 ^ 32 := by
  unfold si32_as_ui32 twosComplement
  split <;> omega

/-- The lanes of `_v256_set8_siv`, listed. -/
theorem set8_siv_lanes (a b c d e f g h : Int) :
    (List.finRange 8).map (_v256_set8_siv a b c d e f g h).ui =
      [si32_as_ui32 a, si32_as_ui32 b, si32_as_ui32 c, si32_as_ui32 d, si32_as_ui32 e,
        si32_as_ui32 f, si32_as_ui32 g, si32_as_ui32 h] := by
  have h8 : List.finRange 8 = [0, 1, 2, 3, 4, 5, 6, 7] := rfl
  rw [h8]
  simp [_v256_set8_siv, Function.update]

/-- A vector is determined by the list of its lanes. -/
theorem v256_ext (v1 v2 : _v256i)
    (h : (List.finRange 8).map v1.ui = (List.finRange 8).map v2.ui) : v1 = v2 := by
  cases v1 with
  | mk u1 =>
    cases v2 with
    | mk u2 =>
      congr
      funext i
      have hi : i ∈ List.finRange 8 := List.mem_finRange i
      exact List.map_inj_left.mp h i hi

/-- C25: for all 32-bit values a..h, `_v256_set8_uiv(a, b, c, d, e, f, g, h)` is the vector
whose lanes 0..7 are a..h in that order; for every index n (an 8-bit value in the source),
`_v256_extract_ui32(v, n)` returns lane n mod 8 of v; extracting the indices 0..7 from the constructed vector returns
the arguments in order; and `_v256_set8_siv` of 32-bit signed values is `_v256_set8_uiv` of
their two's-complement reinterpretations. -/
theorem vector_set_extract (a b c d e f g h : Nat) (sa sb sc sd se sf sg sh : Int)
    (v : _v256i) (n : Nat)
    (hu : ∀ x ∈ [a, b, c, d, e, f, g, h], x < 2 ^ 32)
    (hs : ∀ x ∈ [sa, sb, sc, sd, se, sf, sg, sh], -2 ^ 31 ≤ x ∧ x < 2 ^ 31) :
    (List.finRange 8).map (_v256_set8_uiv a b c d e f g h).ui = [a, b, c, d, e, f, g, h] ∧
    _v256_extract_ui32 v n = v.ui ⟨n % 8, Nat.mod_lt _ (by decide)⟩ ∧
    (List.range 8).map (_v256_extract_ui32 (_v256_set8_uiv a b c d e f g h)) =
      [a, b, c, d, e, f, g, h] ∧
    _v256_set8_siv sa sb sc sd se sf sg sh =
      _v256_set8_uiv (twosComplement sa) (twosComplement sb) (twosComplement sc)
        (twosComplement sd) (twosComplement se) (twosComplement sf) (twosComplement sg)
        (twosComplement sh) := by
  have ha := hu a (by simp)
  have hb := hu b (by simp)
  have hc := hu c (by simp)
  have hd := hu d (by simp)
  have he := hu e (by simp)
  have hf := hu f (by simp)
  have hg := hu g (by simp)
  have hh := hu h (by simp)
  have hlanes : (List.finRange 8).map (_v256_set8_uiv a b c d e f g h).ui =
      [a, b, c, d, e, f, g, h] := by
    rw [set8_uiv_lanes, Nat.mod_eq_of_lt ha, Nat.mod_eq_of_lt hb, Nat.mod_eq_of_lt hc,
      Nat.mod_eq_of_lt hd, Nat.mod_eq_of_lt he, Nat.mod_eq_of_lt hf, Nat.mod_eq_of_lt hg,
      Nat.mod_eq_of_lt hh]
  refine ⟨hlanes, ?_, ?_, ?_⟩
  · unfold _v256_extract_ui32
    congr 2
    omega
  · have h8 : List.finRange 8 = [0, 1, 2, 3, 4, 5, 6, 7] := rfl
    rw [h8] at hlanes
    simpa [List.range_succ, _v256_extract_ui32] using hlanes
  · apply v256_ext
    rw [set8_siv_lanes, set8_uiv_lanes,
      (si32_as_ui32_eq sa (hs sa (by simp)).1 (hs sa (by simp)).2).1,
      (si32_as_ui32_eq sb (hs sb (by simp)).1 (hs sb (by simp)).2).1,
      (si32_as_ui32_eq sc (hs sc (by simp)).1 (hs sc (by simp)).2).1,
      (si32_as_ui32_eq sd (hs sd (by simp)).1 (hs sd (by simp)).2).1,
      (si32_as_ui32_eq se (hs se (by simp)).1 (hs se (by simp)).2).1,
      (si32_as_ui32_eq sf (hs sf (by simp)).1 (hs sf (by simp)).2).1,
      (si32_as_ui32_eq sg (hs sg (by simp)).1 (hs sg (by simp)).2).1,
      (si32_as_ui32_eq sh (hs sh (by simp)).1 (hs sh (by simp)).2).1]

/-- C25 for the lanes 10, 20, .., 80, the index 13 of `sampleVector` and the signed lanes
-1, 2, -3, 4, -5, 6, -7, 8. -/
theorem vector_set_extract_witness :
    ((∀ x ∈ [10, 20, 30, 40, 50, 60, 70, 80], x < 2 ^ 32) ∧
      (∀ x ∈ [(-1 : Int), 2, -3, 4, -5, 6, -7, 8], -2 ^ 31 ≤ x ∧ x < 2 ^ 31)) ∧
    (List.finRange 8).map (_v256_set8_uiv 10 20 30 40 50 60 70 80).ui =
      [10, 20, 30, 40, 50, 60, 70, 80] ∧
    _v256_extract_ui32 sampleVector 13 = sampleVector.ui ⟨13 % 8, Nat.mod_lt _ (by decide)⟩ ∧
    (List.range 8).map (_v256_extract_ui32 (_v256_set8_uiv 10 20 30 40 50 60 70 80)) =
      [10, 20, 30, 40, 50, 60, 70, 80] ∧
    _v256_set8_siv (-1) 2 (-3) 4 (-5) 6 (-7) 8 =
      _v256_set8_uiv (twosComplement (-1)) (twosComplement 2) (twosComplement (-3))
        (twosComplement 4) (twosComplement (-5)) (twosComplement 6) (twosComplement (-7))
        (twosComplement 8) :=
  ⟨⟨by decide, by decide⟩,
    vector_set_extract 10 20 30 40 50 60 70 80 (-1) 2 (-3) 4 (-5) 6 (-7) 8 sampleVector 13
      (by decide) (by decide)⟩

/-- Sample values: lane 5 of `sampleVector` is what index 13 extracts, and the signed lane
-1 is stored as 0xFFFFFFFF. -/
theorem vector_samples :
    _v256_extract_ui32 sampleVector 13 = 0x51525354 ∧
    _v256_extract_ui32 (_v256_set8_siv (-1) 2 (-3) 4 (-5) 6 (-7) 8) 0 = 0xFFFFFFFF ∧
    _v256_extract_ui32 (_v256_set8_siv (-1) 2 (-3) 4 (-5) 6 (-7) 8) 2 = 0xFFFFFFFD ∧
    _v256_extract_ui32 (_v256_set8_uiv 10 20 30 40 50 60 70 80) 15 = 80 := by
  decide

/-! ## Opcode numbering of the offset revision -/

set_option maxRecDepth 100000 in
/-- C26: in `src/include/prism/prism.h` the opcodes sent for the lane counts 1, .., 8 are
base + 1, .., base + 7, base. With the bases 0x01 (ADD) and 0x08 (SUB) the pair (ADD, 7
lanes) and the pair (SUB, 8 lanes) both send 0x08, so the map from (kind, lane count) to
the opcode is not injective, although the comments of the header give ADD the range 00..07
and SUB the range 08..0F. No produced opcode exceeds 0x4F, so none is NOTC (0x50), CTOB
(0x51) or CTOA (0x52). -/
theorem offset_opcodes_collide :
    offsetOpcodes Offset._v256_addN_ui32 = [0x02, 0x03, 0x04, 0x05, 0x06, 0x07, 0x08, 0x01] ∧
    offsetOpcodes Offset._v256_subN_ui32 = [0x09, 0x0A, 0x0B, 0x0C, 0x0D, 0x0E, 0x0F, 0x08] ∧
    offsetOpcodes Offset._v256_mulN_ui32 = [0x11, 0x12, 0x13, 0x14, 0x15, 0x16, 0x17, 0x10] ∧
    offsetOpcodes Offset._v256_divN_ui32 = [0x19, 0x1A, 0x1B, 0x1C, 0x1D, 0x1E, 0x1F, 0x18] ∧
    offsetOpcodes Offset._v256_andN_ui32 = [0x21, 0x22, 0x23, 0x24, 0x25, 0x26, 0x27, 0x20] ∧
    offsetOpcodes Offset._v256_nandN_ui32 = [0x29, 0x2A, 0x2B, 0x2C, 0x2D, 0x2E, 0x2F, 0x28] ∧
    offsetOpcodes Offset._v256_orN_ui32 = [0x31, 0x32, 0x33, 0x34, 0x35, 0x36, 0x37, 0x30] ∧
    offsetOpcodes Offset._v256_xorN_ui32 = [0x39, 0x3A, 0x3B, 0x3C, 0x3D, 0x3E, 0x3F, 0x38] ∧
    offsetOpcodes Offset._v256_norN_ui32 = [0x41, 0x42, 0x43, 0x44, 0x45, 0x46, 0x47, 0x40] ∧
    offsetOpcodes Offset._v256_notN_ui32 = [0x49, 0x4A, 0x4B, 0x4C, 0x4D, 0x4E, 0x4F, 0x48] ∧
    (Offset._v256_addN_ui32 Offset.recordingChannel (some ()) PRISM_OPCODE_TYPE_UI32 7 1000
        []).2 = [(0x08, 0xD0, 1000)] ∧
    (Offset._v256_subN_ui32 Offset.recordingChannel (some ()) PRISM_OPCODE_TYPE_UI32 8 1000
        []).2 = [(0x08, 0xD0, 1000)] ∧
    Offset.PRISM_OPCODE_ADD_BASE + 7 % 8 = Offset.PRISM_OPCODE_SUB_BASE + 8 % 8 := by
  decide

/-! ## The closing END opcode of a bank transfer -/

/-- C27: the return value of a bank transfer is the result of its first opcode alone:
`_prism_send_bank_x` returns what the channel returned for STORE_A or STORE_B, and
`_prism_load_bank_x` what it returned for the LOAD opcode of the bank (or
`PR_ERR_INVALID_ARGUMENT` for a bank that has none). When the first opcode is acknowledged
on a non-null device the transfer returns `PR_OK` and keeps only the world the END call
leaves behind: the error code of the END call, whatever it is, is dropped. -/
theorem bank_result_first_opcode (env : Env) (dev : Option prdev_t) (vec out : _v256i)
    (bank timeout : Nat) (w : World) :
    (_prism_send_bank_x env dev vec bank timeout w).1 =
      (_prism_arch_send_opcode env dev
        (if bank = PRISM_BANK_A then PRISM_OPCODE_STORE_A else PRISM_OPCODE_STORE_B)
        PRISM_OPCODE_TYPE_UI32 timeout w).1 ∧
    (_prism_load_bank_x env dev bank out timeout w).1 =
      (if bank = PRISM_BANK_A ∨ bank = PRISM_BANK_B ∨ bank = PRISM_BANK_C ∨ bank = PRISM_BANK_D
        then (_prism_arch_send_opcode env dev (loadOpcode bank) PRISM_OPCODE_TYPE_UI8 timeout w).1
        else PR_ERR_INVALID_ARGUMENT) ∧
    (∀ d, dev = some d →
      (_prism_arch_send_opcode env dev
        (if bank = PRISM_BANK_A then PRISM_OPCODE_STORE_A else PRISM_OPCODE_STORE_B)
        PRISM_OPCODE_TYPE_UI32 timeout w).1 = PR_OK →
      _prism_send_bank_x env dev vec bank timeout w =
        (PR_OK, (_prism_arch_send_opcode env dev PRISM_OPCODE_END PRISM_OPCODE_TYPE_UI8 timeout
          (sendLanes d vec (_prism_arch_send_opcode env dev
            (if bank = PRISM_BANK_A then PRISM_OPCODE_STORE_A else PRISM_OPCODE_STORE_B)
            PRISM_OPCODE_TYPE_UI32 timeout w).2)).2)) ∧
    (∀ d, dev = some d →
      bank = PRISM_BANK_A ∨ bank = PRISM_BANK_B ∨ bank = PRISM_BANK_C ∨ bank = PRISM_BANK_D →
      (_prism_arch_send_opcode env dev (loadOpcode bank) PRISM_OPCODE_TYPE_UI8 timeout w).1 =
        PR_OK →
      _prism_load_bank_x env dev bank out timeout w =
        (PR_OK,
          (recvLanes env d out
            (_prism_arch_send_opcode env dev (loadOpcode bank) PRISM_OPCODE_TYPE_UI8 timeout
              w).2).1,
          (_prism_arch_send_opcode env dev PRISM_OPCODE_END PRISM_OPCODE_TYPE_UI32 timeout
            (recvLanes env d out
              (_prism_arch_send_opcode env dev (loadOpcode bank) PRISM_OPCODE_TYPE_UI8 timeout
                w).2).2).2)) := by
  have hfirst : (if bank = PRISM_BANK_A then
        _prism_arch_send_opcode env dev PRISM_OPCODE_LOAD_A PRISM_OPCODE_TYPE_UI8 timeout w
      else if bank = PRISM_BANK_B then
        _prism_arch_send_opcode env dev PRISM_OPCODE_LOAD_B PRISM_OPCODE_TYPE_UI8 timeout w
      else if bank = PRISM_BANK_C then
        _prism_arch_send_opcode env dev PRISM_OPCODE_LOAD_C PRISM_OPCODE_TYPE_UI8 timeout w
      else if bank = PRISM_BANK_D then
        _prism_arch_send_opcode env dev PRISM_OPCODE_LOAD_D PRISM_OPCODE_TYPE_UI8 timeout w
      else (PR_ERR_INVALID_ARGUMENT, w)) =
      (if bank = PRISM_BANK_A ∨ bank = PRISM_BANK_B ∨ bank = PRISM_BANK_C ∨ bank = PRISM_BANK_D
        then _prism_arch_send_opcode env dev (loadOpcode bank) PRISM_OPCODE_TYPE_UI8 timeout w
        else (PR_ERR_INVALID_ARGUMENT, w)) := by
    unfold loadOpcode
    by_cases hA : bank = PRISM_BANK_A
    · subst hA
      rfl
    · by_cases hB : bank = PRISM_BANK_B
      · subst hB
        rfl
      · by_cases hC : bank = PRISM_BANK_C
        · subst hC
          rfl
        · by_cases hD : bank = PRISM_BANK_D
          · subst hD
            rfl
          · simp [hA, hB, hC, hD]
  refine ⟨?_, ?_, ?_, ?_⟩
  · unfold _prism_send_bank_x
    generalize _prism_arch_send_opcode env dev
      (if bank = PRISM_BANK_A then PRISM_OPCODE_STORE_A else PRISM_OPCODE_STORE_B)
      PRISM_OPCODE_TYPE_UI32 timeout w = r
    obtain ⟨err, w1⟩ := r
    by_cases he : err = PR_OK
    · subst he
      cases dev <;> simp
    · simp [he]
  · unfold _prism_load_bank_x
    rw [hfirst]
    by_cases hb : bank = PRISM_BANK_A ∨ bank = PRISM_BANK_B ∨ bank = PRISM_BANK_C ∨
        bank = PRISM_BANK_D
    · rw [if_pos hb, if_pos hb]
      generalize _prism_arch_send_opcode env dev (loadOpcode bank) PRISM_OPCODE_TYPE_UI8
        timeout w = r
      obtain ⟨err, w1⟩ := r
      by_cases he : err = PR_OK
      · subst he
        cases dev <;> simp
      · simp [he]
    · rw [if_neg hb, if_neg hb]
      rfl
  · intro d hd hack
    subst hd
    unfold _prism_send_bank_x
    revert hack
    generalize _prism_arch_send_opcode env (some d)
      (if bank = PRISM_BANK_A then PRISM_OPCODE_STORE_A else PRISM_OPCODE_STORE_B)
      PRISM_OPCODE_TYPE_UI32 timeout w = r
    obtain ⟨err, w1⟩ := r
    intro hack
    simp only at hack
    subst hack
    simp
  · intro d hd hb hack
    subst hd
    unfold _prism_load_bank_x
    rw [hfirst, if_pos hb]
    revert hack
    generalize _prism_arch_send_opcode env (some d) (loadOpcode bank) PRISM_OPCODE_TYPE_UI8
      timeout w = r
    obtain ⟨err, w1⟩ := r
    intro hack
    simp only at hack
    subst hack
    simp

set_option maxRecDepth 100000 in
/-- A device that acknowledges STORE_A and LOAD_A but leaves the END request unanswered:
the END call fails with `PR_ERR_UNKNOWN`, its read request is the last event of the
transfer and yields no byte, and the transfer returns `PR_OK`. -/
theorem bank_end_failure_samples :
    (_prism_send_bank_x endFailEnv (some sampleDevice) sampleVector PRISM_BANK_A 1000
      World.start).1 = PR_OK ∧
    (_prism_arch_send_opcode endFailEnv (some sampleDevice) PRISM_OPCODE_END
      PRISM_OPCODE_TYPE_UI8 1000
      (sendLanes sampleDevice sampleVector
        (_prism_arch_send_opcode endFailEnv (some sampleDevice) PRISM_OPCODE_STORE_A
          PRISM_OPCODE_TYPE_UI32 1000 World.start).2)).1 = PR_ERR_UNKNOWN ∧
    (_prism_send_bank_x endFailEnv (some sampleDevice) sampleVector PRISM_BANK_A 1000
      World.start).2.trace.getLast? = some (Event.requestFrom 0x42 1 []) ∧
    (_prism_load_bank_x endFailEnv (some sampleDevice) PRISM_BANK_A sampleVector 1000
      World.start).1 = PR_OK ∧
    (_prism_load_bank_x endFailEnv (some sampleDevice) PRISM_BANK_A sampleVector 1000
      World.start).2.2.trace.getLast? = some (Event.requestFrom 0x42 1 []) := by
  decide

/-! ## Bank values other than A in `_prism_send_bank_x` -/

/-- C28: `_prism_send_bank_x` does not validate the bank. For every bank value other than
`PRISM_BANK_A` it behaves exactly as for `PRISM_BANK_B`: it announces the transfer with
STORE_B (0x59); when that opcode is not acknowledged it returns the channel's result, and
when it is acknowledged it returns `PR_OK` after sending the STORE_B packet, the 8 lanes
in index order and the END packet. The wrapper `_v256_store_bank_v` is what rejects a bank
other than A and B, without touching the world. -/
theorem send_bank_no_validation (env : Env) (d : prdev_t) (vec : _v256i) (bank timeout : Nat)
    (w : World) (hb : bank ≠ PRISM_BANK_A) :
    _prism_send_bank_x env (some d) vec bank timeout w =
      _prism_send_bank_x env (some d) vec PRISM_BANK_B timeout w ∧
    ((_prism_arch_send_opcode env (some d) 0x59 PRISM_OPCODE_TYPE_UI32 timeout w).1 ≠ PR_OK →
      _prism_send_bank_x env (some d) vec bank timeout w =
        _prism_arch_send_opcode env (some d) 0x59 PRISM_OPCODE_TYPE_UI32 timeout w) ∧
    ((_prism_arch_send_opcode env (some d) 0x59 PRISM_OPCODE_TYPE_UI32 timeout w).1 = PR_OK →
      (_prism_send_bank_x env (some d) vec bank timeout w).1 = PR_OK ∧
      ∃ st resp, (_prism_send_bank_x env (some d) vec bank timeout w).2.trace =
        w.trace ++
          [Event.beginTransmission d.address,
           Event.wireWrite (prism_send_data_bytes env 0x59 255 PRISM_OPCODE_TYPE_UI32 timeout),
           Event.endTransmission 0, Event.delay 50, Event.requestFrom d.address 1 [0x01]] ++
          ((List.finRange 8).map (fun i => wordTransfer d (vec.ui i))).flatten ++
          [Event.beginTransmission d.address,
           Event.wireWrite (prism_send_data_bytes env 0x5F 255 PRISM_OPCODE_TYPE_UI8 timeout),
           Event.endTransmission st] ++
          (if st = 0 then [Event.delay 50, Event.requestFrom d.address 1 resp] else [])) ∧
    (bank ≠ PRISM_BANK_B →
      _v256_store_bank_v env (some d) bank vec timeout w = (PR_ERR_INVALID_ARGUMENT, w)) := by
  have hop : (if bank = PRISM_BANK_A then PRISM_OPCODE_STORE_A else PRISM_OPCODE_STORE_B) =
      0x59 := by
    rw [if_neg hb]
    rfl
  have hrun : _prism_send_bank_x env (some d) vec bank timeout w =
      _prism_send_bank_x env (some d) vec PRISM_BANK_B timeout w := by
    unfold _prism_send_bank_x
    rw [if_neg hb, if_neg (by decide : ¬ PRISM_BANK_B = PRISM_BANK_A)]
  refine ⟨hrun, ?_, ?_, ?_⟩
  · intro h
    unfold _prism_send_bank_x
    rw [hop]
    simp only [h, ne_eq, not_false_eq_true, if_true]
  · intro hack
    rw [send_opcode_some env d _ _ _ _ (by decide) (by decide)] at hack
    have hack2 : (_prism_arch_send_opcode_arg1 env (some d)
        (if bank = PRISM_BANK_A then PRISM_OPCODE_STORE_A else PRISM_OPCODE_STORE_B)
        PRISM_OPCODE_TYPE_UI32 255 timeout w).1 = PR_OK := by
      rw [hop]
      exact hack
    have hok := send_bank_x_ok env d vec bank timeout w (by rw [hop]; decide) hack2
    have htr := send_opcode_arg1_ack_trace env d _ _ _ _ w hack
    rw [hok]
    refine ⟨rfl, ?_⟩
    obtain ⟨st, resp, hend⟩ := send_opcode_arg1_trace_exists env d PRISM_OPCODE_END
      PRISM_OPCODE_TYPE_UI8 255 timeout (sendLanes d vec (_prism_arch_send_opcode_arg1 env (some d)
        (if bank = PRISM_BANK_A then PRISM_OPCODE_STORE_A else PRISM_OPCODE_STORE_B)
        PRISM_OPCODE_TYPE_UI32 255 timeout w).2)
    refine ⟨st, resp, ?_⟩
    rw [hend, sendLanes_trace, hop, htr]
    rfl
  · intro hB
    unfold _v256_store_bank_v
    rw [if_neg (by simp), if_pos ⟨hb, hB⟩]

/-- C28 for the bank value `PRISM_BANK_MAX` on an acknowledging device. -/
theorem send_bank_no_validation_witness :
    PRISM_BANK_MAX ≠ PRISM_BANK_A ∧
    _prism_send_bank_x ackEnv (some sampleDevice) sampleVector PRISM_BANK_MAX 1000 World.start =
      _prism_send_bank_x ackEnv (some sampleDevice) sampleVector PRISM_BANK_B 1000
        World.start ∧
    (PRISM_BANK_MAX ≠ PRISM_BANK_B →
      _v256_store_bank_v ackEnv (some sampleDevice) PRISM_BANK_MAX sampleVector 1000
        World.start = (PR_ERR_INVALID_ARGUMENT, World.start)) :=
  have h := send_bank_no_validation ackEnv sampleDevice sampleVector PRISM_BANK_MAX 1000
    World.start (by decide)
  ⟨by decide, h.1, h.2.2.2⟩

set_option maxRecDepth 100000 in
/-- The packets of a store to the bank values C, D, `PRISM_BANK_MAX` and 200 on an
acknowledging device: STORE_B and END, with the 8 lanes of 32 byte transfers between. -/
theorem send_bank_other_samples :
    packets (_prism_send_bank_x ackEnv (some sampleDevice) sampleVector PRISM_BANK_C 1000
      World.start).2.trace =
      [[0x59, 0x00, 0xFF, 0xD0, 0xE8, 0x03, 0x00, 0x00],
       [0x5F, 0x00, 0xFF, 0xD4, 0xE8, 0x03, 0x00, 0x00]] ∧
    packets (_prism_send_bank_x ackEnv (some sampleDevice) sampleVector PRISM_BANK_D 1000
      World.start).2.trace =
      [[0x59, 0x00, 0xFF, 0xD0, 0xE8, 0x03, 0x00, 0x00],
       [0x5F, 0x00, 0xFF, 0xD4, 0xE8, 0x03, 0x00, 0x00]] ∧
    packets (_prism_send_bank_x ackEnv (some sampleDevice) sampleVector PRISM_BANK_MAX 1000
      World.start).2.trace =
      [[0x59, 0x00, 0xFF, 0xD0, 0xE8, 0x03, 0x00, 0x00],
       [0x5F, 0x00, 0xFF, 0xD4, 0xE8, 0x03, 0x00, 0x00]] ∧
    (pinWrites (_prism_send_bank_x ackEnv (some sampleDevice) sampleVector 200 1000
      World.start).2.trace).length = 8 * (12 + 3 * 11) ∧
    (_prism_send_bank_x ackEnv (some sampleDevice) sampleVector 200 1000 World.start).1 =
      PR_OK := by
  decide

/-! ## Wrappers that send no lane count -/

/-- C29: for `_v256_notc_x`, the seven comparison wrappers and the two shift wrappers of
`src/inc/prism/prism.h` the lane count only gates validation: for any two lane counts in
1..8 and otherwise equal inputs, in the same world, the two calls are the same call of the
channel, so the returned error code, the packet put on the bus and the whole world left
behind are identical; and the call they delegate to does not take the lane count. -/
theorem lane_count_not_sent (c : TypedWrapper) (hc : c ∈ laneBlindWrappers) (env : Env)
    (dev : Option prdev_t) (type n1 n2 num timeout : Nat) (w : World)
    (h1 : 1 ≤ n1 ∧ n1 ≤ 8) (h2 : 1 ≤ n2 ∧ n2 ≤ 8) :
    c.run env dev type n1 num timeout w = c.run env dev type n2 num timeout w ∧
    (c.run env dev type n1 num timeout w).1 = (c.run env dev type n2 num timeout w).1 ∧
    packets (c.run env dev type n1 num timeout w).2.trace =
      packets (c.run env dev type n2 num timeout w).2.trace ∧
    (dev ≠ none → c.run env dev type n1 num timeout w = c.delegate env dev type 0 num timeout w) ∧
    (∀ m1 m2, c.delegate env dev type m1 num timeout w = c.delegate env dev type m2 num timeout w)
    := by
  have hg1 : ¬ (n1 < 1 ∨ n1 > 8) := by omega
  have hg2 : ¬ (n2 < 1 ∨ n2 > 8) := by omega
  have hrun : c.run env dev type n1 num timeout w = c.run env dev type n2 num timeout w ∧
      (dev ≠ none →
        c.run env dev type n1 num timeout w = c.delegate env dev type 0 num timeout w) ∧
      (∀ m1 m2,
        c.delegate env dev type m1 num timeout w = c.delegate env dev type m2 num timeout w) := by
    simp only [laneBlindWrappers, typedWrappers, List.drop_succ_cons, List.drop_zero,
      List.mem_cons, List.mem_singleton, List.not_mem_nil, or_false] at hc
    rcases hc with rfl | rfl | rfl | rfl | rfl | rfl | rfl | rfl | rfl | rfl
    all_goals
      simp only [_v256_notc_x, _v256_cpm_epN_px, _v256_cpm_nepN_px, _v256_cpm_gt_px,
        _v256_cpm_geN_px, _v256_cpm_ltN_px, _v256_cpm_leN_px, _v256_cpm_cplN_px,
        _v256_cpm_shlN_pa, _v256_cpm_shrN_pa, if_neg hg1, if_neg hg2]
      refine ⟨trivial, ?_, fun _ _ => trivial⟩
      intro hd
      rw [if_neg hd]
  exact ⟨hrun.1, by rw [hrun.1], by rw [hrun.1], hrun.2.1, hrun.2.2⟩

/-- C29 for `_v256_notc_x` with 1 lane and with 8 lanes on an acknowledging device. -/
theorem lane_count_not_sent_witness :
    ((⟨fun env dev type len _ t w => _v256_notc_x env dev type len t w,
        fun env dev type _ _ t w => _prism_arch_send_opcode env dev PRISM_OPCODE_NOTC type t w⟩ :
        TypedWrapper) ∈ laneBlindWrappers ∧ (1 ≤ 1 ∧ 1 ≤ 8) ∧ (1 ≤ 8 ∧ 8 ≤ 8)) ∧
    _v256_notc_x ackEnv (some sampleDevice) PRISM_OPCODE_TYPE_UI32 1 1000 World.start =
      _v256_notc_x ackEnv (some sampleDevice) PRISM_OPCODE_TYPE_UI32 8 1000 World.start :=
  ⟨⟨List.mem_cons_self _ _, by decide, by decide⟩,
    (lane_count_not_sent _ (List.mem_cons_self _ _) ackEnv (some sampleDevice)
      PRISM_OPCODE_TYPE_UI32 1 8 0 1000 World.start (by decide) (by decide)).1⟩

/-- The packets of a comparison and of a shift for 1 lane and for 8 lanes: the same, with
no lane count in it (the argument byte is 255 for the comparison and `num` for the
shift). -/
theorem lane_blind_samples :
    packets (_v256_cpm_epN_px ackEnv (some sampleDevice) 1 1000 World.start).2.trace =
      [[0x70, 0x00, 0xFF, 0xD0, 0xE8, 0x03, 0x00, 0x00]] ∧
    packets (_v256_cpm_epN_px ackEnv (some sampleDevice) 8 1000 World.start).2.trace =
      [[0x70, 0x00, 0xFF, 0xD0, 0xE8, 0x03, 0x00, 0x00]] ∧
    packets (_v256_cpm_shlN_pa ackEnv (some sampleDevice) 1 5 1000 World.start).2.trace =
      [[0x77, 0x00, 0x05, 0xD0, 0xE8, 0x03, 0x00, 0x00]] ∧
    packets (_v256_cpm_shlN_pa ackEnv (some sampleDevice) 8 5 1000 World.start).2.trace =
      [[0x77, 0x00, 0x05, 0xD0, 0xE8, 0x03, 0x00, 0x00]] ∧
    packets (_v256_notc_x ackEnv (some sampleDevice) PRISM_OPCODE_TYPE_UI32 3 1000
      World.start).2.trace = [[0x2B, 0x00, 0xFF, 0xD0, 0xE8, 0x03, 0x00, 0x00]] := by
  decide

/-! ## Byte-level loopback -/

set_option maxRecDepth 100000 in
/-- The byte spelled by the levels of eight lines that carry its bits. -/
theorem latched_bits : ∀ b < 256,
    (if b % 2 = 1 then 1 else 0) + (if b.testBit 1 = true then 2 else 0) +
    (if b.testBit 2 = true then 4 else 0) + (if b.testBit 3 = true then 8 else 0) +
    (if b.testBit 4 = true then 16 else 0) + (if b.testBit 5 = true then 32 else 0) +
    (if b.testBit 6 = true then 64 else 0) + (if b.testBit 7 = true then 128 else 0) = b := by
  decide

/-- C30: byte-level loopback. For every byte b, both values of the new-entry flag of
either call and every pin configuration with ten pairwise different pins, on a platform
where a data pin reads the level last written to its line, `__prism_recv_byte` called
after `__prism_send_byte(dev, b, _)` returns b; after the send, and after a reception
from any world, the clock line and the entry-flag line are LOW. The pins
`prism_device_create` installs for a null configuration are pairwise different. -/
theorem byte_loopback (env : Env) (d : prdev_t) (b : Nat) (ne1 ne2 : Bool) (w : World)
    (hp : (allPins d.config).Nodup) (hb : b < 256)
    (hkeep : ∀ tr, ∀ p ∈ [d.config.pin1low, d.config.pin2low, d.config.pin3low,
      d.config.pin4low, d.config.pin7high, d.config.pin8high, d.config.pin9high,
      d.config.pin10high], env.pin tr p = decide (lineLevel p tr ≠ LOW)) :
    (__prism_recv_byte env d ne2 (__prism_send_byte d b ne1 w)).1 = b ∧
    lineLevel d.config.pin5Time (__prism_send_byte d b ne1 w).trace = LOW ∧
    lineLevel d.config.pin6Next (__prism_send_byte d b ne1 w).trace = LOW ∧
    (∀ w0, lineLevel d.config.pin5Time (__prism_recv_byte env d ne2 w0).2.trace = LOW ∧
      lineLevel d.config.pin6Next (__prism_recv_byte env d ne2 w0).2.trace = LOW) ∧
    (allPins installedDefaultConfig).Nodup ∧
    (∀ address wireInit d0 w0, 1 ≤ address → address ≤ 127 →
      ∃ d1, (prism_device_create env address wireInit none (some d0) w0).2.1 = some d1 ∧
        d1.config = installedDefaultConfig) := by
  have hp0 := hp
  simp only [allPins, List.nodup_cons, List.mem_cons, List.mem_singleton, not_or,
    List.not_mem_nil, not_false_eq_true, List.nodup_nil, and_true] at hp0
  obtain ⟨⟨a1, a2, a3, a4, a5, a6, a7, a8, a9⟩, ⟨b2, b3, b4, b5, b6, b7, b8, b9⟩,
    ⟨c3, c4, c5, c6, c7, c8, c9⟩, ⟨d4, d5, d6, d7, d8, d9⟩, ⟨e5, e6, e7, e8, e9⟩,
    ⟨f6, f7, f8, f9⟩, ⟨g7, g8, g9⟩, ⟨h8, h9⟩, i9⟩ := hp0
  have k1 := fun tr => hkeep tr d.config.pin1low (by simp)
  have k2 := fun tr => hkeep tr d.config.pin2low (by simp)
  have k3 := fun tr => hkeep tr d.config.pin3low (by simp)
  have k4 := fun tr => hkeep tr d.config.pin4low (by simp)
  have k7 := fun tr => hkeep tr d.config.pin7high (by simp)
  have k8 := fun tr => hkeep tr d.config.pin8high (by simp)
  have k9 := fun tr => hkeep tr d.config.pin9high (by simp)
  have k10 := fun tr => hkeep tr d.config.pin10high (by simp)
  have hbits := latched_bits b hb
  have hmod : b % 256 = b := Nat.mod_eq_of_lt hb
  refine ⟨?_, ?_, ?_, ?_, by decide, ?_⟩
  · have hs := send_byte_trace d b ne1 w
    rw [byteTransfer_eq, hmod] at hs
    generalize __prism_send_byte d b ne1 w = w1 at hs ⊢
    cases ne2
    · simp only [__prism_recv_byte, digitalRead, digitalWrite, delayMicroseconds, emit,
        Bool.false_eq_true, if_false, List.append_assoc, List.singleton_append, List.cons_append,
        List.nil_append, List.append_nil]
      rw [(assemble_bits _ _ _ _ _ _ _ _).1]
      cases ne1 <;>
        simpa [k1, k2, k3, k4, k7, k8, k9, k10, hs, lineLevel, List.foldl_append, HIGH, LOW,
          a1, a2, a3, a4, a5, a6, a7, a8, a9, b2, b3, b4, b5, b6, b7, b8, b9,
          c3, c4, c5, c6, c7, c8, c9, d4, d5, d6, d7, d8, d9, e5, e6, e7, e8, e9,
          f6, f7, f8, f9, g7, g8, g9, h8, h9, i9,
          Ne.symm a1, Ne.symm a2, Ne.symm a3, Ne.symm a4, Ne.symm a5, Ne.symm a6, Ne.symm a7,
          Ne.symm a8, Ne.symm a9, Ne.symm b2, Ne.symm b3, Ne.symm b4, Ne.symm b5, Ne.symm b6,
          Ne.symm b7, Ne.symm b8, Ne.symm b9, Ne.symm c3, Ne.symm c4, Ne.symm c5, Ne.symm c6,
          Ne.symm c7, Ne.symm c8, Ne.symm c9, Ne.symm d4, Ne.symm d5, Ne.symm d6, Ne.symm d7,
          Ne.symm d8, Ne.symm d9, Ne.symm e5, Ne.symm e6, Ne.symm e7, Ne.symm e8, Ne.symm e9,
          Ne.symm f6, Ne.symm f7, Ne.symm f8, Ne.symm f9, Ne.symm g7, Ne.symm g8, Ne.symm g9,
          Ne.symm h8, Ne.symm h9, Ne.symm i9] using hbits
    · simp only [__prism_recv_byte, digitalRead, digitalWrite, delayMicroseconds, emit,
        if_true, List.append_assoc, List.singleton_append, List.cons_append,
        List.nil_append, List.append_nil]
      rw [(assemble_bits _ _ _ _ _ _ _ _).1]
      cases ne1 <;>
        simpa [k1, k2, k3, k4, k7, k8, k9, k10, hs, lineLevel, List.foldl_append, HIGH, LOW,
          a1, a2, a3, a4, a5, a6, a7, a8, a9, b2, b3, b4, b5, b6, b7, b8, b9,
          c3, c4, c5, c6, c7, c8, c9, d4, d5, d6, d7, d8, d9, e5, e6, e7, e8, e9,
          f6, f7, f8, f9, g7, g8, g9, h8, h9, i9,
          Ne.symm a1, Ne.symm a2, Ne.symm a3, Ne.symm a4, Ne.symm a5, Ne.symm a6, Ne.symm a7,
          Ne.symm a8, Ne.symm a9, Ne.symm b2, Ne.symm b3, Ne.symm b4, Ne.symm b5, Ne.symm b6,
          Ne.symm b7, Ne.symm b8, Ne.symm b9, Ne.symm c3, Ne.symm c4, Ne.symm c5, Ne.symm c6,
          Ne.symm c7, Ne.symm c8, Ne.symm c9, Ne.symm d4, Ne.symm d5, Ne.symm d6, Ne.symm d7,
          Ne.symm d8, Ne.symm d9, Ne.symm e5, Ne.symm e6, Ne.symm e7, Ne.symm e8, Ne.symm e9,
          Ne.symm f6, Ne.symm f7, Ne.symm f8, Ne.symm f9, Ne.symm g7, Ne.symm g8, Ne.symm g9,
          Ne.symm h8, Ne.symm h9, Ne.symm i9] using hbits
  · rw [send_byte_trace, byteTransfer_eq]
    cases ne1 <;>
      simp [lineLevel, List.foldl_append, HIGH, LOW, Ne.symm a1, Ne.symm a2, Ne.symm a3,
        Ne.symm a4, Ne.symm a5, Ne.symm a6, Ne.symm a7, Ne.symm a8, Ne.symm a9]
  · rw [send_byte_trace, byteTransfer_eq]
    cases ne1 <;>
      simp [lineLevel, List.foldl_append, HIGH, LOW, a1, Ne.symm b2, Ne.symm b3,
        Ne.symm b4, Ne.symm b5, Ne.symm b6, Ne.symm b7, Ne.symm b8, Ne.symm b9]
  · intro w0
    cases ne2 <;>
      simp [__prism_recv_byte, digitalRead, digitalWrite, delayMicroseconds, emit,
        lineLevel, List.foldl_append, HIGH, LOW, a1, Ne.symm a1]
  · intro address wireInit d0 w0 h1 h127
    have hn : ¬ (address = 0 ∨ address > 127) := by omega
    unfold prism_device_create
    dsimp only
    rw [if_neg hn]
    exact ⟨_, rfl, rfl⟩

/-- C30 for the byte 0xA5 on the pins of `sampleDevice`, both calls flagged as a new
entry. -/
theorem byte_loopback_witness :
    ((allPins sampleDevice.config).Nodup ∧ 0xA5 < 256 ∧
      (∀ tr, ∀ p ∈ [sampleDevice.config.pin1low, sampleDevice.config.pin2low,
        sampleDevice.config.pin3low, sampleDevice.config.pin4low, sampleDevice.config.pin7high,
        sampleDevice.config.pin8high, sampleDevice.config.pin9high,
        sampleDevice.config.pin10high], latchEnv.pin tr p = decide (lineLevel p tr ≠ LOW))) ∧
    (__prism_recv_byte latchEnv sampleDevice true
      (__prism_send_byte sampleDevice 0xA5 true World.start)).1 = 0xA5 ∧
    lineLevel sampleDevice.config.pin5Time
      (__prism_send_byte sampleDevice 0xA5 true World.start).trace = LOW ∧
    lineLevel sampleDevice.config.pin6Next
      (__prism_send_byte sampleDevice 0xA5 true World.start).trace = LOW :=
  have h := byte_loopback latchEnv sampleDevice 0xA5 true true World.start (by decide)
    (by decide) (fun _ _ _ => rfl)
  ⟨⟨by decide, by decide, fun _ _ _ => rfl⟩, h.1, h.2.1, h.2.2.1⟩

/-- Bytes sent and read back on the pins installed for a null configuration, and a
configuration whose clock pin is also its first data pin, where the byte 0x01 comes back
as 0x00. -/
theorem byte_loopback_samples :
    (__prism_recv_byte latchEnv { sampleDevice with config := installedDefaultConfig } false
      (__prism_send_byte { sampleDevice with config := installedDefaultConfig } 0xA5 true
        World.start)).1 = 0xA5 ∧
    (__prism_recv_byte latchEnv { sampleDevice with config := installedDefaultConfig } true
      (__prism_send_byte { sampleDevice with config := installedDefaultConfig } 0x5A false
        World.start)).1 = 0x5A ∧
    (__prism_recv_byte latchEnv
      { sampleDevice with config := { sampleConfig with pin5Time := sampleConfig.pin1low } } false
      (__prism_send_byte
        { sampleDevice with config := { sampleConfig with pin5Time := sampleConfig.pin1low } }
        0x01 false World.start)).1 = 0x00 := by
  decide

end Prism
